import Mathlib

/-!
# terraform-provider-beeswax: the reconciliation core

A shallow embedding of `internal/beeswax-client/client.go` (session client and
entity gateways), of the conversion and CRUD functions of
`internal/provider/role_resource.go`, `internal/provider/user_resource.go` and
`internal/provider/utils.go`, of `Read` in
`internal/provider/roles_data_source.go` and of `Configure` in
`internal/provider/provider.go`.

Conventions of the embedding:

* Go `int64` and `int` values are integers (`Int`); the only place where the
  64-bit range matters is JSON decoding, which checks it explicitly.
* Go strings and byte slices are modelled as text (`String`).
* A Go slice is a `Slice`: either the nil slice or a non-nil slice with its
  elements, since the two are encoded differently by `encoding/json`.
* A Go `error` is a `GoError`; the nil error is `none`.
* The network is a parameter: an `http.Client` gives, for each request, the
  response received or the transport error. An operation that does not depend
  on this parameter sends nothing.
* The process environment is a parameter of `Configure`.
-/

set_option linter.dupNamespace false

/-! ## Go slices -/

/-- A Go slice value: the nil slice, or a non-nil slice holding `elems`. -/
inductive Slice (α : Type) where
  | nil : Slice α
  | mk (elems : List α) : Slice α
  deriving DecidableEq, Repr

namespace Slice

variable {α : Type}

/-- The elements a `range` loop visits, in order. -/
def elems : Slice α → List α
  | nil => []
  | mk l => l

/-- Go `len(s)`. -/
def len (s : Slice α) : Nat := s.elems.length

/-- Go `append(s, x)`: the result is never nil. -/
def append (s : Slice α) (x : α) : Slice α := mk (s.elems ++ [x])

end Slice

/-! ## Go errors -/

/-- A non-nil Go `error` value, by its dynamic type. -/
inductive GoError where
  /-- The result of `errors.New(s)`. -/
  | errorString (s : String)
  /-- The result of `fmt.Errorf` with a `%w` verb: the formatted text and the
  wrapped error. -/
  | wrapError (msg : String) (err : GoError)
  /-- A `*json.SyntaxError`; its text, which quotes the offending character, is
  not part of the model. -/
  | SyntaxError
  /-- A `*json.UnmarshalTypeError`. -/
  | UnmarshalTypeError (Value GoType Struct Field : String)
  /-- Any other error value, raised by `net/http`, `net/url`, `io` or by
  `json.Marshal`, with its text. -/
  | library (msg : String)
  deriving DecidableEq, Repr

/-- Method `Error()`. The text of a `*json.SyntaxError`, which in Go names the
offending character, is not modelled: a fixed text stands in for it, and no
property below speaks of it. -/
def GoError.Error : GoError → String
  | .errorString s => s
  | .wrapError msg _ => msg
  | .SyntaxError => "invalid JSON input"
  | .UnmarshalTypeError Value GoType Struct Field =>
    if Struct ≠ "" ∨ Field ≠ "" then
      "json: cannot unmarshal " ++ Value ++ " into Go struct field " ++ Struct ++ "." ++ Field
        ++ " of type " ++ GoType
    else "json: cannot unmarshal " ++ Value ++ " into Go value of type " ++ GoType
  | .library msg => msg

/-- The error is a `*json.UnmarshalTypeError`. -/
def GoError.IsUnmarshalTypeError : GoError → Prop
  | .UnmarshalTypeError _ _ _ _ => True
  | _ => False

/-- Function `errors.New`. -/
def errors.New (text : String) : GoError := .errorString text

/-- Function `fmt.Errorf(msg ++ ": %w", err)`, the only format shape the client
uses. -/
def fmt.Errorf (msg : String) (err : GoError) : GoError :=
  .wrapError (msg ++ ": " ++ err.Error) err

/-! ## `encoding/json`

The client calls `json.Marshal` and `json.Unmarshal` on three fixed Go types.
The model follows the library: `Unmarshal` first checks that the whole input
is one valid JSON text (`json.parse`), then stores the value into the target by
the target's type, keeping the first type error and carrying on; `Marshal`
writes the fields of a struct in declaration order under their tag names. -/

namespace json

/-- A JSON text after scanning. A number keeps its literal. -/
inductive Value where
  | null
  | bool (b : Bool)
  | number (lit : String)
  | string (s : String)
  | array (items : List Value)
  | object (members : List (String × Value))
  deriving Repr

/-! ### Scanning -/

def isSpace (c : Char) : Bool := c = ' ' || c = '\t' || c = '\r' || c = '\n'

def skipSpace : List Char → List Char
  | [] => []
  | c :: cs => if isSpace c then skipSpace cs else c :: cs

def hexVal (c : Char) : Option Nat :=
  if '0' ≤ c ∧ c ≤ '9' then some (c.toNat - 48)
  else if 'a' ≤ c ∧ c ≤ 'f' then some (c.toNat - 87)
  else if 'A' ≤ c ∧ c ≤ 'F' then some (c.toNat - 55)
  else none

/-- Reads a backslash, `u` and four hexadecimal digits. -/
def getu4 : List Char → Option (Nat × List Char)
  | '\\' :: 'u' :: a :: b :: c :: d :: rest =>
    match hexVal a, hexVal b, hexVal c, hexVal d with
    | some x, some y, some z, some w => some (((x * 16 + y) * 16 + z) * 16 + w, rest)
    | _, _, _, _ => none
  | _ => none

/-- Scans a string literal after its opening quote and unquotes it. A lone
UTF-16 surrogate escape becomes U+FFFD; a control character is an error. -/
def scanString : Nat → List Char → List Char → Option (String × List Char)
  | 0, _, _ => none
  | fuel + 1, acc, cs =>
    match cs with
    | [] => none
    | '"' :: rest => some (String.mk acc.reverse, rest)
    | '\\' :: c :: rest =>
      if c = 'u' then
        match getu4 cs with
        | none => none
        | some (rr, rest1) =>
          if 0xD800 ≤ rr ∧ rr < 0xE000 then
            match getu4 rest1 with
            | some (rr1, rest2) =>
              if rr < 0xDC00 ∧ 0xDC00 ≤ rr1 ∧ rr1 < 0xE000 then
                scanString fuel
                  (Char.ofNat (0x10000 + (rr - 0xD800) * 0x400 + (rr1 - 0xDC00)) :: acc) rest2
              else scanString fuel (Char.ofNat 0xFFFD :: acc) rest1
            | none => scanString fuel (Char.ofNat 0xFFFD :: acc) rest1
          else scanString fuel (Char.ofNat rr :: acc) rest1
      else if c = '"' then scanString fuel ('"' :: acc) rest
      else if c = '\\' then scanString fuel ('\\' :: acc) rest
      else if c = '/' then scanString fuel ('/' :: acc) rest
      else if c = 'b' then scanString fuel (Char.ofNat 8 :: acc) rest
      else if c = 'f' then scanString fuel (Char.ofNat 12 :: acc) rest
      else if c = 'n' then scanString fuel ('\n' :: acc) rest
      else if c = 'r' then scanString fuel ('\r' :: acc) rest
      else if c = 't' then scanString fuel ('\t' :: acc) rest
      else none
    | c :: rest =>
      if c.toNat < 0x20 ∨ c = '\\' then none else scanString fuel (c :: acc) rest

def takeDigits : List Char → List Char × List Char
  | [] => ([], [])
  | c :: cs =>
    if c.isDigit then (c :: (takeDigits cs).1, (takeDigits cs).2) else ([], c :: cs)

/-- An optional minus sign. -/
def scanSign : List Char → List Char × List Char
  | '-' :: r => (['-'], r)
  | cs => ([], cs)

/-- The integer part of a number: `0`, or a digit run that does not start
with `0`. -/
def scanInt : List Char → Option (List Char × List Char)
  | [] => none
  | c :: r =>
    if c = '0' then some (['0'], r)
    else if c.isDigit then some (c :: (takeDigits r).1, (takeDigits r).2)
    else none

/-- An optional fraction: a dot and at least one digit. -/
def scanFrac : List Char → Option (List Char × List Char)
  | [] => some ([], [])
  | c :: r =>
    if c = '.' then
      if (takeDigits r).1 = [] then none
      else some ('.' :: (takeDigits r).1, (takeDigits r).2)
    else some ([], c :: r)

/-- An optional sign of an exponent. -/
def scanExpSign : List Char → List Char × List Char
  | [] => ([], [])
  | c :: r => if c = '+' ∨ c = '-' then ([c], r) else ([], c :: r)

/-- An optional exponent: `e` or `E`, an optional sign, at least one digit. -/
def scanExp : List Char → Option (List Char × List Char)
  | [] => some ([], [])
  | e :: r =>
    if e = 'e' ∨ e = 'E' then
      if (takeDigits (scanExpSign r).2).1 = [] then none
      else
        some (e :: (scanExpSign r).1 ++ (takeDigits (scanExpSign r).2).1,
              (takeDigits (scanExpSign r).2).2)
    else some ([], e :: r)

/-- Scans a number literal: an optional minus, the integer part, an optional
fraction, an optional exponent. -/
def scanNumber (cs : List Char) : Option (String × List Char) :=
  match scanInt (scanSign cs).2 with
  | none => none
  | some (ip, cs2) =>
    match scanFrac cs2 with
    | none => none
    | some (fp, cs3) =>
      match scanExp cs3 with
      | none => none
      | some (ep, cs4) => some (String.mk ((scanSign cs).1 ++ ip ++ fp ++ ep), cs4)

def stripLit (lit : List Char) (cs : List Char) : Option (List Char) :=
  if lit.isPrefixOf cs then some (cs.drop lit.length) else none

/-- A scanner of one value that, when it succeeds, leaves a strictly shorter
input. -/
def Shrinks (pv : List Char → Option (Value × List Char)) : Prop :=
  ∀ cs v rest, pv cs = some (v, rest) → rest.length < cs.length

/-- The elements of an array after its opening bracket, `pv` scanning one value. -/
def scanElems (pv : List Char → Option (Value × List Char)) :
    Nat → List Value → List Char → Option (List Value × List Char)
  | 0, _, _ => none
  | fuel + 1, acc, cs =>
    match pv cs with
    | none => none
    | some (v, rest) =>
      match skipSpace rest with
      | ',' :: rest1 => scanElems pv fuel (v :: acc) rest1
      | ']' :: rest1 => some ((v :: acc).reverse, rest1)
      | _ => none

/-- The members of an object after its opening brace, `pv` scanning one value. -/
def scanMembers (pv : List Char → Option (Value × List Char)) :
    Nat → List (String × Value) → List Char → Option (List (String × Value) × List Char)
  | 0, _, _ => none
  | fuel + 1, acc, cs =>
    match skipSpace cs with
    | '"' :: rest =>
      match scanString (fuel + 1) [] rest with
      | none => none
      | some (k, rest1) =>
        match skipSpace rest1 with
        | ':' :: rest2 =>
          match pv rest2 with
          | none => none
          | some (v, rest3) =>
            match skipSpace rest3 with
            | ',' :: rest4 => scanMembers pv fuel ((k, v) :: acc) rest4
            | '}' :: rest4 => some (((k, v) :: acc).reverse, rest4)
            | _ => none
        | _ => none
    | _ => none

/-- Scans one value. `depth` counts the enclosing arrays and objects; the
library refuses more than 10000 levels. Every recursive call is on a strictly
shorter input, so fuel above the input length is never used up
(`json.scanValue_fuel`). -/
def scanValue : Nat → Nat → List Char → Option (Value × List Char)
  | 0, _, _ => none
  | fuel + 1, depth, cs =>
    match skipSpace cs with
    | [] => none
    | '{' :: rest =>
      if depth ≥ 10000 then none
      else
        match skipSpace rest with
        | '}' :: rest1 => some (.object [], rest1)
        | _ =>
          (scanMembers (scanValue fuel (depth + 1)) fuel [] rest).map
            (fun r => (.object r.1, r.2))
    | '[' :: rest =>
      if depth ≥ 10000 then none
      else
        match skipSpace rest with
        | ']' :: rest1 => some (.array [], rest1)
        | _ =>
          (scanElems (scanValue fuel (depth + 1)) fuel [] rest).map
            (fun r => (.array r.1, r.2))
    | '"' :: rest => (scanString fuel [] rest).map (fun r => (.string r.1, r.2))
    | 't' :: rest => (stripLit "rue".toList rest).map (fun r => (.bool true, r))
    | 'f' :: rest => (stripLit "alse".toList rest).map (fun r => (.bool false, r))
    | 'n' :: rest => (stripLit "ull".toList rest).map (fun r => (.null, r))
    | c :: rest => (scanNumber (c :: rest)).map (fun r => (.number r.1, r.2))

/-- The validity check `Unmarshal` runs first: the input is one JSON value,
with only white space around it. `none` is a syntax error. -/
def parse (data : String) : Option Value :=
  match scanValue (data.length + 1) 0 data.toList with
  | some (v, rest) => if skipSpace rest = [] then some v else none
  | none => none

/-! ### Decoding into Go values -/

/-- The decoder's `errorContext`: the struct being filled and the path of
field names that leads to the value being decoded. -/
structure errorContext where
  Struct : String
  FieldStack : List String

/-- The context at the top level of `Unmarshal`. -/
def errorContext.top : errorContext := { Struct := "", FieldStack := [] }

/-- The context inside field `name` of struct `struct`. -/
def errorContext.field (ctx : errorContext) (struct name : String) : errorContext :=
  { Struct := struct, FieldStack := ctx.FieldStack ++ [name] }

/-- Method `saveError`: only the first error is kept. -/
def saveError (saved : Option GoError) (err : GoError) : Option GoError :=
  match saved with
  | none => some err
  | some e => some e

/-- The saved error, if there is one, is an `UnmarshalTypeError`. -/
def OnlyTypeErrors (saved : Option GoError) : Prop :=
  ∀ e, saved = some e → e.IsUnmarshalTypeError

/-- An `UnmarshalTypeError` with the context added. -/
def typeError (ctx : errorContext) (Value GoType : String) : GoError :=
  .UnmarshalTypeError Value GoType ctx.Struct (".".intercalate ctx.FieldStack)

/-- The word the decoder uses for a JSON value that does not fit the target. -/
def Value.kind : Value → String
  | .null => "null"
  | .bool _ => "bool"
  | .number _ => "number"
  | .string _ => "string"
  | .array _ => "array"
  | .object _ => "object"

/-- Function `strconv.ParseInt(lit, 10, 64)` on a number literal: it fails on
a fraction, an exponent, or a value outside the int64 range. -/
def parseInt64 (lit : String) : Option Int :=
  let cs := lit.toList
  let (neg, ds) : Bool × List Char :=
    match cs with
    | '-' :: r => (true, r)
    | _ => (false, cs)
  if ds ≠ [] ∧ ds.all Char.isDigit = true then
    let n : Nat := ds.foldl (fun a c => a * 10 + (c.toNat - 48)) 0
    let v : Int := if neg then -(n : Int) else (n : Int)
    if -9223372036854775808 ≤ v ∧ v ≤ 9223372036854775807 then some v else none
  else none

/-- Storing a JSON value into an `int64` or `int` target (`typ` names which):
`null` leaves the target as it is, a number that parses is stored, anything
else is a type error and leaves the target as it is. -/
def decodeInt (typ : String) (ctx : errorContext) (v : Value) (cur : Int)
    (saved : Option GoError) : Int × Option GoError :=
  match v with
  | .null => (cur, saved)
  | .number lit =>
    match parseInt64 lit with
    | some n => (n, saved)
    | none => (cur, saveError saved (typeError ctx ("number " ++ lit) typ))
  | other => (cur, saveError saved (typeError ctx other.kind typ))

/-- Storing a JSON value into a `bool` target. -/
def decodeBool (ctx : errorContext) (v : Value) (cur : Bool)
    (saved : Option GoError) : Bool × Option GoError :=
  match v with
  | .null => (cur, saved)
  | .bool b => (b, saved)
  | other => (cur, saveError saved (typeError ctx other.kind "bool"))

/-- Storing a JSON value into a `string` target. -/
def decodeString (ctx : errorContext) (v : Value) (cur : String)
    (saved : Option GoError) : String × Option GoError :=
  match v with
  | .null => (cur, saved)
  | .string s => (s, saved)
  | other => (cur, saveError saved (typeError ctx other.kind "string"))

/-- The elements of a JSON array stored one by one: element `i` is decoded
into the value already at index `i` of the backing array `mem` when there is
one, and into the zero value otherwise. -/
def decodeElems {α : Type} (dec : Value → α → Option GoError → α × Option GoError) (zero : α) :
    List Value → List α → Option GoError → List α × Option GoError
  | [], _, saved => ([], saved)
  | v :: vs, mem, saved =>
    let r := dec v (mem.headD zero) saved
    let rs := decodeElems dec zero vs mem.tail r.2
    (r.1 :: rs.1, rs.2)

/-- Storing a JSON value into a slice target. `cur` is the slice and `spare`
the values left in its backing array beyond its length by an earlier, longer
decode of the same field. An array reuses the backing array, is cut to its own
length, and an empty array gives a fresh empty slice; `null` gives the nil
slice; anything else is a type error. -/
def decodeSlice {α : Type} (dec : Value → α → Option GoError → α × Option GoError) (zero : α)
    (typ : String) (ctx : errorContext) (v : Value) (cur : Slice α) (spare : List α)
    (saved : Option GoError) : (Slice α × List α) × Option GoError :=
  match v with
  | .null => ((Slice.nil, []), saved)
  | .array [] => ((Slice.mk [], []), saved)
  | .array items =>
    let r := decodeElems dec zero items (cur.elems ++ spare) saved
    ((Slice.mk r.1, (cur.elems ++ spare).drop items.length), r.2)
  | other => ((cur, spare), saveError saved (typeError ctx other.kind typ))

/-- Case-folding of one character of an object key, as far as it can reach
the ASCII letters of a field name: upper-case ASCII, the long s and the Kelvin
sign. -/
def foldRune (c : Char) : Char :=
  if 'A' ≤ c ∧ c ≤ 'Z' then Char.ofNat (c.toNat + 32)
  else if c.toNat = 0x17F then 's'
  else if c.toNat = 0x212A then 'k'
  else c

/-- An object key selects the field tagged `name` (lower-case ASCII) when the
two are equal up to case-folding. -/
def keyMatches (key name : String) : Bool := key.toList.map foldRune = name.toList

/-! ### Encoding -/

def hexDigit (n : Nat) : Char := "0123456789abcdef".toList.getD n '0'

/-- The encoding of one character inside a string literal (`json.Marshal`
escapes HTML-sensitive characters; Go 1.22 and later write the short forms for
backspace and form feed). -/
def escapeRune (c : Char) : List Char :=
  if c = '\\' then ['\\', '\\']
  else if c = '"' then ['\\', '"']
  else if c.toNat = 8 then ['\\', 'b']
  else if c.toNat = 12 then ['\\', 'f']
  else if c = '\n' then ['\\', 'n']
  else if c = '\r' then ['\\', 'r']
  else if c = '\t' then ['\\', 't']
  else if c.toNat < 0x20 ∨ c = '<' ∨ c = '>' ∨ c = '&' then
    ['\\', 'u', '0', '0', hexDigit (c.toNat / 16), hexDigit (c.toNat % 16)]
  else if c.toNat = 0x2028 then ['\\', 'u', '2', '0', '2', '8']
  else if c.toNat = 0x2029 then ['\\', 'u', '2', '0', '2', '9']
  else [c]

/-- A Go string as a JSON string literal. -/
def quote (s : String) : String :=
  String.mk ('"' :: (s.toList.map escapeRune).flatten ++ ['"'])

mutual
/-- The bytes of a JSON value; an object key and a string are quoted. -/
def render : Value → String
  | .null => "null"
  | .bool b => if b then "true" else "false"
  | .number lit => lit
  | .string s => quote s
  | .array items => "[" ++ renderItems items ++ "]"
  | .object members => "\x7b" ++ renderMembers members ++ "\x7d"
def renderItems : List Value → String
  | [] => ""
  | [v] => render v
  | v :: vs => render v ++ "," ++ renderItems vs
def renderMembers : List (String × Value) → String
  | [] => ""
  | [(k, v)] => quote k ++ ":" ++ render v
  | (k, v) :: ms => quote k ++ ":" ++ render v ++ "," ++ renderMembers ms
end

/-- The value of the first member named `key` of a JSON object. -/
def Value.field (v : Value) (key : String) : Option Value :=
  match v with
  | .object members => (members.find? (fun m => m.1 = key)).map (fun m => m.2)
  | _ => none

/-- An integer as a JSON number. -/
def ofInt (n : Int) : Value := .number (toString n)

/-- A slice as a JSON value: `null` for the nil slice, an array otherwise. -/
def ofSlice {α : Type} (f : α → Value) : Slice α → Value
  | .nil => .null
  | .mk l => .array (l.map f)

end json
/-! ## Domain entities (`client.go`, lines 13-40) -/

namespace beeswax

/-- Struct `User`. -/
structure User where
  ID : Int
  SuperUser : Bool
  Email : String
  FirstName : String
  LastName : String
  RoleID : Int
  AccountID : Int
  Active : Bool
  AllAccountAccess : Bool
  AccountGroupIDs : Slice Int
  deriving DecidableEq, Repr

/-- Struct `Permission`. -/
structure Permission where
  ObjectType : String
  Permission : Int
  deriving DecidableEq, Repr

/-- Struct `Role`. -/
structure Role where
  ID : Int
  Name : String
  ParentRoleID : Int
  Archived : Bool
  Notes : String
  SharedAcrossAccounts : Bool
  Permissions : Slice Permission
  ReportIDs : Slice Int
  deriving DecidableEq, Repr

/-- The Go zero value `User{}`. -/
def User.zero : User :=
  { ID := 0, SuperUser := false, Email := "", FirstName := "", LastName := "",
    RoleID := 0, AccountID := 0, Active := false, AllAccountAccess := false,
    AccountGroupIDs := Slice.nil }

/-- The Go zero value `Permission{}`. -/
def Permission.zero : beeswax.Permission := { ObjectType := "", Permission := 0 }

/-- The Go zero value `Role{}`. -/
def Role.zero : Role :=
  { ID := 0, Name := "", ParentRoleID := 0, Archived := false, Notes := "",
    SharedAcrossAccounts := false, Permissions := Slice.nil, ReportIDs := Slice.nil }

end beeswax

/-! ## JSON forms of the entities (struct tags of `client.go`, lines 13-40) -/

namespace beeswax

/-- What `json.Marshal` writes for a `Permission`. -/
def Permission.toJSON (p : beeswax.Permission) : json.Value :=
  .object [("object_type", .string p.ObjectType), ("permission", json.ofInt p.Permission)]

/-- What `json.Marshal` writes for a `User`. -/
def User.toJSON (u : User) : json.Value :=
  .object
    [("id", json.ofInt u.ID),
     ("super_user", .bool u.SuperUser),
     ("email", .string u.Email),
     ("first_name", .string u.FirstName),
     ("last_name", .string u.LastName),
     ("role_id", json.ofInt u.RoleID),
     ("account_id", json.ofInt u.AccountID),
     ("active", .bool u.Active),
     ("all_account_access", .bool u.AllAccountAccess),
     ("account_group_ids", json.ofSlice json.ofInt u.AccountGroupIDs)]

/-- What `json.Marshal` writes for a `Role`. -/
def Role.toJSON (r : Role) : json.Value :=
  .object
    [("id", json.ofInt r.ID),
     ("name", .string r.Name),
     ("parent_role_id", json.ofInt r.ParentRoleID),
     ("archived", .bool r.Archived),
     ("notes", .string r.Notes),
     ("shared_across_accounts", .bool r.SharedAcrossAccounts),
     ("permissions", json.ofSlice Permission.toJSON r.Permissions),
     ("report_ids", json.ofSlice json.ofInt r.ReportIDs)]

/-- One member of a JSON object stored into a `Permission`. -/
def Permission.storeMember (ctx : json.errorContext)
    (p : beeswax.Permission × Option GoError) (m : String × json.Value) :
    beeswax.Permission × Option GoError :=
  if json.keyMatches m.1 "object_type" then
    let r := json.decodeString (ctx.field "Permission" "object_type") m.2 p.1.ObjectType p.2
    ({ p.1 with ObjectType := r.1 }, r.2)
  else if json.keyMatches m.1 "permission" then
    let r := json.decodeInt "int64" (ctx.field "Permission" "permission") m.2 p.1.Permission p.2
    ({ p.1 with Permission := r.1 }, r.2)
  else p

/-- Storing a JSON value into a `Permission`: an object fills the fields it
names, `null` changes nothing, anything else is a type error. -/
def Permission.decode (ctx : json.errorContext) (v : json.Value) (cur : beeswax.Permission)
    (saved : Option GoError) : beeswax.Permission × Option GoError :=
  match v with
  | .null => (cur, saved)
  | .object members => members.foldl (Permission.storeMember ctx) (cur, saved)
  | other => (cur, json.saveError saved (json.typeError ctx other.kind "beeswax.Permission"))

/-- The decoder's progress through a `User` object. -/
structure User.decodeState where
  user : User
  spareAccountGroupIDs : List Int
  saved : Option GoError

/-- One member of a JSON object stored into a `User`. -/
def User.storeMember (ctx : json.errorContext) (st : User.decodeState)
    (m : String × json.Value) : User.decodeState :=
  if json.keyMatches m.1 "id" then
    let r := json.decodeInt "int64" (ctx.field "User" "id") m.2 st.user.ID st.saved
    { st with user := { st.user with ID := r.1 }, saved := r.2 }
  else if json.keyMatches m.1 "super_user" then
    let r := json.decodeBool (ctx.field "User" "super_user") m.2 st.user.SuperUser st.saved
    { st with user := { st.user with SuperUser := r.1 }, saved := r.2 }
  else if json.keyMatches m.1 "email" then
    let r := json.decodeString (ctx.field "User" "email") m.2 st.user.Email st.saved
    { st with user := { st.user with Email := r.1 }, saved := r.2 }
  else if json.keyMatches m.1 "first_name" then
    let r := json.decodeString (ctx.field "User" "first_name") m.2 st.user.FirstName st.saved
    { st with user := { st.user with FirstName := r.1 }, saved := r.2 }
  else if json.keyMatches m.1 "last_name" then
    let r := json.decodeString (ctx.field "User" "last_name") m.2 st.user.LastName st.saved
    { st with user := { st.user with LastName := r.1 }, saved := r.2 }
  else if json.keyMatches m.1 "role_id" then
    let r := json.decodeInt "int64" (ctx.field "User" "role_id") m.2 st.user.RoleID st.saved
    { st with user := { st.user with RoleID := r.1 }, saved := r.2 }
  else if json.keyMatches m.1 "account_id" then
    let r := json.decodeInt "int64" (ctx.field "User" "account_id") m.2 st.user.AccountID st.saved
    { st with user := { st.user with AccountID := r.1 }, saved := r.2 }
  else if json.keyMatches m.1 "active" then
    let r := json.decodeBool (ctx.field "User" "active") m.2 st.user.Active st.saved
    { st with user := { st.user with Active := r.1 }, saved := r.2 }
  else if json.keyMatches m.1 "all_account_access" then
    let r := json.decodeBool (ctx.field "User" "all_account_access") m.2
      st.user.AllAccountAccess st.saved
    { st with user := { st.user with AllAccountAccess := r.1 }, saved := r.2 }
  else if json.keyMatches m.1 "account_group_ids" then
    let c := ctx.field "User" "account_group_ids"
    let r := json.decodeSlice (json.decodeInt "int" c) 0 "[]int" c m.2
      st.user.AccountGroupIDs st.spareAccountGroupIDs st.saved
    { user := { st.user with AccountGroupIDs := r.1.1 }, spareAccountGroupIDs := r.1.2,
      saved := r.2 }
  else st

/-- Storing a JSON value into a `User`. -/
def User.decode (ctx : json.errorContext) (v : json.Value) (cur : User)
    (saved : Option GoError) : User × Option GoError :=
  match v with
  | .null => (cur, saved)
  | .object members =>
    let st := members.foldl (User.storeMember ctx)
      { user := cur, spareAccountGroupIDs := [], saved := saved }
    (st.user, st.saved)
  | other => (cur, json.saveError saved (json.typeError ctx other.kind "beeswax.User"))

/-- The decoder's progress through a `Role` object. -/
structure Role.decodeState where
  role : Role
  sparePermissions : List beeswax.Permission
  spareReportIDs : List Int
  saved : Option GoError

/-- One member of a JSON object stored into a `Role`. -/
def Role.storeMember (ctx : json.errorContext) (st : Role.decodeState)
    (m : String × json.Value) : Role.decodeState :=
  if json.keyMatches m.1 "id" then
    let r := json.decodeInt "int64" (ctx.field "Role" "id") m.2 st.role.ID st.saved
    { st with role := { st.role with ID := r.1 }, saved := r.2 }
  else if json.keyMatches m.1 "name" then
    let r := json.decodeString (ctx.field "Role" "name") m.2 st.role.Name st.saved
    { st with role := { st.role with Name := r.1 }, saved := r.2 }
  else if json.keyMatches m.1 "parent_role_id" then
    let r := json.decodeInt "int64" (ctx.field "Role" "parent_role_id") m.2
      st.role.ParentRoleID st.saved
    { st with role := { st.role with ParentRoleID := r.1 }, saved := r.2 }
  else if json.keyMatches m.1 "archived" then
    let r := json.decodeBool (ctx.field "Role" "archived") m.2 st.role.Archived st.saved
    { st with role := { st.role with Archived := r.1 }, saved := r.2 }
  else if json.keyMatches m.1 "notes" then
    let r := json.decodeString (ctx.field "Role" "notes") m.2 st.role.Notes st.saved
    { st with role := { st.role with Notes := r.1 }, saved := r.2 }
  else if json.keyMatches m.1 "shared_across_accounts" then
    let r := json.decodeBool (ctx.field "Role" "shared_across_accounts") m.2
      st.role.SharedAcrossAccounts st.saved
    { st with role := { st.role with SharedAcrossAccounts := r.1 }, saved := r.2 }
  else if json.keyMatches m.1 "permissions" then
    let c := ctx.field "Role" "permissions"
    let r := json.decodeSlice (Permission.decode c) Permission.zero "[]beeswax.Permission" c m.2
      st.role.Permissions st.sparePermissions st.saved
    { st with role := { st.role with Permissions := r.1.1 }, sparePermissions := r.1.2,
              saved := r.2 }
  else if json.keyMatches m.1 "report_ids" then
    let c := ctx.field "Role" "report_ids"
    let r := json.decodeSlice (json.decodeInt "int" c) 0 "[]int" c m.2
      st.role.ReportIDs st.spareReportIDs st.saved
    { st with role := { st.role with ReportIDs := r.1.1 }, spareReportIDs := r.1.2,
              saved := r.2 }
  else st

/-- Storing a JSON value into a `Role`. -/
def Role.decode (ctx : json.errorContext) (v : json.Value) (cur : Role)
    (saved : Option GoError) : Role × Option GoError :=
  match v with
  | .null => (cur, saved)
  | .object members =>
    let st := members.foldl (Role.storeMember ctx)
      { role := cur, sparePermissions := [], spareReportIDs := [], saved := saved }
    (st.role, st.saved)
  | other => (cur, json.saveError saved (json.typeError ctx other.kind "beeswax.Role"))

/-- Call `json.Unmarshal(data, &user)`: the updated target and the error. The
target is untouched when the input is not valid JSON. -/
def UnmarshalUser (data : String) (user : User) : User × Option GoError :=
  match json.parse data with
  | none => (user, some GoError.SyntaxError)
  | some v => User.decode json.errorContext.top v user none

/-- Call `json.Unmarshal(data, &role)`. -/
def UnmarshalRole (data : String) (role : Role) : Role × Option GoError :=
  match json.parse data with
  | none => (role, some GoError.SyntaxError)
  | some v => Role.decode json.errorContext.top v role none

/-- The values passed as `data interface{}` to `request`: a string, a `User`,
a `Role`, or any other Go value, which is given by what `json.Marshal` returns
for it. -/
inductive Data where
  | string (s : String)
  | user (u : User)
  | role (r : Role)
  | other (encoding : Except GoError String)

/-- Call `json.Marshal(data)`. -/
def Marshal : Data → Except GoError String
  | .string s => .ok (json.render (.string s))
  | .user u => .ok (json.render u.toJSON)
  | .role r => .ok (json.render r.toJSON)
  | .other encoding => encoding

end beeswax

/-! ## `net/http` as the client uses it -/

namespace http

/-- An outgoing request. -/
structure Request where
  Method : String
  URL : String
  Header : List (String × String)
  Body : String
  deriving DecidableEq, Repr

/-- A received response: the status line text, the status code, and the
outcome of `io.ReadAll(resp.Body)`. -/
structure Response where
  Status : String
  StatusCode : Int
  Body : Except GoError String

/-- The `*http.Client` of the session with the network behind it: `Do` is the
outcome of sending a request (an error when no response is received), and
`newRequestError` is the error, if any, with which `http.NewRequest` refuses a
method and URL (an invalid method token, a URL that does not parse). -/
structure Client where
  newRequestError : String → String → Option GoError
  Do : Request → Except GoError Response

/-- Method `Header.Set` on a request. -/
def Request.SetHeader (req : Request) (key value : String) : Request :=
  { req with Header := req.Header.filter (fun h => h.1 ≠ key) ++ [(key, value)] }

/-- Function `http.NewRequest(method, url, body)`; an empty method means GET. -/
def NewRequest (c : Client) (method url body : String) : Except GoError Request :=
  match c.newRequestError method url with
  | some err => .error err
  | none =>
    .ok { Method := if method = "" then "GET" else method, URL := url, Header := [],
          Body := body }

/-- Method `Client.Post(url, contentType, body)`. -/
def Client.Post (c : Client) (url contentType body : String) : Except GoError Response :=
  match NewRequest c "POST" url body with
  | .error err => .error err
  | .ok req => c.Do (req.SetHeader "Content-Type" contentType)

/-- Constant `http.StatusOK`. -/
def StatusOK : Int := 200

end http

/-! ## Session client and entity gateways (`client.go`, lines 42-167) -/

namespace beeswax

/-- Struct `Client`. -/
structure Client where
  APIURL : String
  email : String
  password : String
  client : http.Client

/-- Method `Login` (lines 61-77). The payload is a map with the keys `email`
and `password`, which `json.Marshal` writes in sorted order and cannot refuse. -/
def Client.Login (bx : Client) : Option GoError :=
  let loginPayload : String :=
    json.render (.object [("email", .string bx.email), ("password", .string bx.password)])
  match bx.client.Post (bx.APIURL ++ "/rest/v2/authenticate") "application/json" loginPayload with
  | .error err => some err
  | .ok resp =>
    if resp.StatusCode ≠ http.StatusOK then some (errors.New "login failed")
    else none

/-- Method `request`, lines 80-89: the request that is handed to
`bx.client.Do`, or the error that stops the call before anything is sent. -/
def Client.newRequest (bx : Client) (method path : String) (data : Data) :
    Except GoError http.Request :=
  match Marshal data with
  | .error err => .error (fmt.Errorf "can't unmarshall" err)
  | .ok dataPayload =>
    match http.NewRequest bx.client method (bx.APIURL ++ path) dataPayload with
    | .error err => .error (fmt.Errorf "request creation failed" err)
    | .ok req => .ok (req.SetHeader "Content-Type" "application/json")

/-- Method `request` (lines 79-107): the returned bytes (`none` for nil) and
the returned error (`none` for nil). -/
def Client.request (bx : Client) (method path : String) (data : Data) :
    Option String × Option GoError :=
  match bx.newRequest method path data with
  | .error err => (none, some err)
  | .ok req =>
    match bx.client.Do req with
    | .error err => (none, some (fmt.Errorf "request failed" err))
    | .ok resp =>
      match resp.Body with
      | .error err => (none, some (fmt.Errorf "can't read body response" err))
      | .ok bodyStr =>
        if ¬ (resp.StatusCode ≥ 200 ∧ resp.StatusCode < 300) then
          (some bodyStr,
            some (errors.New ("response " ++ resp.Status ++ " instead. API response: " ++ bodyStr)))
        else (some bodyStr, none)

/-- Method `GetUser` (lines 109-117). -/
def Client.GetUser (bx : Client) (userID : Int) : User × Option GoError :=
  match bx.request "GET" ("/rest/v2/users/" ++ toString userID) (.string "") with
  | (_, some err) => (User.zero, some err)
  | (response, none) => UnmarshalUser (response.getD "") User.zero

/-- Method `CreateUser` (lines 119-127). -/
def Client.CreateUser (bx : Client) (user : User) : Int × Option GoError :=
  match bx.request "POST" "/rest/v2/users" (.user user) with
  | (_, some err) => (0, some err)
  | (response, none) =>
    let r := UnmarshalUser (response.getD "") User.zero
    (r.1.ID, r.2)

/-- Method `UpdateUser` (lines 129-132). -/
def Client.UpdateUser (bx : Client) (user : User) : Option GoError :=
  (bx.request "PUT" ("/rest/v2/users/" ++ toString user.ID) (.user user)).2

/-- Method `DeleteUser` (lines 134-137). -/
def Client.DeleteUser (bx : Client) (userID : Int) : Option GoError :=
  (bx.request "DELETE" ("/rest/v2/users/" ++ toString userID) (.string "")).2

/-- Method `GetRole` (lines 139-147). -/
def Client.GetRole (bx : Client) (roleID : Int) : Role × Option GoError :=
  match bx.request "GET" ("/rest/v2/roles/" ++ toString roleID) (.string "") with
  | (_, some err) => (Role.zero, some err)
  | (response, none) => UnmarshalRole (response.getD "") Role.zero

/-- Method `CreateRole` (lines 149-157). -/
def Client.CreateRole (bx : Client) (role : Role) : Int × Option GoError :=
  match bx.request "POST" "/rest/v2/roles" (.role role) with
  | (_, some err) => (0, some err)
  | (response, none) =>
    let r := UnmarshalRole (response.getD "") Role.zero
    (r.1.ID, r.2)

/-- Method `UpdateRole` (lines 159-162). -/
def Client.UpdateRole (bx : Client) (role : Role) : Option GoError :=
  (bx.request "PUT" ("/rest/v2/roles/" ++ toString role.ID) (.role role)).2

/-- Method `DeleteRole` (lines 164-167). -/
def Client.DeleteRole (bx : Client) (roleID : Int) : Option GoError :=
  (bx.request "DELETE" ("/rest/v2/roles/" ++ toString roleID) (.string "")).2

end beeswax
/-! ## terraform-plugin-framework attribute values -/

/-- The framework type behind `types.Int64`: null, unknown or a known int64. -/
inductive basetypes.Int64Value where
  | null
  | unknown
  | known (value : Int)
  deriving DecidableEq, Repr

/-- The framework type behind `types.String`. -/
inductive basetypes.StringValue where
  | null
  | unknown
  | known (value : String)
  deriving DecidableEq, Repr

/-- The framework type behind `types.Bool`. -/
inductive basetypes.BoolValue where
  | null
  | unknown
  | known (value : Bool)
  deriving DecidableEq, Repr

/-- Method `ValueInt64()`: the known value, or 0 when null or unknown. -/
def basetypes.Int64Value.ValueInt64 : basetypes.Int64Value → Int
  | .known v => v
  | _ => 0

/-- Method `ValueString()`: the known value, or "" when null or unknown. -/
def basetypes.StringValue.ValueString : basetypes.StringValue → String
  | .known v => v
  | _ => ""

/-- Method `ValueBool()`: the known value, or false when null or unknown. -/
def basetypes.BoolValue.ValueBool : basetypes.BoolValue → Bool
  | .known v => v
  | _ => false

/-- Method `IsNull()`. -/
def basetypes.StringValue.IsNull : basetypes.StringValue → Bool
  | .null => true
  | _ => false

/-- Method `IsUnknown()`. -/
def basetypes.StringValue.IsUnknown : basetypes.StringValue → Bool
  | .unknown => true
  | _ => false

/-- Constructor `types.Int64Value(v)`: a known value. -/
def types.Int64Value (v : Int) : basetypes.Int64Value := .known v

/-- Constructor `types.StringValue(v)`: a known value. -/
def types.StringValue (v : String) : basetypes.StringValue := .known v

/-- Constructor `types.BoolValue(v)`: a known value. -/
def types.BoolValue (v : Bool) : basetypes.BoolValue := .known v

/-! ## terraform-plugin-framework: diagnostics, plan and state -/

/-- The severity of a diagnostic. -/
inductive diag.Severity where
  | Error
  | Warning
  deriving DecidableEq, Repr

/-- A diagnostic: severity, summary and detail, and for an attribute
diagnostic the root attribute of its path. -/
structure diag.Diagnostic where
  Severity : diag.Severity
  Summary : String
  Detail : String
  Path : Option String := none
  deriving DecidableEq, Repr

/-- Type `diag.Diagnostics`: an ordered collection of diagnostics. -/
abbrev diag.Diagnostics := List diag.Diagnostic

/-- Method `Diagnostics.HasError`. -/
def diag.Diagnostics.HasError (diags : diag.Diagnostics) : Bool :=
  diags.any (fun d => d.Severity = diag.Severity.Error)

/-- Method `Diagnostics.Append`: a diagnostic already in the collection is
not added again. -/
def diag.Diagnostics.Append (diags : diag.Diagnostics) (more : diag.Diagnostics) :
    diag.Diagnostics :=
  more.foldl (fun acc d => if d ∈ acc then acc else acc ++ [d]) diags

/-- Method `Diagnostics.AddError(summary, detail)`. -/
def diag.Diagnostics.AddError (diags : diag.Diagnostics) (summary detail : String) :
    diag.Diagnostics :=
  diag.Diagnostics.Append diags
    [{ Severity := diag.Severity.Error, Summary := summary, Detail := detail }]

/-- Method `Diagnostics.AddAttributeError(path.Root(attr), summary, detail)`. -/
def diag.Diagnostics.AddAttributeError (diags : diag.Diagnostics) (attr summary detail : String) :
    diag.Diagnostics :=
  diag.Diagnostics.Append diags
    [{ Severity := diag.Severity.Error, Summary := summary, Detail := detail, Path := some attr }]

/-- A `tfsdk.Plan`, `tfsdk.State` or `tfsdk.Config` of a request, seen through
`Get(ctx, &target)`: the record stored into the target and the diagnostics
returned. -/
structure tfsdk.Source (M : Type) where
  Get : M × diag.Diagnostics

/-- The `tfsdk.State` of a response: the record it holds, if any. -/
structure tfsdk.State (M : Type) where
  Raw : Option M

/-- Method `State.Set(ctx, val)`: a record of the resource's own model type is
stored as it is, without diagnostics. -/
def tfsdk.State.Set {M : Type} (_s : tfsdk.State M) (val : M) :
    tfsdk.State M × diag.Diagnostics :=
  ({ Raw := some val }, [])

/-- Struct `resource.UpdateRequest`. -/
structure resource.UpdateRequest (M : Type) where
  Plan : tfsdk.Source M
  State : tfsdk.Source M

/-- Struct `resource.UpdateResponse`. -/
structure resource.UpdateResponse (M : Type) where
  State : tfsdk.State M
  Diagnostics : diag.Diagnostics

/-- Struct `resource.CreateRequest`. -/
structure resource.CreateRequest (M : Type) where
  Plan : tfsdk.Source M

/-- Struct `resource.CreateResponse`. -/
structure resource.CreateResponse (M : Type) where
  State : tfsdk.State M
  Diagnostics : diag.Diagnostics

/-- Struct `resource.ReadRequest`. -/
structure resource.ReadRequest (M : Type) where
  State : tfsdk.Source M

/-- Struct `resource.ReadResponse`. -/
structure resource.ReadResponse (M : Type) where
  State : tfsdk.State M
  Diagnostics : diag.Diagnostics

/-- Struct `datasource.ReadRequest`. -/
structure datasource.ReadRequest (M : Type) where
  Config : tfsdk.Source M

/-- Struct `datasource.ReadResponse`. -/
structure datasource.ReadResponse (M : Type) where
  State : tfsdk.State M
  Diagnostics : diag.Diagnostics

/-- Function `os.Getenv` over an environment: the value of the variable, or
the empty string when it is not set. -/
def os.Getenv (env : String → Option String) (key : String) : String :=
  (env key).getD ""

/-- Function `strings.ToUpper`, on the ASCII attribute names it is applied to. -/
def strings.ToUpper (s : String) : String :=
  String.mk (s.toList.map Char.toUpper)

/-! ## Reconciliation adapter: records and conversions -/

namespace provider

open beeswax

/-- Struct `permissionResourceModel` (`role_resource.go`, lines 38-41). -/
structure permissionResourceModel where
  ObjectType : basetypes.StringValue
  Permission : basetypes.Int64Value
  deriving DecidableEq, Repr

/-- Struct `roleResourceModel` (`role_resource.go`, lines 27-36). -/
structure roleResourceModel where
  ID : basetypes.Int64Value
  Name : basetypes.StringValue
  ParentRoleID : basetypes.Int64Value
  Archived : basetypes.BoolValue
  Notes : basetypes.StringValue
  SharedAcrossAccounts : basetypes.BoolValue
  Permissions : Slice permissionResourceModel
  ReportIDs : Slice basetypes.Int64Value
  deriving DecidableEq, Repr

/-- Struct `userResourceModel` (`user_resource.go`, lines 26-37). -/
structure userResourceModel where
  ID : basetypes.Int64Value
  Email : basetypes.StringValue
  FirstName : basetypes.StringValue
  LastName : basetypes.StringValue
  RoleID : basetypes.Int64Value
  AccountGroupIDs : Slice basetypes.Int64Value
  AccountID : basetypes.Int64Value
  Active : basetypes.BoolValue
  SuperUser : basetypes.BoolValue
  AllAccountAccess : basetypes.BoolValue
  deriving DecidableEq, Repr

/-- Function `convertListInt` (`utils.go`, lines 26-32): starts from the empty
non-nil slice and appends `item.ValueInt64()` for each item. -/
def convertListInt (list : Slice basetypes.Int64Value) : Slice Int :=
  list.elems.foldl (fun result item => result.append item.ValueInt64) (Slice.mk [])

/-- Function `convertToRole` (`role_resource.go`, lines 202-220). -/
def convertToRole (plan : roleResourceModel) : Role :=
  let permissions : Slice Permission :=
    plan.Permissions.elems.foldl
      (fun permissions p =>
        permissions.append
          { ObjectType := p.ObjectType.ValueString, Permission := p.Permission.ValueInt64 })
      (Slice.mk [])
  { ID := plan.ID.ValueInt64
    Name := plan.Name.ValueString
    ParentRoleID := plan.ParentRoleID.ValueInt64
    Archived := plan.Archived.ValueBool
    Notes := plan.Notes.ValueString
    SharedAcrossAccounts := plan.SharedAcrossAccounts.ValueBool
    Permissions := permissions
    ReportIDs := convertListInt plan.ReportIDs }

/-- Function `fillStateFromRole` (`role_resource.go`, lines 222-238): assigns
seven fields of the record behind the pointer; `ReportIDs` is not assigned. -/
def fillStateFromRole (state : roleResourceModel) (role : Role) : roleResourceModel :=
  let permissions : Slice permissionResourceModel :=
    role.Permissions.elems.foldl
      (fun permissions p =>
        permissions.append
          { ObjectType := types.StringValue p.ObjectType,
            Permission := types.Int64Value p.Permission })
      (Slice.mk [])
  { state with
    ID := types.Int64Value role.ID
    Name := types.StringValue role.Name
    ParentRoleID := types.Int64Value role.ParentRoleID
    Archived := types.BoolValue role.Archived
    Notes := types.StringValue role.Notes
    SharedAcrossAccounts := types.BoolValue role.SharedAcrossAccounts
    Permissions := permissions }

/-- Function `convertToUser` (`user_resource.go`, lines 191-204). -/
def convertToUser (plan : userResourceModel) : User :=
  { ID := plan.ID.ValueInt64
    SuperUser := plan.SuperUser.ValueBool
    Email := plan.Email.ValueString
    FirstName := plan.FirstName.ValueString
    LastName := plan.LastName.ValueString
    RoleID := plan.RoleID.ValueInt64
    AccountID := plan.AccountID.ValueInt64
    Active := plan.Active.ValueBool
    AllAccountAccess := plan.AllAccountAccess.ValueBool
    AccountGroupIDs := convertListInt plan.AccountGroupIDs }

/-- Function `fillStateFromUser` (`user_resource.go`, lines 206-221). -/
def fillStateFromUser (state : userResourceModel) (user : User) : userResourceModel :=
  let g : Slice basetypes.Int64Value :=
    user.AccountGroupIDs.elems.foldl (fun g id => g.append (types.Int64Value id)) (Slice.mk [])
  { state with
    ID := types.Int64Value user.ID
    SuperUser := types.BoolValue user.SuperUser
    Email := types.StringValue user.Email
    FirstName := types.StringValue user.FirstName
    LastName := types.StringValue user.LastName
    RoleID := types.Int64Value user.RoleID
    AccountID := types.Int64Value user.AccountID
    Active := types.BoolValue user.Active
    AllAccountAccess := types.BoolValue user.AllAccountAccess
    AccountGroupIDs := g }

/-! ### The Update operation -/

/-- Struct `roleResource` (`role_resource.go`, lines 22-24), with the client
the provider configured. -/
structure roleResource where
  client : beeswax.Client

/-- Struct `userResource` (`user_resource.go`, lines 21-23). -/
structure userResource where
  client : beeswax.Client

/-- Method `roleResource.Update`, lines 160-161: the entity passed to
`UpdateRole`. -/
def roleResource.Update.role (plan state : roleResourceModel) : Role :=
  let role := convertToRole plan
  { role with ID := state.ID.ValueInt64 }

/-- Method `roleResource.Update` (`role_resource.go`, lines 147-179). -/
def roleResource.Update (r : roleResource) (req : resource.UpdateRequest roleResourceModel)
    (resp : resource.UpdateResponse roleResourceModel) :
    resource.UpdateResponse roleResourceModel :=
  let plan := req.Plan.Get.1
  let state := req.State.Get.1
  let diags := req.Plan.Get.2
  let diags2 := req.State.Get.2
  let resp := { resp with Diagnostics := (resp.Diagnostics.Append diags).Append diags2 }
  if resp.Diagnostics.HasError then resp
  else
    let role := roleResource.Update.role plan state
    match r.client.UpdateRole role with
    | some err =>
      { resp with
        Diagnostics := resp.Diagnostics.AddError "Error updating role"
          ("Could not update role, unexpected error: " ++ err.Error) }
    | none =>
      let plan := { plan with ID := state.ID }
      let set := resp.State.Set plan
      { State := set.1, Diagnostics := resp.Diagnostics.Append set.2 }

/-- Method `userResource.Update`, lines 149-150: the entity passed to
`UpdateUser`. -/
def userResource.Update.user (plan state : userResourceModel) : User :=
  let user := convertToUser plan
  { user with ID := state.ID.ValueInt64 }

/-- Method `userResource.Update` (`user_resource.go`, lines 136-168). -/
def userResource.Update (r : userResource) (req : resource.UpdateRequest userResourceModel)
    (resp : resource.UpdateResponse userResourceModel) :
    resource.UpdateResponse userResourceModel :=
  let plan := req.Plan.Get.1
  let state := req.State.Get.1
  let diags := req.Plan.Get.2
  let diags2 := req.State.Get.2
  let resp := { resp with Diagnostics := (resp.Diagnostics.Append diags).Append diags2 }
  if resp.Diagnostics.HasError then resp
  else
    let user := userResource.Update.user plan state
    match r.client.UpdateUser user with
    | some err =>
      { resp with
        Diagnostics := resp.Diagnostics.AddError "Error updating user"
          ("Could not update user, unexpected error: " ++ err.Error) }
    | none =>
      let plan := { plan with ID := state.ID }
      let set := resp.State.Set plan
      { State := set.1, Diagnostics := resp.Diagnostics.Append set.2 }

/-! ### The Create and Read operations -/

/-- Method `roleResource.Create` (`role_resource.go`, lines 84-113). -/
def roleResource.Create (r : roleResource) (req : resource.CreateRequest roleResourceModel)
    (resp : resource.CreateResponse roleResourceModel) :
    resource.CreateResponse roleResourceModel :=
  let plan := req.Plan.Get.1
  let diags := req.Plan.Get.2
  let resp := { resp with Diagnostics := resp.Diagnostics.Append diags }
  if resp.Diagnostics.HasError then resp
  else
    let role := convertToRole plan
    match r.client.CreateRole role with
    | (_, some err) =>
      { resp with
        Diagnostics := resp.Diagnostics.AddError "Error creating role"
          ("Could not create role, unexpected error: " ++ err.Error) }
    | (roleId, none) =>
      let plan := { plan with ID := types.Int64Value roleId }
      let set := resp.State.Set plan
      { State := set.1, Diagnostics := resp.Diagnostics.Append set.2 }

/-- Method `roleResource.Read` (`role_resource.go`, lines 116-144). -/
def roleResource.Read (r : roleResource) (req : resource.ReadRequest roleResourceModel)
    (resp : resource.ReadResponse roleResourceModel) :
    resource.ReadResponse roleResourceModel :=
  let state := req.State.Get.1
  let diags := req.State.Get.2
  let resp := { resp with Diagnostics := resp.Diagnostics.Append diags }
  if resp.Diagnostics.HasError then resp
  else
    match r.client.GetRole state.ID.ValueInt64 with
    | (_, some err) =>
      { resp with
        Diagnostics := resp.Diagnostics.AddError "Error Reading Beeswax role"
          ("Could not read Beeswax role ID " ++ toString state.ID.ValueInt64 ++ ": "
            ++ err.Error) }
    | (role, none) =>
      let state := fillStateFromRole state role
      let set := resp.State.Set state
      { State := set.1, Diagnostics := resp.Diagnostics.Append set.2 }

/-- Method `userResource.Create` (`user_resource.go`, lines 73-102). -/
def userResource.Create (r : userResource) (req : resource.CreateRequest userResourceModel)
    (resp : resource.CreateResponse userResourceModel) :
    resource.CreateResponse userResourceModel :=
  let plan := req.Plan.Get.1
  let diags := req.Plan.Get.2
  let resp := { resp with Diagnostics := resp.Diagnostics.Append diags }
  if resp.Diagnostics.HasError then resp
  else
    let user := convertToUser plan
    match r.client.CreateUser user with
    | (_, some err) =>
      { resp with
        Diagnostics := resp.Diagnostics.AddError "Error creating user"
          ("Could not create user, unexpected error: " ++ err.Error) }
    | (userId, none) =>
      let plan := { plan with ID := types.Int64Value userId }
      let set := resp.State.Set plan
      { State := set.1, Diagnostics := resp.Diagnostics.Append set.2 }

/-- Method `userResource.Read` (`user_resource.go`, lines 105-133). -/
def userResource.Read (r : userResource) (req : resource.ReadRequest userResourceModel)
    (resp : resource.ReadResponse userResourceModel) :
    resource.ReadResponse userResourceModel :=
  let state := req.State.Get.1
  let diags := req.State.Get.2
  let resp := { resp with Diagnostics := resp.Diagnostics.Append diags }
  if resp.Diagnostics.HasError then resp
  else
    match r.client.GetUser state.ID.ValueInt64 with
    | (_, some err) =>
      { resp with
        Diagnostics := resp.Diagnostics.AddError "Error Reading Beeswax User"
          ("Could not read Beeswax User ID " ++ toString state.ID.ValueInt64 ++ ": "
            ++ err.Error) }
    | (user, none) =>
      let state := fillStateFromUser state user
      let set := resp.State.Set state
      { State := set.1, Diagnostics := resp.Diagnostics.Append set.2 }

/-! ### The roles data source (`roles_data_source.go`) -/

/-- Struct `liteRoleResourceModel` (lines 32-35). -/
structure liteRoleResourceModel where
  ID : basetypes.Int64Value
  Name : basetypes.StringValue
  deriving DecidableEq, Repr

/-- Struct `rolesResourceModel` (lines 28-30). -/
structure rolesResourceModel where
  Roles : Slice liteRoleResourceModel
  deriving DecidableEq, Repr

/-- Struct `rolesDataSource` (lines 19-21). The method `GetRoles` that `Read`
calls on the client is not defined in `client.go`; what it returns for a
client, the roles and the error, is the field `GetRoles`. -/
structure rolesDataSource where
  client : beeswax.Client
  GetRoles : beeswax.Client → Slice Role × Option GoError

/-- Method `rolesDataSource.Read` (lines 63-96). -/
def rolesDataSource.Read (d : rolesDataSource) (req : datasource.ReadRequest rolesResourceModel)
    (resp : datasource.ReadResponse rolesResourceModel) :
    datasource.ReadResponse rolesResourceModel :=
  let state := req.Config.Get.1
  let diags := req.Config.Get.2
  let resp := { resp with Diagnostics := resp.Diagnostics.Append diags }
  if resp.Diagnostics.HasError then resp
  else
    match d.GetRoles d.client with
    | (_, some err) =>
      { resp with
        Diagnostics := resp.Diagnostics.AddError "Error Reading Beeswax role"
          ("Could not read Beeswax roles: " ++ err.Error) }
    | (roles, none) =>
      let state : rolesResourceModel :=
        roles.elems.foldl
          (fun state role =>
            { state with
              Roles := state.Roles.append
                { ID := types.Int64Value role.ID, Name := types.StringValue role.Name } })
          state
      let set := resp.State.Set state
      { State := set.1, Diagnostics := resp.Diagnostics.Append set.2 }

/-! ### Provider configuration (`provider.go`) -/

/-- Struct `beeswaxProviderModel` (lines 40-44). -/
structure beeswaxProviderModel where
  Host : basetypes.StringValue
  Email : basetypes.StringValue
  Password : basetypes.StringValue
  deriving DecidableEq, Repr

/-- Struct `provider.ConfigureRequest`. -/
structure ConfigureRequest where
  Config : tfsdk.Source beeswaxProviderModel

/-- Struct `provider.ConfigureResponse`: the diagnostics and the client handed
to data sources and to resources (`none` for nil). -/
structure ConfigureResponse where
  DataSourceData : Option beeswax.Client
  ResourceData : Option beeswax.Client
  Diagnostics : diag.Diagnostics

/-- Function `beeswax.NewClient` (`client.go`, lines 49-59); `net` is the
network that the new `http.Client` talks to. -/
def NewClient (net : http.Client) (apiURL email password : String) : beeswax.Client :=
  { APIURL := apiURL, email := email, password := password, client := net }

/-- The closure `addUnknownDiagnostic` of `Configure` (lines 83-89). -/
def beeswaxProvider.Configure.addUnknownDiagnostic (diags : diag.Diagnostics) (attr : String) :
    diag.Diagnostics :=
  diags.AddAttributeError attr ("Unknown Beeswax API " ++ attr)
    ("The provider cannot create the Beeswax API client as there is an unknown configuration "
      ++ "value for the Beeswax API '" ++ attr ++ "'. "
      ++ "Either target apply the source of the value first, set the value statically in the "
      ++ "configuration, or use the BEESWAX_" ++ strings.ToUpper attr ++ " environment variable.")

/-- The closure `addMissingDiagnostic` of `Configure` (lines 118-125). -/
def beeswaxProvider.Configure.addMissingDiagnostic (diags : diag.Diagnostics) (attr : String) :
    diag.Diagnostics :=
  diags.AddAttributeError attr ("Missing Beeswax API " ++ attr)
    ("The provider cannot create the Beeswax API client as there is a missing or empty value "
      ++ "for the Beeswax API " ++ attr ++ ". "
      ++ "Set the '" ++ attr ++ "' value in the configuration or use the BEESWAX_"
      ++ strings.ToUpper attr ++ " environment variable. "
      ++ "If either is already set, ensure the value is not empty.")

/-- Method `Configure`, lines 106 and 109-111: the local `host`. -/
def beeswaxProvider.Configure.host (env : String → Option String)
    (config : beeswaxProviderModel) : String :=
  let host := os.Getenv env "BEESWAX_HOST"
  if !config.Host.IsNull then config.Host.ValueString else host

/-- Method `Configure`, lines 107 and 112-114: the local `email`. -/
def beeswaxProvider.Configure.email (env : String → Option String)
    (config : beeswaxProviderModel) : String :=
  let email := os.Getenv env "BEESWAX_EMAIL"
  if !config.Email.IsNull then config.Email.ValueString else email

/-- Method `Configure`, lines 108 and 115-117: the local `password`. -/
def beeswaxProvider.Configure.password (env : String → Option String)
    (config : beeswaxProviderModel) : String :=
  let password := os.Getenv env "BEESWAX_PASSWORD"
  if !config.Password.IsNull then config.Password.ValueString else password

/-- Method `Configure`, lines 90-99: the checks for unknown values, on the
diagnostics of the response. -/
def beeswaxProvider.Configure.checkUnknown (config : beeswaxProviderModel)
    (diags : diag.Diagnostics) : diag.Diagnostics :=
  let diags :=
    if config.Host.IsUnknown then beeswaxProvider.Configure.addUnknownDiagnostic diags "host"
    else diags
  let diags :=
    if config.Email.IsUnknown then beeswaxProvider.Configure.addUnknownDiagnostic diags "email"
    else diags
  let diags :=
    if config.Password.IsUnknown then
      beeswaxProvider.Configure.addUnknownDiagnostic diags "password"
    else diags
  diags

/-- Method `Configure`, lines 126-134: the checks for empty values, on the
diagnostics of the response. -/
def beeswaxProvider.Configure.checkMissing (host email password : String)
    (diags : diag.Diagnostics) : diag.Diagnostics :=
  let diags :=
    if host = "" then beeswaxProvider.Configure.addMissingDiagnostic diags "host" else diags
  let diags :=
    if email = "" then beeswaxProvider.Configure.addMissingDiagnostic diags "email" else diags
  let diags :=
    if password = "" then beeswaxProvider.Configure.addMissingDiagnostic diags "password"
    else diags
  diags

/-- Method `beeswaxProvider.Configure` (`provider.go`, lines 75-155), in the
environment `env` and on the network `net`. -/
def beeswaxProvider.Configure (net : http.Client) (env : String → Option String)
    (req : ConfigureRequest) (resp : ConfigureResponse) : ConfigureResponse :=
  let config := req.Config.Get.1
  let diags := req.Config.Get.2
  let resp := { resp with Diagnostics := resp.Diagnostics.Append diags }
  if resp.Diagnostics.HasError then resp
  else
    let resp :=
      { resp with
        Diagnostics := beeswaxProvider.Configure.checkUnknown config resp.Diagnostics }
    if resp.Diagnostics.HasError then resp
    else
      let host := beeswaxProvider.Configure.host env config
      let email := beeswaxProvider.Configure.email env config
      let password := beeswaxProvider.Configure.password env config
      let resp :=
        { resp with
          Diagnostics :=
            beeswaxProvider.Configure.checkMissing host email password resp.Diagnostics }
      if resp.Diagnostics.HasError then resp
      else
        let beeswaxClient := NewClient net host email password
        match beeswaxClient.Login with
        | some err =>
          { resp with
            Diagnostics := resp.Diagnostics.AddError "Unable to Create Beeswax API Client"
              ("An unexpected error occurred when creating the Beeswax API client. "
                ++ "If the error is not clear, please contact the provider developers.\n\n"
                ++ "Beeswax Client Error: " ++ err.Error) }
        | none =>
          { resp with DataSourceData := some beeswaxClient, ResourceData := some beeswaxClient }

end provider
/-! ## Concrete inputs used by the examples below -/

namespace examples

open beeswax provider

/-- A session whose server answers every request with the given status line,
status code and body. -/
def server (status : String) (code : Int) (body : String) : Client :=
  { APIURL := "https://example.test", email := "me@example.test", password := "secret",
    client :=
      { newRequestError := fun _ _ => none,
        Do := fun _ => .ok { Status := status, StatusCode := code, Body := .ok body } } }

/-- A session whose connection is refused. -/
def refused : Client :=
  { APIURL := "https://example.test", email := "me@example.test", password := "secret",
    client :=
      { newRequestError := fun _ _ => none,
        Do := fun _ => .error (.library "dial tcp: connection refused") } }

/-- A role with two report identifiers. -/
def role7 : Role :=
  { ID := 7, Name := "Ops", ParentRoleID := 1, Archived := false, Notes := "",
    SharedAcrossAccounts := false,
    Permissions := Slice.mk [{ ObjectType := "advertiser", Permission := 15 }],
    ReportIDs := Slice.mk [3, 4] }

/-- A prior state record that holds no report identifiers. -/
def emptyRoleState : roleResourceModel :=
  { ID := .null, Name := .null, ParentRoleID := .null, Archived := .null, Notes := .null,
    SharedAcrossAccounts := .null, Permissions := Slice.nil, ReportIDs := Slice.nil }

/-- A user with two account groups. -/
def user9 : User :=
  { ID := 9, SuperUser := false, Email := "a@b.com", FirstName := "A", LastName := "B",
    RoleID := 7, AccountID := 1, Active := true, AllAccountAccess := false,
    AccountGroupIDs := Slice.mk [1, 2] }

/-- A prior user state record with every attribute null. -/
def emptyUserState : userResourceModel :=
  { ID := .null, Email := .null, FirstName := .null, LastName := .null, RoleID := .null,
    AccountGroupIDs := Slice.nil, AccountID := .null, Active := .null, SuperUser := .null,
    AllAccountAccess := .null }

/-- A role plan whose identifier is not set, with permission values at and
beyond the ends of the 4-bit range and a repeated object type. -/
def rolePlan : roleResourceModel :=
  { ID := .unknown, Name := .known "Ops", ParentRoleID := .known 1, Archived := .known false,
    Notes := .known "", SharedAcrossAccounts := .known false,
    Permissions := Slice.mk
      [{ ObjectType := .known "advertiser", Permission := .known 0 },
       { ObjectType := .known "advertiser", Permission := .known 15 },
       { ObjectType := .known "campaign", Permission := .known (-1) },
       { ObjectType := .known "campaign", Permission := .known 16 }],
    ReportIDs := Slice.mk [] }

/-- A role state record on file with identifier 42. -/
def roleState42 : roleResourceModel := { rolePlan with ID := .known 42 }

/-- A user plan whose identifier is 0. -/
def userPlan : userResourceModel :=
  { ID := .known 0, Email := .known "a@b.com", FirstName := .known "A", LastName := .known "B",
    RoleID := .known 7, AccountGroupIDs := Slice.mk [.known 1, .known 2],
    AccountID := .known 1, Active := .known true, SuperUser := .known false,
    AllAccountAccess := .known false }

/-- A user state record on file with identifier 42. -/
def userState42 : userResourceModel := { userPlan with ID := .known 42 }

/-- A fresh response of a Create call: no state, no diagnostics. -/
def freshCreate (M : Type) : resource.CreateResponse M :=
  { State := { Raw := none }, Diagnostics := [] }

/-- A server that answers a create call with identifier 99 and with other
fields that differ from what was sent. -/
def created99 : Client :=
  server "200 OK" 200
    "\x7b\"id\":99,\"email\":\"other@b.com\",\"first_name\":\"Z\",\"name\":\"Other\"\x7d"

/-- Two roles as a roles-list call returns them. -/
def adminViewer : Slice Role :=
  Slice.mk [{ Role.zero with ID := 1, Name := "Admin" }, { Role.zero with ID := 2, Name := "Viewer" }]

/-- A roles data source whose list call returns the two roles. -/
def rolesSource : rolesDataSource :=
  { client := server "200 OK" 200 "", GetRoles := fun _ => (adminViewer, none) }

/-- The configuration of the roles data source: `roles` is not set. -/
def rolesConfig : datasource.ReadRequest rolesResourceModel :=
  { Config := { Get := ({ Roles := Slice.nil }, []) } }

/-- A provider configuration that sets the host and the password and leaves
the email null. -/
def configWithoutEmail : ConfigureRequest :=
  { Config := { Get := ({ Host := .known "https://example.test", Email := .null,
                          Password := .known "secret" }, []) } }

/-- An environment in which only `BEESWAX_USERNAME` is set. -/
def envUsername : String → Option String :=
  fun key => if key = "BEESWAX_USERNAME" then some "me@example.test" else none

/-- An environment in which only `BEESWAX_EMAIL` is set. -/
def envEmail : String → Option String :=
  fun key => if key = "BEESWAX_EMAIL" then some "me@example.test" else none

/-- A fresh response of a Configure call. -/
def freshConfigure : ConfigureResponse :=
  { DataSourceData := none, ResourceData := none, Diagnostics := [] }

/-- A network on which every request is answered with the given status. -/
def network (status : String) (code : Int) : http.Client :=
  { newRequestError := fun _ _ => none,
    Do := fun _ => .ok { Status := status, StatusCode := code, Body := .ok "" } }

/-- A session whose server answers 200 to a request with the given method and
URL whose body the given test accepts, and 404 to every other request. -/
def serverOnly (method url : String) (accepts : String → Bool) : Client :=
  { APIURL := "https://example.test", email := "me@example.test", password := "secret",
    client :=
      { newRequestError := fun _ _ => none,
        Do := fun req =>
          if req.Method = method ∧ req.URL = url ∧ accepts req.Body = true then
            .ok { Status := "200 OK", StatusCode := 200, Body := .ok "" }
          else .ok { Status := "404 Not Found", StatusCode := 404, Body := .ok "" } } }

/-- A fresh response of an Update call: the state on file, no diagnostics. -/
def freshUpdate {M : Type} (state : M) : resource.UpdateResponse M :=
  { State := { Raw := some state }, Diagnostics := [] }

end examples


/-! ## Properties of the JSON model

### The scanner never runs out of fuel

Each scanner returns a strictly shorter input, so its result is the same for
every amount of fuel above the length of the input. -/

namespace json

theorem skipSpace_length (cs : List Char) : (skipSpace cs).length ≤ cs.length := by
  induction cs with
  | nil => simp [skipSpace]
  | cons c cs ih =>
    unfold skipSpace
    split
    · simp only [List.length_cons]; omega
    · simp

theorem getu4_length (cs : List Char) (n : Nat) (rest : List Char)
    (h : getu4 cs = some (n, rest)) : rest.length + 6 = cs.length := by
  unfold getu4 at h
  split at h
  · split at h
    · simp only [Option.some.injEq, Prod.mk.injEq] at h
      rw [← h.2]
      simp
    · cases h
  · cases h

theorem scanString_length (fuel : Nat) (acc cs : List Char) (s : String) (rest : List Char)
    (h : scanString fuel acc cs = some (s, rest)) : rest.length < cs.length := by
  induction fuel generalizing acc cs with
  | zero => simp [scanString] at h
  | succ fuel ih =>
    unfold scanString at h
    split at h
    · cases h
    · simp only [Option.some.injEq, Prod.mk.injEq] at h
      rw [← h.2]; simp
    · rename_i c rest0
      split at h
      · split at h
        · cases h
        · rename_i rr rest1 hg
          have hl := getu4_length _ _ _ hg
          simp only [List.length_cons] at hl ⊢
          split at h
          · split at h
            · rename_i rr1 rest2 hg2
              have hl2 := getu4_length _ _ _ hg2
              split at h
              · have := ih _ _ h; omega
              · have := ih _ _ h; omega
            · have := ih _ _ h; omega
          · have := ih _ _ h; omega
      · simp only [List.length_cons]
        repeat' split at h
        all_goals first
          | cases h
          | exact Nat.lt_trans (ih _ _ h) (by omega)
    · rename_i c rest0 _ _
      split at h
      · cases h
      · have := ih _ _ h
        simp only [List.length_cons]; omega

theorem scanString_fuel (fuel fuel' : Nat) (acc cs : List Char)
    (h : cs.length < fuel) (h' : cs.length < fuel') :
    scanString fuel acc cs = scanString fuel' acc cs := by
  induction fuel generalizing fuel' acc cs with
  | zero => omega
  | succ fuel ih =>
    cases fuel' with
    | zero => omega
    | succ fuel' =>
      unfold scanString
      split
      · rfl
      · rfl
      · rename_i c rest0
        simp only [List.length_cons] at h h'
        split
        · split
          · rfl
          · rename_i rr rest1 hg
            have hl := getu4_length _ _ _ hg
            simp only [List.length_cons] at hl
            split
            · split
              · rename_i rr1 rest2 hg2
                have hl2 := getu4_length _ _ _ hg2
                split
                · exact ih _ _ _ (by omega) (by omega)
                · exact ih _ _ _ (by omega) (by omega)
              · exact ih _ _ _ (by omega) (by omega)
            · exact ih _ _ _ (by omega) (by omega)
        · repeat' split
          all_goals first
            | rfl
            | exact ih _ _ _ (by omega) (by omega)
      · rename_i c rest0 _ _
        simp only [List.length_cons] at h h'
        split
        · rfl
        · exact ih _ _ _ (by omega) (by omega)

theorem takeDigits_length (cs : List Char) : (takeDigits cs).2.length ≤ cs.length := by
  induction cs with
  | nil => simp [takeDigits]
  | cons c cs ih =>
    unfold takeDigits
    split
    · simp only [List.length_cons]; omega
    · simp

theorem scanSign_length (cs : List Char) : (scanSign cs).2.length ≤ cs.length := by
  unfold scanSign
  split
  · simp
  · simp

theorem scanInt_length (cs ip rest : List Char) (h : scanInt cs = some (ip, rest)) :
    rest.length < cs.length := by
  unfold scanInt at h
  split at h
  · cases h
  · rename_i c r
    have := takeDigits_length r
    simp only [List.length_cons]
    split at h
    · simp only [Option.some.injEq, Prod.mk.injEq] at h
      rw [← h.2]; omega
    · split at h
      · simp only [Option.some.injEq, Prod.mk.injEq] at h
        rw [← h.2]; omega
      · cases h

theorem scanFrac_length (cs fp rest : List Char) (h : scanFrac cs = some (fp, rest)) :
    rest.length ≤ cs.length := by
  unfold scanFrac at h
  split at h
  · simp only [Option.some.injEq, Prod.mk.injEq] at h
    rw [← h.2]
  · rename_i c r
    have := takeDigits_length r
    simp only [List.length_cons]
    split at h
    · split at h
      · cases h
      · simp only [Option.some.injEq, Prod.mk.injEq] at h
        rw [← h.2]; omega
    · simp only [Option.some.injEq, Prod.mk.injEq] at h
      rw [← h.2]; simp

theorem scanExpSign_length (cs : List Char) : (scanExpSign cs).2.length ≤ cs.length := by
  unfold scanExpSign
  split
  · simp
  · split
    · simp
    · simp

theorem scanExp_length (cs ep rest : List Char) (h : scanExp cs = some (ep, rest)) :
    rest.length ≤ cs.length := by
  unfold scanExp at h
  split at h
  · simp only [Option.some.injEq, Prod.mk.injEq] at h
    rw [← h.2]
  · rename_i e r
    have h1 := scanExpSign_length r
    have h2 := takeDigits_length (scanExpSign r).2
    simp only [List.length_cons]
    split at h
    · split at h
      · cases h
      · simp only [Option.some.injEq, Prod.mk.injEq] at h
        rw [← h.2]; omega
    · simp only [Option.some.injEq, Prod.mk.injEq] at h
      rw [← h.2]; simp

theorem scanNumber_length (cs : List Char) (s : String) (rest : List Char)
    (h : scanNumber cs = some (s, rest)) : rest.length < cs.length := by
  unfold scanNumber at h
  split at h
  · cases h
  · rename_i ip cs2 hip
    have h1 := scanSign_length cs
    have h2 := scanInt_length _ _ _ hip
    split at h
    · cases h
    · rename_i fp cs3 hfp
      have h3 := scanFrac_length _ _ _ hfp
      split at h
      · cases h
      · rename_i ep cs4 hep
        have h4 := scanExp_length _ _ _ hep
        simp only [Option.some.injEq, Prod.mk.injEq] at h
        rw [← h.2]
        omega

theorem stripLit_length (lit cs rest : List Char) (h : stripLit lit cs = some rest) :
    rest.length ≤ cs.length := by
  unfold stripLit at h
  split at h
  · simp only [Option.some.injEq] at h
    rw [← h]; simp
  · cases h

theorem scanElems_length (pv : List Char → Option (Value × List Char)) (hpv : Shrinks pv)
    (fuel : Nat) (acc : List Value) (cs : List Char) (vs : List Value) (rest : List Char)
    (h : scanElems pv fuel acc cs = some (vs, rest)) : rest.length < cs.length := by
  induction fuel generalizing acc cs with
  | zero => simp [scanElems] at h
  | succ fuel ih =>
    unfold scanElems at h
    split at h
    · cases h
    · rename_i v rest0 hv
      have h0 := hpv _ _ _ hv
      have h1 := skipSpace_length rest0
      split at h
      · rename_i rest1 hs
        have := ih _ _ h
        rw [hs] at h1
        simp only [List.length_cons] at h1
        omega
      · rename_i rest1 hs
        rw [hs] at h1
        simp only [List.length_cons] at h1
        simp only [Option.some.injEq, Prod.mk.injEq] at h
        rw [← h.2]
        omega
      · cases h

theorem scanElems_fuel (pv pv' : List Char → Option (Value × List Char)) (hpv : Shrinks pv)
    (fuel fuel' : Nat) (acc : List Value) (cs : List Char)
    (hagree : ∀ cs' : List Char, cs'.length ≤ cs.length → pv cs' = pv' cs')
    (h : cs.length < fuel) (h' : cs.length < fuel') :
    scanElems pv fuel acc cs = scanElems pv' fuel' acc cs := by
  induction fuel generalizing fuel' acc cs with
  | zero => omega
  | succ fuel ih =>
    cases fuel' with
    | zero => omega
    | succ fuel' =>
      unfold scanElems
      rw [← hagree cs (Nat.le_refl _)]
      split
      · rfl
      · rename_i v rest0 hv
        have h0 := hpv _ _ _ hv
        have h1 := skipSpace_length rest0
        split
        · rename_i rest1 hs
          rw [hs] at h1
          simp only [List.length_cons] at h1
          exact ih _ _ _ (fun cs' hc => hagree cs' (by omega)) (by omega) (by omega)
        · rfl
        · rfl

theorem scanMembers_length (pv : List Char → Option (Value × List Char)) (hpv : Shrinks pv)
    (fuel : Nat) (acc : List (String × Value)) (cs : List Char) (ms : List (String × Value))
    (rest : List Char) (h : scanMembers pv fuel acc cs = some (ms, rest)) :
    rest.length < cs.length := by
  induction fuel generalizing acc cs with
  | zero => simp [scanMembers] at h
  | succ fuel ih =>
    unfold scanMembers at h
    have h0 := skipSpace_length cs
    split at h
    · rename_i rest0 hs0
      rw [hs0] at h0
      simp only [List.length_cons] at h0
      split at h
      · cases h
      · rename_i k rest1 hk
        have h1 := scanString_length _ _ _ _ _ hk
        have h2 := skipSpace_length rest1
        split at h
        · rename_i rest2 hs2
          rw [hs2] at h2
          simp only [List.length_cons] at h2
          split at h
          · cases h
          · rename_i v rest3 hv
            have h3 := hpv _ _ _ hv
            have h4 := skipSpace_length rest3
            split at h
            · rename_i rest4 hs4
              rw [hs4] at h4
              simp only [List.length_cons] at h4
              have := ih _ _ h
              omega
            · rename_i rest4 hs4
              rw [hs4] at h4
              simp only [List.length_cons] at h4
              simp only [Option.some.injEq, Prod.mk.injEq] at h
              rw [← h.2]
              omega
            · cases h
        · cases h
    · cases h

theorem scanMembers_fuel (pv pv' : List Char → Option (Value × List Char)) (hpv : Shrinks pv)
    (fuel fuel' : Nat) (acc : List (String × Value)) (cs : List Char)
    (hagree : ∀ cs' : List Char, cs'.length ≤ cs.length → pv cs' = pv' cs')
    (h : cs.length < fuel) (h' : cs.length < fuel') :
    scanMembers pv fuel acc cs = scanMembers pv' fuel' acc cs := by
  induction fuel generalizing fuel' acc cs with
  | zero => omega
  | succ fuel ih =>
    cases fuel' with
    | zero => omega
    | succ fuel' =>
      unfold scanMembers
      have h0 := skipSpace_length cs
      split
      · rename_i rest0 hs0
        rw [hs0] at h0
        simp only [List.length_cons] at h0
        rw [scanString_fuel (fuel + 1) (fuel' + 1) [] rest0 (by omega) (by omega)]
        split
        · rfl
        · rename_i k rest1 hk
          have h1 := scanString_length _ _ _ _ _ hk
          have h2 := skipSpace_length rest1
          split
          · rename_i rest2 hs2
            rw [hs2] at h2
            simp only [List.length_cons] at h2
            rw [← hagree rest2 (by omega)]
            split
            · rfl
            · rename_i v rest3 hv
              have h3 := hpv _ _ _ hv
              have h4 := skipSpace_length rest3
              split
              · rename_i rest4 hs4
                rw [hs4] at h4
                simp only [List.length_cons] at h4
                exact ih _ _ _ (fun cs' hc => hagree cs' (by omega)) (by omega) (by omega)
              · rfl
              · rfl
          · rfl
      · rfl

theorem scanValue_length (fuel depth : Nat) : Shrinks (scanValue fuel depth) := by
  induction fuel generalizing depth with
  | zero =>
    intro cs v rest h
    simp [scanValue] at h
  | succ fuel ih =>
    intro cs v rest h
    unfold scanValue at h
    have h0 := skipSpace_length cs
    split at h
    · cases h
    · rename_i rest0 hs0
      rw [hs0] at h0
      simp only [List.length_cons] at h0
      split at h
      · cases h
      · split at h
        · rename_i rest1 hs1
          have h1 := skipSpace_length rest0
          rw [hs1] at h1
          simp only [List.length_cons] at h1
          simp only [Option.some.injEq, Prod.mk.injEq] at h
          rw [← h.2]
          omega
        · cases hm : scanMembers (scanValue fuel (depth + 1)) fuel [] rest0 with
          | none => rw [hm] at h; cases h
          | some r =>
            rw [hm] at h
            simp only [Option.map_some', Option.some.injEq, Prod.mk.injEq] at h
            have := scanMembers_length _ (ih (depth + 1)) _ _ _ r.1 r.2 hm
            rw [← h.2]
            omega
    · rename_i rest0 hs0
      rw [hs0] at h0
      simp only [List.length_cons] at h0
      split at h
      · cases h
      · split at h
        · rename_i rest1 hs1
          have h1 := skipSpace_length rest0
          rw [hs1] at h1
          simp only [List.length_cons] at h1
          simp only [Option.some.injEq, Prod.mk.injEq] at h
          rw [← h.2]
          omega
        · cases hm : scanElems (scanValue fuel (depth + 1)) fuel [] rest0 with
          | none => rw [hm] at h; cases h
          | some r =>
            rw [hm] at h
            simp only [Option.map_some', Option.some.injEq, Prod.mk.injEq] at h
            have := scanElems_length _ (ih (depth + 1)) _ _ _ r.1 r.2 hm
            rw [← h.2]
            omega
    · rename_i rest0 hs0
      rw [hs0] at h0
      simp only [List.length_cons] at h0
      cases hm : scanString fuel [] rest0 with
      | none => rw [hm] at h; cases h
      | some r =>
        rw [hm] at h
        simp only [Option.map_some', Option.some.injEq, Prod.mk.injEq] at h
        have := scanString_length _ _ _ r.1 r.2 hm
        rw [← h.2]
        omega
    · rename_i rest0 hs0
      rw [hs0] at h0
      simp only [List.length_cons] at h0
      cases hm : stripLit "rue".toList rest0 with
      | none => rw [hm] at h; cases h
      | some r =>
        rw [hm] at h
        simp only [Option.map_some', Option.some.injEq, Prod.mk.injEq] at h
        have := stripLit_length _ _ _ hm
        rw [← h.2]
        omega
    · rename_i rest0 hs0
      rw [hs0] at h0
      simp only [List.length_cons] at h0
      cases hm : stripLit "alse".toList rest0 with
      | none => rw [hm] at h; cases h
      | some r =>
        rw [hm] at h
        simp only [Option.map_some', Option.some.injEq, Prod.mk.injEq] at h
        have := stripLit_length _ _ _ hm
        rw [← h.2]
        omega
    · rename_i rest0 hs0
      rw [hs0] at h0
      simp only [List.length_cons] at h0
      cases hm : stripLit "ull".toList rest0 with
      | none => rw [hm] at h; cases h
      | some r =>
        rw [hm] at h
        simp only [Option.map_some', Option.some.injEq, Prod.mk.injEq] at h
        have := stripLit_length _ _ _ hm
        rw [← h.2]
        omega
    · rename_i c rest0 _ _ _ _ _ _ hs0
      rw [hs0] at h0
      cases hm : scanNumber (c :: rest0) with
      | none => rw [hm] at h; cases h
      | some r =>
        rw [hm] at h
        simp only [Option.map_some', Option.some.injEq, Prod.mk.injEq] at h
        have := scanNumber_length _ r.1 r.2 hm
        rw [← h.2]
        omega

/-- The result of scanning a value is the same for every amount of fuel above
the length of the input. -/
theorem scanValue_fuel (fuel fuel' depth : Nat) (cs : List Char)
    (h : cs.length < fuel) (h' : cs.length < fuel') :
    scanValue fuel depth cs = scanValue fuel' depth cs := by
  induction fuel generalizing fuel' depth cs with
  | zero => omega
  | succ fuel ih =>
    cases fuel' with
    | zero => omega
    | succ fuel' =>
      unfold scanValue
      have h0 := skipSpace_length cs
      split
      · rfl
      · rename_i rest0 hs0
        rw [hs0] at h0
        simp only [List.length_cons] at h0
        split
        · rfl
        · split
          · rfl
          · rw [scanMembers_fuel (scanValue fuel (depth + 1)) (scanValue fuel' (depth + 1))
              (scanValue_length fuel (depth + 1)) fuel fuel' [] rest0
              (fun cs' hc => ih fuel' (depth + 1) cs' (by omega) (by omega))
              (by omega) (by omega)]
      · rename_i rest0 hs0
        rw [hs0] at h0
        simp only [List.length_cons] at h0
        split
        · rfl
        · split
          · rfl
          · rw [scanElems_fuel (scanValue fuel (depth + 1)) (scanValue fuel' (depth + 1))
              (scanValue_length fuel (depth + 1)) fuel fuel' [] rest0
              (fun cs' hc => ih fuel' (depth + 1) cs' (by omega) (by omega))
              (by omega) (by omega)]
      · rename_i rest0 hs0
        rw [hs0] at h0
        simp only [List.length_cons] at h0
        rw [scanString_fuel fuel fuel' [] rest0 (by omega) (by omega)]
      · rfl
      · rfl
      · rfl
      · rfl

/-- The validity check does not depend on the fuel: any amount above the
length of the input gives the result of `parse`. -/
theorem parse_fuel (data : String) (fuel : Nat) (h : data.length < fuel) :
    parse data
      = match scanValue fuel 0 data.toList with
        | some (v, rest) => if skipSpace rest = [] then some v else none
        | none => none := by
  have h0 : data.toList.length < data.length + 1 := by
    cases data
    exact Nat.lt_succ_self _
  have h1 : data.toList.length < fuel := by
    cases data
    exact h
  unfold parse
  rw [scanValue_fuel (data.length + 1) fuel 0 data.toList h0 h1]

end json
/-! ## Properties of the adapter and the client -/

/-- A loop that appends `f x` for each `x` to a non-nil slice builds the mapped
list after the elements already present. -/
theorem Slice.foldl_append_map {α β : Type} (f : α → β) (l : List α) (init : List β) :
    l.foldl (fun acc x => acc.append (f x)) (Slice.mk init) = Slice.mk (init ++ l.map f) := by
  induction l generalizing init with
  | nil => simp
  | cons x xs ih =>
    have h : (Slice.mk init).append (f x) = Slice.mk (init ++ [f x]) := rfl
    rw [List.foldl_cons, h, ih]
    simp

/-- Mapping with `f` and then with a left inverse of `f` gives the list back. -/
theorem Slice.map_map_cancel {α β : Type} (f : α → β) (g : β → α) (l : List α)
    (h : ∀ x, g (f x) = x) : (l.map f).map g = l := by
  induction l with
  | nil => rfl
  | cons x xs ih => simp only [List.map, h, ih]

namespace provider

open beeswax

theorem convertListInt_eq (list : Slice basetypes.Int64Value) :
    convertListInt list = Slice.mk (list.elems.map basetypes.Int64Value.ValueInt64) := by
  unfold convertListInt
  simpa using Slice.foldl_append_map basetypes.Int64Value.ValueInt64 list.elems []

theorem convertToRole_Permissions (plan : roleResourceModel) :
    (convertToRole plan).Permissions
      = Slice.mk (plan.Permissions.elems.map
          (fun p => { ObjectType := p.ObjectType.ValueString,
                      Permission := p.Permission.ValueInt64 })) := by
  unfold convertToRole
  simpa using Slice.foldl_append_map
    (fun p : permissionResourceModel =>
      ({ ObjectType := p.ObjectType.ValueString,
         Permission := p.Permission.ValueInt64 } : beeswax.Permission))
    plan.Permissions.elems []

theorem fillStateFromRole_Permissions (state : roleResourceModel) (role : Role) :
    (fillStateFromRole state role).Permissions
      = Slice.mk (role.Permissions.elems.map
          (fun p => { ObjectType := types.StringValue p.ObjectType,
                      Permission := types.Int64Value p.Permission })) := by
  unfold fillStateFromRole
  simpa using Slice.foldl_append_map
    (fun p : beeswax.Permission =>
      ({ ObjectType := types.StringValue p.ObjectType,
         Permission := types.Int64Value p.Permission } : permissionResourceModel))
    role.Permissions.elems []

theorem fillStateFromUser_AccountGroupIDs (state : userResourceModel) (user : User) :
    (fillStateFromUser state user).AccountGroupIDs
      = Slice.mk (user.AccountGroupIDs.elems.map types.Int64Value) := by
  unfold fillStateFromUser
  simpa using Slice.foldl_append_map types.Int64Value user.AccountGroupIDs.elems []

/-- What the round trip through a state record does to a role: every field is
recovered except the report identifiers, which are those of the prior state. -/
theorem convertToRole_fillStateFromRole (s : roleResourceModel) (R : Role) :
    convertToRole (fillStateFromRole s R)
      = { R with Permissions := Slice.mk R.Permissions.elems,
                 ReportIDs := convertListInt s.ReportIDs } := by
  have hP : (convertToRole (fillStateFromRole s R)).Permissions
      = Slice.mk R.Permissions.elems := by
    rw [convertToRole_Permissions, fillStateFromRole_Permissions]
    simp only [Slice.elems]
    rw [Slice.map_map_cancel]
    intro p
    rfl
  have e : convertToRole (fillStateFromRole s R)
      = { R with Permissions := (convertToRole (fillStateFromRole s R)).Permissions,
                 ReportIDs := convertListInt s.ReportIDs } := rfl
  exact e.trans (by rw [hP])

/-- C1 (the code at the failing input): a role with report identifiers 3 and 4
is written into a state record that holds none and converted back; every
other field comes back, the report identifiers come back empty. -/
theorem role_roundtrip_drops_report_ids :
    convertToRole (fillStateFromRole examples.emptyRoleState examples.role7)
        = { examples.role7 with ReportIDs := Slice.mk [] }
      ∧ (convertToRole (fillStateFromRole examples.emptyRoleState examples.role7)).ReportIDs
        ≠ examples.role7.ReportIDs := by
  constructor
  · rw [convertToRole_fillStateFromRole]; rfl
  · rw [convertToRole_fillStateFromRole]; decide

/-- C2: a user written into any state record with `fillStateFromUser` and
converted back with `convertToUser` has every scalar field of the original
and the same account-group identifiers, in the same order and number. -/
theorem user_roundtrip (s : userResourceModel) (U : User) :
    (convertToUser (fillStateFromUser s U)).ID = U.ID
      ∧ (convertToUser (fillStateFromUser s U)).SuperUser = U.SuperUser
      ∧ (convertToUser (fillStateFromUser s U)).Email = U.Email
      ∧ (convertToUser (fillStateFromUser s U)).FirstName = U.FirstName
      ∧ (convertToUser (fillStateFromUser s U)).LastName = U.LastName
      ∧ (convertToUser (fillStateFromUser s U)).RoleID = U.RoleID
      ∧ (convertToUser (fillStateFromUser s U)).AccountID = U.AccountID
      ∧ (convertToUser (fillStateFromUser s U)).Active = U.Active
      ∧ (convertToUser (fillStateFromUser s U)).AllAccountAccess = U.AllAccountAccess
      ∧ (convertToUser (fillStateFromUser s U)).AccountGroupIDs.elems = U.AccountGroupIDs.elems
      ∧ (convertToUser (fillStateFromUser s U)).AccountGroupIDs.len = U.AccountGroupIDs.len := by
  have hg : (convertToUser (fillStateFromUser s U)).AccountGroupIDs
      = Slice.mk U.AccountGroupIDs.elems := by
    have h1 : (convertToUser (fillStateFromUser s U)).AccountGroupIDs
        = convertListInt (fillStateFromUser s U).AccountGroupIDs := rfl
    rw [h1, convertListInt_eq, fillStateFromUser_AccountGroupIDs]
    simp only [Slice.elems]
    rw [Slice.map_map_cancel]
    intro x
    rfl
  refine ⟨rfl, rfl, rfl, rfl, rfl, rfl, rfl, rfl, rfl, ?_, ?_⟩
  · rw [hg]; rfl
  · rw [hg]; rfl

end provider

namespace provider

open beeswax

/-- C5: the permission list produced by `convertToRole` has the length of the
declared list, and its i-th entry carries the object type and the permission
value of the i-th declared entry, unchanged whatever the value is; nothing is
reordered, merged or dropped. -/
theorem convertToRole_permissions_pass_through (plan : roleResourceModel) :
    (convertToRole plan).Permissions.len = plan.Permissions.len
      ∧ (∀ i : Nat, (convertToRole plan).Permissions.elems[i]?
          = (plan.Permissions.elems[i]?).map
              (fun p => { ObjectType := p.ObjectType.ValueString,
                          Permission := p.Permission.ValueInt64 }))
      ∧ (∀ (i : Nat) (objectType : String) (permission : Int),
          plan.Permissions.elems[i]?
              = some { ObjectType := .known objectType, Permission := .known permission } →
            (convertToRole plan).Permissions.elems[i]?
              = some { ObjectType := objectType, Permission := permission }) := by
  have h := convertToRole_Permissions plan
  refine ⟨?_, ?_, ?_⟩
  · rw [h]; simp [Slice.len, Slice.elems]
  · intro i
    rw [h]; simp [Slice.elems]
  · intro i objectType permission hi
    rw [h]
    show (List.map _ plan.Permissions.elems)[i]? = _
    rw [List.getElem?_map, hi]
    rfl

/-- C5 at a plan that declares 0 and 15 for one object type and -1 and 16 for
another: the four entries come out in the same order with the same values. -/
theorem convertToRole_permissions_pass_through_witness :
    (convertToRole examples.rolePlan).Permissions.len = 4
      ∧ (convertToRole examples.rolePlan).Permissions.elems[0]?
          = some { ObjectType := "advertiser", Permission := 0 }
      ∧ (convertToRole examples.rolePlan).Permissions.elems[1]?
          = some { ObjectType := "advertiser", Permission := 15 }
      ∧ (convertToRole examples.rolePlan).Permissions.elems[2]?
          = some { ObjectType := "campaign", Permission := -1 }
      ∧ (convertToRole examples.rolePlan).Permissions.elems[3]?
          = some { ObjectType := "campaign", Permission := 16 } :=
  ⟨(convertToRole_permissions_pass_through examples.rolePlan).1,
   (convertToRole_permissions_pass_through examples.rolePlan).2.2 0 "advertiser" 0 rfl,
   (convertToRole_permissions_pass_through examples.rolePlan).2.2 1 "advertiser" 15 rfl,
   (convertToRole_permissions_pass_through examples.rolePlan).2.2 2 "campaign" (-1) rfl,
   (convertToRole_permissions_pass_through examples.rolePlan).2.2 3 "campaign" 16 rfl⟩

end provider

namespace beeswax

/-- The request built by `request` does not depend on how the network answers. -/
theorem Client.newRequest_congr (bx : Client) (Do' : http.Request → Except GoError http.Response)
    (method path : String) (data : Data) :
    Client.newRequest { bx with client := { bx.client with Do := Do' } } method path data
      = bx.newRequest method path data := rfl

/-- The outcome of `request` is decided by the answer to the request built. -/
theorem Client.request_congr (bx : Client) (Do' : http.Request → Except GoError http.Response)
    (method path : String) (data : Data)
    (h : ∀ req, bx.newRequest method path data = .ok req → Do' req = bx.client.Do req) :
    Client.request { bx with client := { bx.client with Do := Do' } } method path data
      = bx.request method path data := by
  unfold Client.request
  rw [Client.newRequest_congr]
  cases hreq : bx.newRequest method path data with
  | error err => rfl
  | ok req =>
    have h' := h req hreq
    simp only [h']

/-- When `http.NewRequest` accepts the method and URL, `request` builds the
request with that method, the URL under the base URL, the JSON content type
and the encoded payload as body. -/
theorem Client.newRequest_ok (bx : Client) (method path : String) (data : Data)
    (payload : String) (hm : Marshal data = .ok payload)
    (hn : bx.client.newRequestError method (bx.APIURL ++ path) = none) :
    bx.newRequest method path data
      = .ok { Method := if method = "" then "GET" else method, URL := bx.APIURL ++ path,
              Header := [("Content-Type", "application/json")], Body := payload } := by
  simp [Client.newRequest, hm, http.NewRequest, hn, http.Request.SetHeader]

/-- Whatever `request` builds has the URL under the base URL and the encoded
payload as body. -/
theorem Client.newRequest_fields (bx : Client) (method path : String) (data : Data)
    (req : http.Request) (h : bx.newRequest method path data = .ok req) :
    req.Method = (if method = "" then "GET" else method) ∧ req.URL = bx.APIURL ++ path
      ∧ Marshal data = .ok req.Body := by
  unfold Client.newRequest at h
  cases hm : Marshal data with
  | error err => simp [hm] at h
  | ok payload =>
    simp only [hm] at h
    unfold http.NewRequest at h
    cases hn : bx.client.newRequestError method (bx.APIURL ++ path) with
    | some err => simp [hn] at h
    | none =>
      simp only [hn, Except.ok.injEq] at h
      subst h
      exact ⟨rfl, rfl, rfl⟩

theorem Role_render_toJSON (r : Role) :
    json.render r.toJSON
      = "\x7b\"id\":" ++ toString r.ID ++ ","
        ++ (json.renderMembers
              [("name", .string r.Name),
               ("parent_role_id", json.ofInt r.ParentRoleID),
               ("archived", .bool r.Archived),
               ("notes", .string r.Notes),
               ("shared_across_accounts", .bool r.SharedAcrossAccounts),
               ("permissions", json.ofSlice Permission.toJSON r.Permissions),
               ("report_ids", json.ofSlice json.ofInt r.ReportIDs)] ++ "\x7d") := by
  have hq : json.quote "id" = "\"id\"" := by decide
  simp only [Role.toJSON, json.render, json.renderMembers, json.ofInt, hq, String.append_assoc]
  rfl

theorem User_render_toJSON (u : User) :
    json.render u.toJSON
      = "\x7b\"id\":" ++ toString u.ID ++ ","
        ++ (json.renderMembers
              [("super_user", .bool u.SuperUser),
               ("email", .string u.Email),
               ("first_name", .string u.FirstName),
               ("last_name", .string u.LastName),
               ("role_id", json.ofInt u.RoleID),
               ("account_id", json.ofInt u.AccountID),
               ("active", .bool u.Active),
               ("all_account_access", .bool u.AllAccountAccess),
               ("account_group_ids", json.ofSlice json.ofInt u.AccountGroupIDs)] ++ "\x7d") := by
  have hq : json.quote "id" = "\"id\"" := by decide
  simp only [User.toJSON, json.render, json.renderMembers, json.ofInt, hq, String.append_assoc]
  rfl

end beeswax

namespace beeswax

/-- C6: when the status code of the response is outside 200..299, `request`
returns an `errors.New` error whose text contains the status line and the
whole body; when no response is received, it returns the transport error
wrapped under the text `request failed`, which is not an `errors.New` error. -/
theorem request_classifies_failures (bx : Client) (method path : String) (data : Data)
    (req : http.Request) (hreq : bx.newRequest method path data = .ok req) :
    (∀ (resp : http.Response) (body : String),
        bx.client.Do req = .ok resp → resp.Body = .ok body →
        ¬ (200 ≤ resp.StatusCode ∧ resp.StatusCode < 300) →
        ∃ msg, (bx.request method path data).2 = some (GoError.errorString msg)
          ∧ msg = "response " ++ resp.Status ++ " instead. API response: " ++ body
          ∧ resp.Status.toList <:+: msg.toList
          ∧ body.toList <:+: msg.toList)
    ∧ (∀ cause : GoError, bx.client.Do req = .error cause →
        (bx.request method path data).2
            = some (GoError.wrapError ("request failed: " ++ cause.Error) cause)
          ∧ ∀ msg, (bx.request method path data).2 ≠ some (GoError.errorString msg)) := by
  constructor
  · intro resp body hdo hbody hcode
    refine ⟨_, ?_, rfl, ?_, ?_⟩
    · simp only [Client.request, hreq, hdo, hbody]
      rw [if_pos]
      · rfl
      · intro h; exact hcode ⟨h.1, h.2⟩
    · refine ⟨"response ".toList, (" instead. API response: " ++ body).toList, ?_⟩
      simp [String.append_assoc]
    · refine ⟨("response " ++ resp.Status ++ " instead. API response: ").toList, [], ?_⟩
      simp
  · intro cause hdo
    have h : (bx.request method path data).2
        = some (GoError.wrapError ("request failed: " ++ cause.Error) cause) := by
      simp only [Client.request, hreq, hdo]
      rfl
    refine ⟨h, ?_⟩
    intro msg hmsg
    rw [h] at hmsg
    cases hmsg

/-- C6 at a 404 response with a JSON error body, and at a refused connection. -/
theorem request_classifies_failures_witness :
    (∃ msg, ((examples.server "404 Not Found" 404 "\x7b\"error\":\"not found\"\x7d").request
              "GET" "/rest/v2/roles/9" (.string "")).2 = some (GoError.errorString msg)
        ∧ msg = "response 404 Not Found instead. API response: \x7b\"error\":\"not found\"\x7d"
        ∧ "404 Not Found".toList <:+: msg.toList
        ∧ "\x7b\"error\":\"not found\"\x7d".toList <:+: msg.toList)
    ∧ (examples.refused.request "GET" "/rest/v2/roles/9" (.string "")).2
        = some (GoError.wrapError "request failed: dial tcp: connection refused"
            (.library "dial tcp: connection refused")) :=
  ⟨(request_classifies_failures
      (examples.server "404 Not Found" 404 "\x7b\"error\":\"not found\"\x7d")
      "GET" "/rest/v2/roles/9" (.string "") _ rfl).1 _ _ rfl rfl (by decide),
   ((request_classifies_failures examples.refused
      "GET" "/rest/v2/roles/9" (.string "") _ rfl).2 _ rfl).1⟩

end beeswax

namespace beeswax

theorem Client.GetUser_of_request_error (bx : Client) (userID : Int) (err : GoError)
    (h : (bx.request "GET" ("/rest/v2/users/" ++ toString userID) (.string "")).2 = some err) :
    bx.GetUser userID = (User.zero, some err) := by
  unfold Client.GetUser
  cases hr : bx.request "GET" ("/rest/v2/users/" ++ toString userID) (.string "") with
  | mk response e =>
    rw [hr] at h
    simp only at h
    subst h
    rfl

theorem Client.GetRole_of_request_error (bx : Client) (roleID : Int) (err : GoError)
    (h : (bx.request "GET" ("/rest/v2/roles/" ++ toString roleID) (.string "")).2 = some err) :
    bx.GetRole roleID = (Role.zero, some err) := by
  unfold Client.GetRole
  cases hr : bx.request "GET" ("/rest/v2/roles/" ++ toString roleID) (.string "") with
  | mk response e =>
    rw [hr] at h
    simp only at h
    subst h
    rfl

theorem Client.GetUser_of_request_ok (bx : Client) (userID : Int) (response : Option String)
    (h : bx.request "GET" ("/rest/v2/users/" ++ toString userID) (.string "")
      = (response, none)) :
    bx.GetUser userID = UnmarshalUser (response.getD "") User.zero := by
  unfold Client.GetUser
  rw [h]

theorem Client.GetRole_of_request_ok (bx : Client) (roleID : Int) (response : Option String)
    (h : bx.request "GET" ("/rest/v2/roles/" ++ toString roleID) (.string "")
      = (response, none)) :
    bx.GetRole roleID = UnmarshalRole (response.getD "") Role.zero := by
  unfold Client.GetRole
  rw [h]

/-- Once a response has been received and its body read, `request` returns
the body, with an error exactly when the status code is outside 200..299. -/
theorem Client.request_of_response (bx : Client) (method path : String) (data : Data)
    (req : http.Request) (resp : http.Response) (body : String)
    (hreq : bx.newRequest method path data = .ok req) (hdo : bx.client.Do req = .ok resp)
    (hbody : resp.Body = .ok body) :
    bx.request method path data
      = if ¬ (resp.StatusCode ≥ 200 ∧ resp.StatusCode < 300) then
          (some body,
            some (errors.New ("response " ++ resp.Status ++ " instead. API response: " ++ body)))
        else (some body, none) := by
  simp only [Client.request, hreq, hdo, hbody]

/-- C7: given a response that was received and read, `request` returns a nil
error if and only if the status code is in 200..299, and then the bytes it
returns are the response body; hence `GetUser` and `GetRole` return a non-nil
error on a 404 response. -/
theorem request_succeeds_exactly_on_2xx (bx : Client) :
    (∀ (method path : String) (data : Data) (req : http.Request) (resp : http.Response)
        (body : String),
        bx.newRequest method path data = .ok req → bx.client.Do req = .ok resp →
        resp.Body = .ok body →
          ((bx.request method path data).2 = none
              ↔ (200 ≤ resp.StatusCode ∧ resp.StatusCode < 300))
            ∧ ((200 ≤ resp.StatusCode ∧ resp.StatusCode < 300) →
                bx.request method path data = (some body, none)))
    ∧ (∀ (userID : Int) (req : http.Request) (resp : http.Response),
        bx.newRequest "GET" ("/rest/v2/users/" ++ toString userID) (.string "") = .ok req →
        bx.client.Do req = .ok resp → resp.StatusCode = 404 →
          (bx.GetUser userID).2 ≠ none)
    ∧ (∀ (roleID : Int) (req : http.Request) (resp : http.Response),
        bx.newRequest "GET" ("/rest/v2/roles/" ++ toString roleID) (.string "") = .ok req →
        bx.client.Do req = .ok resp → resp.StatusCode = 404 →
          (bx.GetRole roleID).2 ≠ none) := by
  have key : ∀ (method path : String) (data : Data) (req : http.Request)
      (resp : http.Response),
      bx.newRequest method path data = .ok req → bx.client.Do req = .ok resp →
      resp.StatusCode = 404 → ∃ err, (bx.request method path data).2 = some err := by
    intro method path data req resp hreq hdo hcode
    cases hb : resp.Body with
    | error err =>
      refine ⟨fmt.Errorf "can't read body response" err, ?_⟩
      simp only [Client.request, hreq, hdo, hb]
    | ok body =>
      rw [Client.request_of_response bx method path data req resp body hreq hdo hb, if_pos]
      · exact ⟨_, rfl⟩
      · rw [hcode]; decide
  refine ⟨?_, ?_, ?_⟩
  · intro method path data req resp body hreq hdo hbody
    rw [Client.request_of_response bx method path data req resp body hreq hdo hbody]
    by_cases hc : 200 ≤ resp.StatusCode ∧ resp.StatusCode < 300
    · have hc' : resp.StatusCode ≥ 200 ∧ resp.StatusCode < 300 := hc
      simp [hc']
    · have hc' : ¬ (resp.StatusCode ≥ 200 ∧ resp.StatusCode < 300) := hc
      rw [if_pos hc']
      constructor
      · constructor
        · intro h; cases h
        · intro h; exact absurd h hc
      · intro h; exact absurd h hc
  · intro userID req resp hreq hdo hcode
    obtain ⟨err, herr⟩ := key _ _ _ req resp hreq hdo hcode
    rw [Client.GetUser_of_request_error bx userID err herr]
    simp
  · intro roleID req resp hreq hdo hcode
    obtain ⟨err, herr⟩ := key _ _ _ req resp hreq hdo hcode
    rw [Client.GetRole_of_request_error bx roleID err herr]
    simp

/-- C7 at the status codes 199, 200, 299 and 300, and at a 404 answer to
`GetUser` and `GetRole`. -/
theorem request_succeeds_exactly_on_2xx_witness :
    ((examples.server "199 X" 199 "b").request "GET" "/p" (.string "")).2 ≠ none
      ∧ (examples.server "200 OK" 200 "b").request "GET" "/p" (.string "") = (some "b", none)
      ∧ (examples.server "299 X" 299 "b").request "GET" "/p" (.string "") = (some "b", none)
      ∧ ((examples.server "300 Multiple Choices" 300 "b").request "GET" "/p" (.string "")).2
          ≠ none
      ∧ ((examples.server "404 Not Found" 404 "").GetUser 9).2 ≠ none
      ∧ ((examples.server "404 Not Found" 404 "").GetRole 9).2 ≠ none :=
  ⟨fun h => absurd
      (((request_succeeds_exactly_on_2xx (examples.server "199 X" 199 "b")).1
        "GET" "/p" (.string "") _ _ "b" rfl rfl rfl).1.mp h) (by decide),
   ((request_succeeds_exactly_on_2xx (examples.server "200 OK" 200 "b")).1
      "GET" "/p" (.string "") _ _ "b" rfl rfl rfl).2 (by decide),
   ((request_succeeds_exactly_on_2xx (examples.server "299 X" 299 "b")).1
      "GET" "/p" (.string "") _ _ "b" rfl rfl rfl).2 (by decide),
   fun h => absurd
      (((request_succeeds_exactly_on_2xx (examples.server "300 Multiple Choices" 300 "b")).1
        "GET" "/p" (.string "") _ _ "b" rfl rfl rfl).1.mp h) (by decide),
   (request_succeeds_exactly_on_2xx (examples.server "404 Not Found" 404 "")).2.1
      9 _ _ rfl rfl rfl,
   (request_succeeds_exactly_on_2xx (examples.server "404 Not Found" 404 "")).2.2
      9 _ _ rfl rfl rfl⟩

/-- C8: `request` returns the whole response body together with the error
when it fails on a status code outside 200..299, and returns nil bytes together
with the error when it fails on JSON encoding, on building the request, on the
transport, or on reading the body. -/
theorem request_body_with_error (bx : Client) (method path : String) (data : Data) :
    (∀ (req : http.Request) (resp : http.Response) (body : String),
        bx.newRequest method path data = .ok req → bx.client.Do req = .ok resp →
        resp.Body = .ok body → ¬ (200 ≤ resp.StatusCode ∧ resp.StatusCode < 300) →
          (bx.request method path data).1 = some body
            ∧ (bx.request method path data).2 ≠ none)
    ∧ (∀ err : GoError, Marshal data = .error err →
        bx.request method path data = (none, some (fmt.Errorf "can't unmarshall" err)))
    ∧ (∀ (dataPayload : String) (err : GoError), Marshal data = .ok dataPayload →
        http.NewRequest bx.client method (bx.APIURL ++ path) dataPayload = .error err →
        bx.request method path data = (none, some (fmt.Errorf "request creation failed" err)))
    ∧ (∀ (req : http.Request) (err : GoError),
        bx.newRequest method path data = .ok req → bx.client.Do req = .error err →
        bx.request method path data = (none, some (fmt.Errorf "request failed" err)))
    ∧ (∀ (req : http.Request) (resp : http.Response) (err : GoError),
        bx.newRequest method path data = .ok req → bx.client.Do req = .ok resp →
        resp.Body = .error err →
        bx.request method path data
          = (none, some (fmt.Errorf "can't read body response" err))) := by
  refine ⟨?_, ?_, ?_, ?_, ?_⟩
  · intro req resp body hreq hdo hbody hcode
    have hc' : ¬ (resp.StatusCode ≥ 200 ∧ resp.StatusCode < 300) := hcode
    rw [Client.request_of_response bx method path data req resp body hreq hdo hbody, if_pos hc']
    exact ⟨rfl, by simp⟩
  · intro err hm
    simp only [Client.request, Client.newRequest, hm]
  · intro dataPayload err hm hn
    simp only [Client.request, Client.newRequest, hm, hn]
  · intro req err hreq hdo
    simp only [Client.request, hreq, hdo]
  · intro req resp err hreq hdo hbody
    simp only [Client.request, hreq, hdo, hbody]

/-- C8 at a 404 response, at a value that cannot be encoded, and at a refused
connection. -/
theorem request_body_with_error_witness :
    ((examples.server "404 Not Found" 404 "gone").request "GET" "/p" (.string "")).1
        = some "gone"
      ∧ (examples.refused.request "GET" "/p" (.other (.error (.library "unsupported type"))))
        = (none, some (fmt.Errorf "can't unmarshall" (.library "unsupported type")))
      ∧ (examples.refused.request "GET" "/p" (.string ""))
        = (none, some (fmt.Errorf "request failed" (.library "dial tcp: connection refused"))) :=
  ⟨((request_body_with_error (examples.server "404 Not Found" 404 "gone")
      "GET" "/p" (.string "")).1 _ _ "gone" rfl rfl rfl (by decide)).1,
   (request_body_with_error examples.refused "GET" "/p"
      (.other (.error (.library "unsupported type")))).2.1 _ rfl,
   (request_body_with_error examples.refused "GET" "/p" (.string "")).2.2.2.1 _ _ rfl rfl⟩

/-- C9: given that the login POST received a response, `Login` returns nil if
and only if the status code is exactly 200; any other status, other 2xx codes
included, gives the error `login failed`. -/
theorem Login_succeeds_only_on_200 (bx : Client) (resp : http.Response)
    (h : bx.client.Post (bx.APIURL ++ "/rest/v2/authenticate") "application/json"
          (json.render (.object [("email", .string bx.email), ("password", .string bx.password)]))
        = .ok resp) :
    (bx.Login = none ↔ resp.StatusCode = 200)
      ∧ (resp.StatusCode ≠ 200 → bx.Login = some (errors.New "login failed")) := by
  unfold Client.Login
  simp only [h, http.StatusOK]
  by_cases hc : resp.StatusCode = 200
  · simp [hc]
  · simp [hc]

/-- C9 at the status codes 200, 201, 204 and 401. -/
theorem Login_succeeds_only_on_200_witness :
    (examples.server "200 OK" 200 "").Login = none
      ∧ (examples.server "201 Created" 201 "").Login = some (errors.New "login failed")
      ∧ (examples.server "204 No Content" 204 "").Login = some (errors.New "login failed")
      ∧ (examples.server "401 Unauthorized" 401 "").Login = some (errors.New "login failed") :=
  ⟨(Login_succeeds_only_on_200 (examples.server "200 OK" 200 "") _ rfl).1.mpr rfl,
   (Login_succeeds_only_on_200 (examples.server "201 Created" 201 "") _ rfl).2 (by decide),
   (Login_succeeds_only_on_200 (examples.server "204 No Content" 204 "") _ rfl).2 (by decide),
   (Login_succeeds_only_on_200 (examples.server "401 Unauthorized" 401 "") _ rfl).2
      (by decide)⟩

end beeswax

/-! ### Decoding saves type errors only -/

namespace json

theorem OnlyTypeErrors.none : OnlyTypeErrors none := by
  intro e h; cases h

theorem saveError_only (saved : Option GoError) (ctx : errorContext) (Value GoType : String)
    (h : OnlyTypeErrors saved) : OnlyTypeErrors (saveError saved (typeError ctx Value GoType)) := by
  cases saved with
  | none =>
    intro e he
    simp only [saveError, typeError, Option.some.injEq] at he
    subst he
    trivial
  | some e0 => exact h

theorem decodeInt_only (typ : String) (ctx : errorContext) (v : Value) (cur : Int)
    (saved : Option GoError) (h : OnlyTypeErrors saved) :
    OnlyTypeErrors (decodeInt typ ctx v cur saved).2 := by
  unfold decodeInt
  split
  · exact h
  · split
    · exact h
    · exact saveError_only _ _ _ _ h
  · exact saveError_only _ _ _ _ h

theorem decodeBool_only (ctx : errorContext) (v : Value) (cur : Bool)
    (saved : Option GoError) (h : OnlyTypeErrors saved) :
    OnlyTypeErrors (decodeBool ctx v cur saved).2 := by
  unfold decodeBool
  split
  · exact h
  · exact h
  · exact saveError_only _ _ _ _ h

theorem decodeString_only (ctx : errorContext) (v : Value) (cur : String)
    (saved : Option GoError) (h : OnlyTypeErrors saved) :
    OnlyTypeErrors (decodeString ctx v cur saved).2 := by
  unfold decodeString
  split
  · exact h
  · exact h
  · exact saveError_only _ _ _ _ h

theorem decodeElems_only {α : Type} (dec : Value → α → Option GoError → α × Option GoError)
    (zero : α) (hdec : ∀ v cur saved, OnlyTypeErrors saved → OnlyTypeErrors (dec v cur saved).2)
    (items : List Value) (mem : List α) (saved : Option GoError) (h : OnlyTypeErrors saved) :
    OnlyTypeErrors (decodeElems dec zero items mem saved).2 := by
  induction items generalizing mem saved with
  | nil => exact h
  | cons v vs ih =>
    simp only [decodeElems]
    exact ih _ _ (hdec _ _ _ h)

theorem decodeSlice_only {α : Type} (dec : Value → α → Option GoError → α × Option GoError)
    (zero : α) (hdec : ∀ v cur saved, OnlyTypeErrors saved → OnlyTypeErrors (dec v cur saved).2)
    (typ : String) (ctx : errorContext) (v : Value) (cur : Slice α) (spare : List α)
    (saved : Option GoError) (h : OnlyTypeErrors saved) :
    OnlyTypeErrors (decodeSlice dec zero typ ctx v cur spare saved).2 := by
  unfold decodeSlice
  split
  · exact h
  · exact h
  · exact decodeElems_only dec zero hdec _ _ _ h
  · exact saveError_only _ _ _ _ h

/-- A fold keeps a property of the accumulator that each step keeps. -/
theorem foldl_invariant {σ β : Type} (P : σ → Prop) (f : σ → β → σ)
    (hf : ∀ s b, P s → P (f s b)) (l : List β) (s : σ) (hs : P s) : P (l.foldl f s) := by
  induction l generalizing s with
  | nil => exact hs
  | cons b bs ih => exact ih _ (hf _ _ hs)

end json

namespace beeswax

open json

theorem Permission_storeMember_only (ctx : errorContext)
    (p : beeswax.Permission × Option GoError) (m : String × Value)
    (h : OnlyTypeErrors p.2) : OnlyTypeErrors (Permission.storeMember ctx p m).2 := by
  unfold Permission.storeMember
  by_cases h0 : keyMatches m.1 "object_type" = true
  · rw [if_pos h0]
    exact decodeString_only _ _ _ _ h
  rw [if_neg h0]
  by_cases h1 : keyMatches m.1 "permission" = true
  · rw [if_pos h1]
    exact decodeInt_only _ _ _ _ _ h
  rw [if_neg h1]
  exact h

theorem Permission_decode_only (ctx : errorContext) (v : Value) (cur : beeswax.Permission)
    (saved : Option GoError) (h : OnlyTypeErrors saved) :
    OnlyTypeErrors (Permission.decode ctx v cur saved).2 := by
  unfold Permission.decode
  split
  · exact h
  · exact foldl_invariant (fun p : beeswax.Permission × Option GoError => OnlyTypeErrors p.2)
      (Permission.storeMember ctx) (fun s b hs => Permission_storeMember_only ctx s b hs)
      _ (cur, saved) h
  · exact saveError_only _ _ _ _ h

theorem User_storeMember_only (ctx : errorContext) (st : User.decodeState)
    (m : String × Value) (h : OnlyTypeErrors st.saved) :
    OnlyTypeErrors (User.storeMember ctx st m).saved := by
  unfold User.storeMember
  by_cases h0 : keyMatches m.1 "id" = true
  · rw [if_pos h0]
    exact decodeInt_only _ _ _ _ _ h
  rw [if_neg h0]
  by_cases h1 : keyMatches m.1 "super_user" = true
  · rw [if_pos h1]
    exact decodeBool_only _ _ _ _ h
  rw [if_neg h1]
  by_cases h2 : keyMatches m.1 "email" = true
  · rw [if_pos h2]
    exact decodeString_only _ _ _ _ h
  rw [if_neg h2]
  by_cases h3 : keyMatches m.1 "first_name" = true
  · rw [if_pos h3]
    exact decodeString_only _ _ _ _ h
  rw [if_neg h3]
  by_cases h4 : keyMatches m.1 "last_name" = true
  · rw [if_pos h4]
    exact decodeString_only _ _ _ _ h
  rw [if_neg h4]
  by_cases h5 : keyMatches m.1 "role_id" = true
  · rw [if_pos h5]
    exact decodeInt_only _ _ _ _ _ h
  rw [if_neg h5]
  by_cases h6 : keyMatches m.1 "account_id" = true
  · rw [if_pos h6]
    exact decodeInt_only _ _ _ _ _ h
  rw [if_neg h6]
  by_cases h7 : keyMatches m.1 "active" = true
  · rw [if_pos h7]
    exact decodeBool_only _ _ _ _ h
  rw [if_neg h7]
  by_cases h8 : keyMatches m.1 "all_account_access" = true
  · rw [if_pos h8]
    exact decodeBool_only _ _ _ _ h
  rw [if_neg h8]
  by_cases h9 : keyMatches m.1 "account_group_ids" = true
  · rw [if_pos h9]
    exact decodeSlice_only _ _ (fun v cur saved hs => decodeInt_only _ _ v cur saved hs)
      _ _ _ _ _ _ h
  rw [if_neg h9]
  exact h

theorem User_decode_only (ctx : errorContext) (v : Value) (cur : User)
    (saved : Option GoError) (h : OnlyTypeErrors saved) :
    OnlyTypeErrors (User.decode ctx v cur saved).2 := by
  unfold User.decode
  split
  · exact h
  · exact foldl_invariant (fun st : User.decodeState => OnlyTypeErrors st.saved)
      (User.storeMember ctx) (fun s b hs => User_storeMember_only ctx s b hs)
      _ { user := cur, spareAccountGroupIDs := [], saved := saved } h
  · exact saveError_only _ _ _ _ h

theorem Role_storeMember_only (ctx : errorContext) (st : Role.decodeState)
    (m : String × Value) (h : OnlyTypeErrors st.saved) :
    OnlyTypeErrors (Role.storeMember ctx st m).saved := by
  unfold Role.storeMember
  by_cases h0 : keyMatches m.1 "id" = true
  · rw [if_pos h0]
    exact decodeInt_only _ _ _ _ _ h
  rw [if_neg h0]
  by_cases h1 : keyMatches m.1 "name" = true
  · rw [if_pos h1]
    exact decodeString_only _ _ _ _ h
  rw [if_neg h1]
  by_cases h2 : keyMatches m.1 "parent_role_id" = true
  · rw [if_pos h2]
    exact decodeInt_only _ _ _ _ _ h
  rw [if_neg h2]
  by_cases h3 : keyMatches m.1 "archived" = true
  · rw [if_pos h3]
    exact decodeBool_only _ _ _ _ h
  rw [if_neg h3]
  by_cases h4 : keyMatches m.1 "notes" = true
  · rw [if_pos h4]
    exact decodeString_only _ _ _ _ h
  rw [if_neg h4]
  by_cases h5 : keyMatches m.1 "shared_across_accounts" = true
  · rw [if_pos h5]
    exact decodeBool_only _ _ _ _ h
  rw [if_neg h5]
  by_cases h6 : keyMatches m.1 "permissions" = true
  · rw [if_pos h6]
    exact decodeSlice_only _ _
      (fun v cur saved hs => Permission_decode_only _ v cur saved hs) _ _ _ _ _ _ h
  rw [if_neg h6]
  by_cases h7 : keyMatches m.1 "report_ids" = true
  · rw [if_pos h7]
    exact decodeSlice_only _ _ (fun v cur saved hs => decodeInt_only _ _ v cur saved hs)
      _ _ _ _ _ _ h
  rw [if_neg h7]
  exact h

theorem Role_decode_only (ctx : errorContext) (v : Value) (cur : Role)
    (saved : Option GoError) (h : OnlyTypeErrors saved) :
    OnlyTypeErrors (Role.decode ctx v cur saved).2 := by
  unfold Role.decode
  split
  · exact h
  · exact foldl_invariant (fun st : Role.decodeState => OnlyTypeErrors st.saved)
      (Role.storeMember ctx) (fun s b hs => Role_storeMember_only ctx s b hs)
      _ { role := cur, sparePermissions := [], spareReportIDs := [], saved := saved } h
  · exact saveError_only _ _ _ _ h

/-- An error of `Unmarshal` that is not a type error leaves the target as it
was: the input was refused before anything was stored. -/
theorem UnmarshalUser_untouched (data : String) (user : User) (err : GoError)
    (h : (UnmarshalUser data user).2 = some err) (hne : ¬ err.IsUnmarshalTypeError) :
    (UnmarshalUser data user).1 = user := by
  unfold UnmarshalUser at h ⊢
  cases hp : json.parse data with
  | none => rfl
  | some v =>
    rw [hp] at h
    exact absurd (User_decode_only _ v user none OnlyTypeErrors.none err h) hne

theorem UnmarshalRole_untouched (data : String) (role : Role) (err : GoError)
    (h : (UnmarshalRole data role).2 = some err) (hne : ¬ err.IsUnmarshalTypeError) :
    (UnmarshalRole data role).1 = role := by
  unfold UnmarshalRole at h ⊢
  cases hp : json.parse data with
  | none => rfl
  | some v =>
    rw [hp] at h
    exact absurd (Role_decode_only _ v role none OnlyTypeErrors.none err h) hne

/-- C10 (counterexample): a 200 response whose body gives a number for `id`
and a string for a boolean field makes `GetUser` and `GetRole` return a
non-nil error together with an entity whose identifier is 5, not the zero
value. -/
theorem Get_error_with_populated_entity :
    (examples.server "200 OK" 200 "\x7b\"id\":5,\"active\":\"x\"\x7d").GetUser 5
        = ({ User.zero with ID := 5 },
           some (GoError.UnmarshalTypeError "string" "bool" "User" "active"))
      ∧ (examples.server "200 OK" 200 "\x7b\"id\":5,\"archived\":\"x\"\x7d").GetRole 5
        = ({ Role.zero with ID := 5 },
           some (GoError.UnmarshalTypeError "string" "bool" "Role" "archived"))
      ∧ ¬ (∀ (bx : Client) (userID : Int),
            (bx.GetUser userID).2 ≠ none → (bx.GetUser userID).1 = User.zero)
      ∧ ¬ (∀ (bx : Client) (roleID : Int),
            (bx.GetRole roleID).2 ≠ none → (bx.GetRole roleID).1 = Role.zero) := by
  have hu : (examples.server "200 OK" 200 "\x7b\"id\":5,\"active\":\"x\"\x7d").GetUser 5
      = ({ User.zero with ID := 5 },
         some (GoError.UnmarshalTypeError "string" "bool" "User" "active")) := by
    decide
  have hr : (examples.server "200 OK" 200 "\x7b\"id\":5,\"archived\":\"x\"\x7d").GetRole 5
      = ({ Role.zero with ID := 5 },
         some (GoError.UnmarshalTypeError "string" "bool" "Role" "archived")) := by
    decide
  refine ⟨hu, hr, ?_, ?_⟩
  · intro h
    have h1 := h (examples.server "200 OK" 200 "\x7b\"id\":5,\"active\":\"x\"\x7d") 5
    rw [hu] at h1
    exact absurd (h1 (by simp)) (by decide)
  · intro h
    have h1 := h (examples.server "200 OK" 200 "\x7b\"id\":5,\"archived\":\"x\"\x7d") 5
    rw [hr] at h1
    exact absurd (h1 (by simp)) (by decide)

/-- C10 (amended): whenever `GetUser` or `GetRole` returns an error that is
not a JSON type error, that is an error of the request (encoding, request
construction, transport, body read, status outside 200..299) or a syntax error
in the body, the entity it returns is the zero value. -/
theorem Get_zero_value_unless_type_error (bx : Client) (id : Int) (err : GoError) :
    ((bx.GetUser id).2 = some err → ¬ err.IsUnmarshalTypeError →
        (bx.GetUser id).1 = User.zero)
      ∧ ((bx.GetRole id).2 = some err → ¬ err.IsUnmarshalTypeError →
        (bx.GetRole id).1 = Role.zero) := by
  constructor
  · intro h hne
    cases hr : bx.request "GET" ("/rest/v2/users/" ++ toString id) (.string "") with
    | mk response e =>
      cases e with
      | some e0 =>
        rw [Client.GetUser_of_request_error bx id e0 (by rw [hr])]
      | none =>
        rw [Client.GetUser_of_request_ok bx id response hr] at h ⊢
        exact UnmarshalUser_untouched _ _ err h hne
  · intro h hne
    cases hr : bx.request "GET" ("/rest/v2/roles/" ++ toString id) (.string "") with
    | mk response e =>
      cases e with
      | some e0 =>
        rw [Client.GetRole_of_request_error bx id e0 (by rw [hr])]
      | none =>
        rw [Client.GetRole_of_request_ok bx id response hr] at h ⊢
        exact UnmarshalRole_untouched _ _ err h hne

/-- C10 (amended) at a 404 response, at a refused connection and at a 200
response whose body is not JSON. -/
theorem Get_zero_value_unless_type_error_witness :
    ((examples.server "404 Not Found" 404 "gone").GetUser 9).1 = User.zero
      ∧ (examples.refused.GetRole 9).1 = Role.zero
      ∧ ((examples.server "200 OK" 200 "<html>").GetUser 9).2 = some GoError.SyntaxError
      ∧ ((examples.server "200 OK" 200 "<html>").GetUser 9).1 = User.zero :=
  ⟨(Get_zero_value_unless_type_error (examples.server "404 Not Found" 404 "gone") 9
      (GoError.errorString "response 404 Not Found instead. API response: gone")).1
      (by decide) (fun h => h),
   (Get_zero_value_unless_type_error examples.refused 9
      (GoError.wrapError "request failed: dial tcp: connection refused"
        (.library "dial tcp: connection refused"))).2 (by decide) (fun h => h),
   by decide,
   (Get_zero_value_unless_type_error (examples.server "200 OK" 200 "<html>") 9
      GoError.SyntaxError).1 (by decide) (fun h => h)⟩

end beeswax

/-! ## Properties of the state records and of the CRUD operations -/

namespace provider

open beeswax

/-- C15: after `fillStateFromRole` every scalar field of the record is a known
value equal to the role's field, whatever the prior record held, and after
`fillStateFromUser` every scalar field is a known value equal to the user's
field; a field absent on the server, hence zero in the entity, is the known
zero value. -/
theorem fillState_scalars_known (state : roleResourceModel) (role : Role)
    (ustate : userResourceModel) (user : User) :
    ((fillStateFromRole state role).ID = .known role.ID
      ∧ (fillStateFromRole state role).Name = .known role.Name
      ∧ (fillStateFromRole state role).ParentRoleID = .known role.ParentRoleID
      ∧ (fillStateFromRole state role).Archived = .known role.Archived
      ∧ (fillStateFromRole state role).Notes = .known role.Notes
      ∧ (fillStateFromRole state role).SharedAcrossAccounts = .known role.SharedAcrossAccounts)
    ∧ ((fillStateFromUser ustate user).ID = .known user.ID
      ∧ (fillStateFromUser ustate user).SuperUser = .known user.SuperUser
      ∧ (fillStateFromUser ustate user).Email = .known user.Email
      ∧ (fillStateFromUser ustate user).FirstName = .known user.FirstName
      ∧ (fillStateFromUser ustate user).LastName = .known user.LastName
      ∧ (fillStateFromUser ustate user).RoleID = .known user.RoleID
      ∧ (fillStateFromUser ustate user).AccountID = .known user.AccountID
      ∧ (fillStateFromUser ustate user).Active = .known user.Active
      ∧ (fillStateFromUser ustate user).AllAccountAccess = .known user.AllAccountAccess)
    ∧ ((fillStateFromRole state Role.zero).Notes = .known ""
      ∧ (fillStateFromRole state Role.zero).Archived = .known false
      ∧ (fillStateFromRole state Role.zero).ID = .known 0) :=
  ⟨⟨rfl, rfl, rfl, rfl, rfl, rfl⟩, ⟨rfl, rfl, rfl, rfl, rfl, rfl, rfl, rfl, rfl⟩,
    ⟨rfl, rfl, rfl⟩⟩

/-- C18: `fillStateFromRole` leaves the `report_ids` field of the record as it
was, whatever report identifiers the role carries, and every other field of
the result comes from the role alone. -/
theorem fillStateFromRole_keeps_report_ids (state state' : roleResourceModel) (role : Role) :
    (fillStateFromRole state role).ReportIDs = state.ReportIDs
      ∧ (fillStateFromRole state role).ID = types.Int64Value role.ID
      ∧ (fillStateFromRole state role).Name = types.StringValue role.Name
      ∧ (fillStateFromRole state role).ParentRoleID = types.Int64Value role.ParentRoleID
      ∧ (fillStateFromRole state role).Archived = types.BoolValue role.Archived
      ∧ (fillStateFromRole state role).Notes = types.StringValue role.Notes
      ∧ (fillStateFromRole state role).SharedAcrossAccounts
          = types.BoolValue role.SharedAcrossAccounts
      ∧ (fillStateFromRole state role).Permissions
          = Slice.mk (role.Permissions.elems.map
              (fun p => { ObjectType := types.StringValue p.ObjectType,
                          Permission := types.Int64Value p.Permission }))
      ∧ fillStateFromRole state role
          = { fillStateFromRole state' role with ReportIDs := state.ReportIDs } :=
  ⟨rfl, rfl, rfl, rfl, rfl, rfl, rfl, fillStateFromRole_Permissions state role, rfl⟩

end provider

/-! ### Diagnostics -/

theorem diag.HasError_of_mem (ds : diag.Diagnostics) (d : diag.Diagnostic) (hm : d ∈ ds)
    (hd : d.Severity = diag.Severity.Error) : diag.Diagnostics.HasError ds = true := by
  unfold diag.Diagnostics.HasError
  rw [List.any_eq_true]
  exact ⟨d, hm, by simp [hd]⟩

theorem diag.HasError_concat (ds : diag.Diagnostics) (d : diag.Diagnostic) :
    diag.Diagnostics.HasError (ds ++ [d])
      = (diag.Diagnostics.HasError ds || decide (d.Severity = diag.Severity.Error)) := by
  unfold diag.Diagnostics.HasError
  simp [List.any_append]

/-- Appending diagnostics yields an error exactly when there was one before
or there is one among those appended. -/
theorem diag.HasError_Append (ds more : diag.Diagnostics) :
    diag.Diagnostics.HasError (diag.Diagnostics.Append ds more)
      = (diag.Diagnostics.HasError ds || diag.Diagnostics.HasError more) := by
  unfold diag.Diagnostics.Append
  induction more generalizing ds with
  | nil => simp [diag.Diagnostics.HasError]
  | cons d more ih =>
    rw [List.foldl_cons, ih]
    by_cases hm : d ∈ ds
    · rw [if_pos hm]
      by_cases hd : d.Severity = diag.Severity.Error
      · rw [diag.HasError_of_mem ds d hm hd]; simp
      · simp [diag.Diagnostics.HasError, hd]
    · rw [if_neg hm, diag.HasError_concat]
      by_cases hd : d.Severity = diag.Severity.Error
      · simp [diag.Diagnostics.HasError, hd]
      · simp [diag.Diagnostics.HasError, hd]

/-- An error diagnostic added to a collection without errors is appended at
its end: it cannot be there already. -/
theorem diag.AddError_of_no_error (ds : diag.Diagnostics) (summary detail : String)
    (h : diag.Diagnostics.HasError ds = false) :
    diag.Diagnostics.AddError ds summary detail
      = ds ++ [{ Severity := diag.Severity.Error, Summary := summary, Detail := detail }] := by
  unfold diag.Diagnostics.AddError diag.Diagnostics.Append
  simp only [List.foldl_cons, List.foldl_nil]
  rw [if_neg]
  intro hm
  rw [diag.HasError_of_mem ds _ hm rfl] at h
  cases h

theorem diag.AddAttributeError_HasError (ds : diag.Diagnostics) (attr summary detail : String) :
    diag.Diagnostics.HasError (diag.Diagnostics.AddAttributeError ds attr summary detail)
      = true := by
  unfold diag.Diagnostics.AddAttributeError
  rw [diag.HasError_Append]
  simp [diag.Diagnostics.HasError]

theorem diag.AddError_HasError (ds : diag.Diagnostics) (summary detail : String) :
    diag.Diagnostics.HasError (diag.Diagnostics.AddError ds summary detail) = true := by
  unfold diag.Diagnostics.AddError
  rw [diag.HasError_Append]
  simp [diag.Diagnostics.HasError]

namespace provider

open beeswax

namespace provider

open beeswax

theorem role_Create_of_error (r : roleResource) (plan : roleResourceModel) (pd : diag.Diagnostics)
    (resp : resource.CreateResponse roleResourceModel) (err : GoError) :
    diag.Diagnostics.HasError (resp.Diagnostics.Append pd) = false →
    (r.client.CreateRole (convertToRole plan)).2 = some err →
    r.Create { Plan := { Get := (plan, pd) } } resp
      = { State := resp.State,
          Diagnostics := resp.Diagnostics.Append pd
            ++ [{ Severity := diag.Severity.Error, Summary := "Error creating role",
                  Detail := "Could not create role, unexpected error: " ++ err.Error }] } := by
  intro hpre hgw
  unfold roleResource.Create
  simp only [hpre]
  cases hc : r.client.CreateRole (convertToRole plan) with
  | mk v e =>
    rw [hc] at hgw
    simp only at hgw
    subst hgw
    simp only [diag.AddError_of_no_error _ _ _ hpre]
    rfl

theorem role_Create_state_written (r : roleResource) (plan : roleResourceModel) (pd : diag.Diagnostics)
    (resp : resource.CreateResponse roleResourceModel) :
    (r.Create { Plan := { Get := (plan, pd) } } resp).State ≠ resp.State →
    diag.Diagnostics.HasError (resp.Diagnostics.Append pd) = false
      ∧ (r.client.CreateRole (convertToRole plan)).2 = none := by
  intro h
  unfold roleResource.Create at h
  cases hpre : diag.Diagnostics.HasError (resp.Diagnostics.Append pd) with
  | true => simp [hpre] at h
  | false =>
    refine ⟨rfl, ?_⟩
    simp only [hpre] at h
    cases hc : r.client.CreateRole (convertToRole plan) with
    | mk v e =>
      cases e with
      | none => rfl
      | some err => rw [hc] at h; simp at h

theorem role_Read_of_error (r : roleResource) (state : roleResourceModel) (sd : diag.Diagnostics)
    (resp : resource.ReadResponse roleResourceModel) (err : GoError) :
    diag.Diagnostics.HasError (resp.Diagnostics.Append sd) = false →
    (r.client.GetRole state.ID.ValueInt64).2 = some err →
    r.Read { State := { Get := (state, sd) } } resp
      = { State := resp.State,
          Diagnostics := resp.Diagnostics.Append sd
            ++ [{ Severity := diag.Severity.Error, Summary := "Error Reading Beeswax role",
                  Detail := "Could not read Beeswax role ID " ++ toString state.ID.ValueInt64 ++ ": "
                    ++ err.Error }] } := by
  intro hpre hgw
  unfold roleResource.Read
  simp only [hpre]
  cases hc : r.client.GetRole state.ID.ValueInt64 with
  | mk v e =>
    rw [hc] at hgw
    simp only at hgw
    subst hgw
    simp only [diag.AddError_of_no_error _ _ _ hpre]
    rfl

theorem role_Read_state_written (r : roleResource) (state : roleResourceModel) (sd : diag.Diagnostics)
    (resp : resource.ReadResponse roleResourceModel) :
    (r.Read { State := { Get := (state, sd) } } resp).State ≠ resp.State →
    diag.Diagnostics.HasError (resp.Diagnostics.Append sd) = false
      ∧ (r.client.GetRole state.ID.ValueInt64).2 = none := by
  intro h
  unfold roleResource.Read at h
  cases hpre : diag.Diagnostics.HasError (resp.Diagnostics.Append sd) with
  | true => simp [hpre] at h
  | false =>
    refine ⟨rfl, ?_⟩
    simp only [hpre] at h
    cases hc : r.client.GetRole state.ID.ValueInt64 with
    | mk v e =>
      cases e with
      | none => rfl
      | some err => rw [hc] at h; simp at h

theorem role_Update_of_error (r : roleResource) (plan state : roleResourceModel) (pd sd : diag.Diagnostics)
    (resp : resource.UpdateResponse roleResourceModel) (err : GoError) :
    diag.Diagnostics.HasError ((resp.Diagnostics.Append pd).Append sd) = false →
    r.client.UpdateRole (roleResource.Update.role plan state) = some err →
    r.Update { Plan := { Get := (plan, pd) }, State := { Get := (state, sd) } } resp
      = { State := resp.State,
          Diagnostics := (resp.Diagnostics.Append pd).Append sd
            ++ [{ Severity := diag.Severity.Error, Summary := "Error updating role",
                  Detail := "Could not update role, unexpected error: " ++ err.Error }] } := by
  intro hpre hgw
  unfold roleResource.Update
  simp only [hpre]
  simp only [hgw, diag.AddError_of_no_error _ _ _ hpre]
  rfl

theorem role_Update_state_written (r : roleResource) (plan state : roleResourceModel) (pd sd : diag.Diagnostics)
    (resp : resource.UpdateResponse roleResourceModel) :
    (r.Update { Plan := { Get := (plan, pd) }, State := { Get := (state, sd) } } resp).State ≠ resp.State →
    diag.Diagnostics.HasError ((resp.Diagnostics.Append pd).Append sd) = false
      ∧ r.client.UpdateRole (roleResource.Update.role plan state) = none := by
  intro h
  unfold roleResource.Update at h
  cases hpre : diag.Diagnostics.HasError ((resp.Diagnostics.Append pd).Append sd) with
  | true => simp [hpre] at h
  | false =>
    refine ⟨rfl, ?_⟩
    simp only [hpre] at h
    cases hc : r.client.UpdateRole (roleResource.Update.role plan state) with
    | none => rfl
    | some err => rw [hc] at h; simp at h

theorem user_Create_of_error (r : userResource) (plan : userResourceModel) (pd : diag.Diagnostics)
    (resp : resource.CreateResponse userResourceModel) (err : GoError) :
    diag.Diagnostics.HasError (resp.Diagnostics.Append pd) = false →
    (r.client.CreateUser (convertToUser plan)).2 = some err →
    r.Create { Plan := { Get := (plan, pd) } } resp
      = { State := resp.State,
          Diagnostics := resp.Diagnostics.Append pd
            ++ [{ Severity := diag.Severity.Error, Summary := "Error creating user",
                  Detail := "Could not create user, unexpected error: " ++ err.Error }] } := by
  intro hpre hgw
  unfold userResource.Create
  simp only [hpre]
  cases hc : r.client.CreateUser (convertToUser plan) with
  | mk v e =>
    rw [hc] at hgw
    simp only at hgw
    subst hgw
    simp only [diag.AddError_of_no_error _ _ _ hpre]
    rfl

theorem user_Create_state_written (r : userResource) (plan : userResourceModel) (pd : diag.Diagnostics)
    (resp : resource.CreateResponse userResourceModel) :
    (r.Create { Plan := { Get := (plan, pd) } } resp).State ≠ resp.State →
    diag.Diagnostics.HasError (resp.Diagnostics.Append pd) = false
      ∧ (r.client.CreateUser (convertToUser plan)).2 = none := by
  intro h
  unfold userResource.Create at h
  cases hpre : diag.Diagnostics.HasError (resp.Diagnostics.Append pd) with
  | true => simp [hpre] at h
  | false =>
    refine ⟨rfl, ?_⟩
    simp only [hpre] at h
    cases hc : r.client.CreateUser (convertToUser plan) with
    | mk v e =>
      cases e with
      | none => rfl
      | some err => rw [hc] at h; simp at h

theorem user_Read_of_error (r : userResource) (state : userResourceModel) (sd : diag.Diagnostics)
    (resp : resource.ReadResponse userResourceModel) (err : GoError) :
    diag.Diagnostics.HasError (resp.Diagnostics.Append sd) = false →
    (r.client.GetUser state.ID.ValueInt64).2 = some err →
    r.Read { State := { Get := (state, sd) } } resp
      = { State := resp.State,
          Diagnostics := resp.Diagnostics.Append sd
            ++ [{ Severity := diag.Severity.Error, Summary := "Error Reading Beeswax User",
                  Detail := "Could not read Beeswax User ID " ++ toString state.ID.ValueInt64 ++ ": "
                    ++ err.Error }] } := by
  intro hpre hgw
  unfold userResource.Read
  simp only [hpre]
  cases hc : r.client.GetUser state.ID.ValueInt64 with
  | mk v e =>
    rw [hc] at hgw
    simp only at hgw
    subst hgw
    simp only [diag.AddError_of_no_error _ _ _ hpre]
    rfl

theorem user_Read_state_written (r : userResource) (state : userResourceModel) (sd : diag.Diagnostics)
    (resp : resource.ReadResponse userResourceModel) :
    (r.Read { State := { Get := (state, sd) } } resp).State ≠ resp.State →
    diag.Diagnostics.HasError (resp.Diagnostics.Append sd) = false
      ∧ (r.client.GetUser state.ID.ValueInt64).2 = none := by
  intro h
  unfold userResource.Read at h
  cases hpre : diag.Diagnostics.HasError (resp.Diagnostics.Append sd) with
  | true => simp [hpre] at h
  | false =>
    refine ⟨rfl, ?_⟩
    simp only [hpre] at h
    cases hc : r.client.GetUser state.ID.ValueInt64 with
    | mk v e =>
      cases e with
      | none => rfl
      | some err => rw [hc] at h; simp at h

theorem user_Update_of_error (r : userResource) (plan state : userResourceModel) (pd sd : diag.Diagnostics)
    (resp : resource.UpdateResponse userResourceModel) (err : GoError) :
    diag.Diagnostics.HasError ((resp.Diagnostics.Append pd).Append sd) = false →
    r.client.UpdateUser (userResource.Update.user plan state) = some err →
    r.Update { Plan := { Get := (plan, pd) }, State := { Get := (state, sd) } } resp
      = { State := resp.State,
          Diagnostics := (resp.Diagnostics.Append pd).Append sd
            ++ [{ Severity := diag.Severity.Error, Summary := "Error updating user",
                  Detail := "Could not update user, unexpected error: " ++ err.Error }] } := by
  intro hpre hgw
  unfold userResource.Update
  simp only [hpre]
  simp only [hgw, diag.AddError_of_no_error _ _ _ hpre]
  rfl

theorem user_Update_state_written (r : userResource) (plan state : userResourceModel) (pd sd : diag.Diagnostics)
    (resp : resource.UpdateResponse userResourceModel) :
    (r.Update { Plan := { Get := (plan, pd) }, State := { Get := (state, sd) } } resp).State ≠ resp.State →
    diag.Diagnostics.HasError ((resp.Diagnostics.Append pd).Append sd) = false
      ∧ r.client.UpdateUser (userResource.Update.user plan state) = none := by
  intro h
  unfold userResource.Update at h
  cases hpre : diag.Diagnostics.HasError ((resp.Diagnostics.Append pd).Append sd) with
  | true => simp [hpre] at h
  | false =>
    refine ⟨rfl, ?_⟩
    simp only [hpre] at h
    cases hc : r.client.UpdateUser (userResource.Update.user plan state) with
    | none => rfl
    | some err => rw [hc] at h; simp at h

/-- C19: for roles and for users, when the gateway call made by Create, Read
or Update returns an error, the operation leaves the state of the response as
it was and appends exactly one error diagnostic to the diagnostics collected so
far; and whenever the state of the response has changed, the gateway call had
returned no error. -/
theorem state_untouched_on_gateway_error (r : roleResource) (u : userResource) :
    (∀ (plan : roleResourceModel) (pd : diag.Diagnostics) (resp : resource.CreateResponse roleResourceModel) (err : GoError),
        diag.Diagnostics.HasError (resp.Diagnostics.Append pd) = false →
        (r.client.CreateRole (convertToRole plan)).2 = some err →
        r.Create { Plan := { Get := (plan, pd) } } resp
          = { State := resp.State,
              Diagnostics := resp.Diagnostics.Append pd
                ++ [{ Severity := diag.Severity.Error, Summary := "Error creating role",
                      Detail := "Could not create role, unexpected error: " ++ err.Error }] })
    ∧ (∀ (plan : roleResourceModel) (pd : diag.Diagnostics) (resp : resource.CreateResponse roleResourceModel),
        (r.Create { Plan := { Get := (plan, pd) } } resp).State ≠ resp.State →
        diag.Diagnostics.HasError (resp.Diagnostics.Append pd) = false
          ∧ (r.client.CreateRole (convertToRole plan)).2 = none)
    ∧ (∀ (state : roleResourceModel) (sd : diag.Diagnostics) (resp : resource.ReadResponse roleResourceModel) (err : GoError),
        diag.Diagnostics.HasError (resp.Diagnostics.Append sd) = false →
        (r.client.GetRole state.ID.ValueInt64).2 = some err →
        r.Read { State := { Get := (state, sd) } } resp
          = { State := resp.State,
              Diagnostics := resp.Diagnostics.Append sd
                ++ [{ Severity := diag.Severity.Error, Summary := "Error Reading Beeswax role",
                      Detail := "Could not read Beeswax role ID " ++ toString state.ID.ValueInt64 ++ ": "
                    ++ err.Error }] })
    ∧ (∀ (state : roleResourceModel) (sd : diag.Diagnostics) (resp : resource.ReadResponse roleResourceModel),
        (r.Read { State := { Get := (state, sd) } } resp).State ≠ resp.State →
        diag.Diagnostics.HasError (resp.Diagnostics.Append sd) = false
          ∧ (r.client.GetRole state.ID.ValueInt64).2 = none)
    ∧ (∀ (plan state : roleResourceModel) (pd sd : diag.Diagnostics) (resp : resource.UpdateResponse roleResourceModel) (err : GoError),
        diag.Diagnostics.HasError ((resp.Diagnostics.Append pd).Append sd) = false →
        r.client.UpdateRole (roleResource.Update.role plan state) = some err →
        r.Update { Plan := { Get := (plan, pd) }, State := { Get := (state, sd) } } resp
          = { State := resp.State,
              Diagnostics := (resp.Diagnostics.Append pd).Append sd
                ++ [{ Severity := diag.Severity.Error, Summary := "Error updating role",
                      Detail := "Could not update role, unexpected error: " ++ err.Error }] })
    ∧ (∀ (plan state : roleResourceModel) (pd sd : diag.Diagnostics) (resp : resource.UpdateResponse roleResourceModel),
        (r.Update { Plan := { Get := (plan, pd) }, State := { Get := (state, sd) } } resp).State ≠ resp.State →
        diag.Diagnostics.HasError ((resp.Diagnostics.Append pd).Append sd) = false
          ∧ r.client.UpdateRole (roleResource.Update.role plan state) = none)
    ∧ (∀ (plan : userResourceModel) (pd : diag.Diagnostics) (resp : resource.CreateResponse userResourceModel) (err : GoError),
        diag.Diagnostics.HasError (resp.Diagnostics.Append pd) = false →
        (u.client.CreateUser (convertToUser plan)).2 = some err →
        u.Create { Plan := { Get := (plan, pd) } } resp
          = { State := resp.State,
              Diagnostics := resp.Diagnostics.Append pd
                ++ [{ Severity := diag.Severity.Error, Summary := "Error creating user",
                      Detail := "Could not create user, unexpected error: " ++ err.Error }] })
    ∧ (∀ (plan : userResourceModel) (pd : diag.Diagnostics) (resp : resource.CreateResponse userResourceModel),
        (u.Create { Plan := { Get := (plan, pd) } } resp).State ≠ resp.State →
        diag.Diagnostics.HasError (resp.Diagnostics.Append pd) = false
          ∧ (u.client.CreateUser (convertToUser plan)).2 = none)
    ∧ (∀ (state : userResourceModel) (sd : diag.Diagnostics) (resp : resource.ReadResponse userResourceModel) (err : GoError),
        diag.Diagnostics.HasError (resp.Diagnostics.Append sd) = false →
        (u.client.GetUser state.ID.ValueInt64).2 = some err →
        u.Read { State := { Get := (state, sd) } } resp
          = { State := resp.State,
              Diagnostics := resp.Diagnostics.Append sd
                ++ [{ Severity := diag.Severity.Error, Summary := "Error Reading Beeswax User",
                      Detail := "Could not read Beeswax User ID " ++ toString state.ID.ValueInt64 ++ ": "
                    ++ err.Error }] })
    ∧ (∀ (state : userResourceModel) (sd : diag.Diagnostics) (resp : resource.ReadResponse userResourceModel),
        (u.Read { State := { Get := (state, sd) } } resp).State ≠ resp.State →
        diag.Diagnostics.HasError (resp.Diagnostics.Append sd) = false
          ∧ (u.client.GetUser state.ID.ValueInt64).2 = none)
    ∧ (∀ (plan state : userResourceModel) (pd sd : diag.Diagnostics) (resp : resource.UpdateResponse userResourceModel) (err : GoError),
        diag.Diagnostics.HasError ((resp.Diagnostics.Append pd).Append sd) = false →
        u.client.UpdateUser (userResource.Update.user plan state) = some err →
        u.Update { Plan := { Get := (plan, pd) }, State := { Get := (state, sd) } } resp
          = { State := resp.State,
              Diagnostics := (resp.Diagnostics.Append pd).Append sd
                ++ [{ Severity := diag.Severity.Error, Summary := "Error updating user",
                      Detail := "Could not update user, unexpected error: " ++ err.Error }] })
    ∧ (∀ (plan state : userResourceModel) (pd sd : diag.Diagnostics) (resp : resource.UpdateResponse userResourceModel),
        (u.Update { Plan := { Get := (plan, pd) }, State := { Get := (state, sd) } } resp).State ≠ resp.State →
        diag.Diagnostics.HasError ((resp.Diagnostics.Append pd).Append sd) = false
          ∧ u.client.UpdateUser (userResource.Update.user plan state) = none) :=
  ⟨fun a0 a1 a2 err => role_Create_of_error r a0 a1 a2 err,
   fun a0 a1 a2 => role_Create_state_written r a0 a1 a2,
   fun a0 a1 a2 err => role_Read_of_error r a0 a1 a2 err,
   fun a0 a1 a2 => role_Read_state_written r a0 a1 a2,
   fun a0 a1 a2 a3 a4 err => role_Update_of_error r a0 a1 a2 a3 a4 err,
   fun a0 a1 a2 a3 a4 => role_Update_state_written r a0 a1 a2 a3 a4,
   fun a0 a1 a2 err => user_Create_of_error u a0 a1 a2 err,
   fun a0 a1 a2 => user_Create_state_written u a0 a1 a2,
   fun a0 a1 a2 err => user_Read_of_error u a0 a1 a2 err,
   fun a0 a1 a2 => user_Read_state_written u a0 a1 a2,
   fun a0 a1 a2 a3 a4 err => user_Update_of_error u a0 a1 a2 a3 a4 err,
   fun a0 a1 a2 a3 a4 => user_Update_state_written u a0 a1 a2 a3 a4⟩

/-- C19 at a refused connection: Create, Read and Update of a user leave the
state unset and report one error. -/
theorem state_untouched_on_gateway_error_witness :
    (userResource.Create ⟨examples.refused⟩ { Plan := { Get := (examples.userPlan, []) } }
        (examples.freshCreate userResourceModel)).State = { Raw := none }
      ∧ (userResource.Create ⟨examples.refused⟩ { Plan := { Get := (examples.userPlan, []) } }
          (examples.freshCreate userResourceModel)).Diagnostics.length = 1
      ∧ (roleResource.Update ⟨examples.refused⟩
          { Plan := { Get := (examples.rolePlan, []) },
            State := { Get := (examples.roleState42, []) } }
          { State := { Raw := some examples.roleState42 }, Diagnostics := [] }).State
        = { Raw := some examples.roleState42 } := by
  have h1 := (state_untouched_on_gateway_error ⟨examples.refused⟩ ⟨examples.refused⟩).2.2.2.2.2.2.1
    examples.userPlan [] (examples.freshCreate userResourceModel)
    (fmt.Errorf "request failed" (.library "dial tcp: connection refused")) rfl rfl
  have h2 := (state_untouched_on_gateway_error ⟨examples.refused⟩ ⟨examples.refused⟩).2.2.2.2.1
    examples.rolePlan examples.roleState42 [] []
    { State := { Raw := some examples.roleState42 }, Diagnostics := [] }
    (fmt.Errorf "request failed" (.library "dial tcp: connection refused")) rfl rfl
  refine ⟨?_, ?_, ?_⟩
  · rw [h1]; rfl
  · rw [h1]; rfl
  · rw [h2]

end provider

namespace beeswax

theorem Client.CreateUser_of_response (bx : Client) (user : User) (body : String)
    (h : bx.request "POST" "/rest/v2/users" (.user user) = (some body, none)) :
    bx.CreateUser user = ((UnmarshalUser body User.zero).1.ID, (UnmarshalUser body User.zero).2) := by
  unfold Client.CreateUser
  rw [h]
  rfl

theorem Client.CreateRole_of_response (bx : Client) (role : Role) (body : String)
    (h : bx.request "POST" "/rest/v2/roles" (.role role) = (some body, none)) :
    bx.CreateRole role = ((UnmarshalRole body Role.zero).1.ID, (UnmarshalRole body Role.zero).2) := by
  unfold Client.CreateRole
  rw [h]
  rfl

end beeswax

namespace provider

open beeswax

/-- C11: when the create call of the gateway succeeds with identifier `n`,
the state written by Create is the plan with its identifier replaced by the
known value `n` and every other field as in the plan; `n` is the `id` decoded
from the response body, and nothing else of the decoded entity `echo` is used. -/
theorem Create_backfills_only_identifier (u : userResource) (r : roleResource) :
    (∀ (plan : userResourceModel) (pd : diag.Diagnostics)
        (resp : resource.CreateResponse userResourceModel) (n : Int),
        diag.Diagnostics.HasError (resp.Diagnostics.Append pd) = false →
        u.client.CreateUser (convertToUser plan) = (n, none) →
        u.Create { Plan := { Get := (plan, pd) } } resp
          = { State := { Raw := some { plan with ID := .known n } },
              Diagnostics := resp.Diagnostics.Append pd })
    ∧ (∀ (plan : userResourceModel) (body : String) (echo : User),
        u.client.request "POST" "/rest/v2/users" (.user (convertToUser plan)) = (some body, none) →
        UnmarshalUser body User.zero = (echo, none) →
        u.client.CreateUser (convertToUser plan) = (echo.ID, none))
    ∧ (∀ (plan : roleResourceModel) (pd : diag.Diagnostics)
        (resp : resource.CreateResponse roleResourceModel) (n : Int),
        diag.Diagnostics.HasError (resp.Diagnostics.Append pd) = false →
        r.client.CreateRole (convertToRole plan) = (n, none) →
        r.Create { Plan := { Get := (plan, pd) } } resp
          = { State := { Raw := some { plan with ID := .known n } },
              Diagnostics := resp.Diagnostics.Append pd })
    ∧ (∀ (plan : roleResourceModel) (body : String) (echo : Role),
        r.client.request "POST" "/rest/v2/roles" (.role (convertToRole plan)) = (some body, none) →
        UnmarshalRole body Role.zero = (echo, none) →
        r.client.CreateRole (convertToRole plan) = (echo.ID, none)) := by
  refine ⟨?_, ?_, ?_, ?_⟩
  · intro plan pd resp n hpre hgw
    unfold userResource.Create
    simp only [hpre, hgw]
    rfl
  · intro plan body echo hreq hdec
    rw [Client.CreateUser_of_response _ _ body hreq, hdec]
  · intro plan pd resp n hpre hgw
    unfold roleResource.Create
    simp only [hpre, hgw]
    rfl
  · intro plan body echo hreq hdec
    rw [Client.CreateRole_of_response _ _ body hreq, hdec]

/-- C11 at the plan with email a@b.com, names A and B, role 7, account 1 and
account groups 1 and 2, against a server that answers with identifier 99 and
other values for the email and the first name: the state is the plan with
identifier 99. -/
theorem Create_backfills_only_identifier_witness :
    userResource.Create ⟨examples.created99⟩ { Plan := { Get := (examples.userPlan, []) } }
        (examples.freshCreate userResourceModel)
      = { State :=
            { Raw := some (
                { ID := .known 99, Email := .known "a@b.com", FirstName := .known "A",
                  LastName := .known "B", RoleID := .known 7,
                  AccountGroupIDs := Slice.mk [.known 1, .known 2], AccountID := .known 1,
                  Active := .known true, SuperUser := .known false,
                  AllAccountAccess := .known false } : userResourceModel) },
          Diagnostics := [] }
      ∧ roleResource.Create ⟨examples.created99⟩ { Plan := { Get := (examples.rolePlan, []) } }
          (examples.freshCreate roleResourceModel)
        = { State := { Raw := some { examples.rolePlan with ID := .known 99 } },
            Diagnostics := [] } :=
  ⟨(Create_backfills_only_identifier ⟨examples.created99⟩ ⟨examples.created99⟩).1
      examples.userPlan [] (examples.freshCreate userResourceModel) 99 rfl
      ((Create_backfills_only_identifier ⟨examples.created99⟩ ⟨examples.created99⟩).2.1
        examples.userPlan _ { User.zero with ID := 99, Email := "other@b.com", FirstName := "Z" }
        rfl (by decide)),
   (Create_backfills_only_identifier ⟨examples.created99⟩ ⟨examples.created99⟩).2.2.1
      examples.rolePlan [] (examples.freshCreate roleResourceModel) 99 rfl
      ((Create_backfills_only_identifier ⟨examples.created99⟩ ⟨examples.created99⟩).2.2.2
        examples.rolePlan _ { Role.zero with ID := 99, Name := "Other" }
        rfl (by decide))⟩

end provider

namespace provider

open beeswax

/-- The loop of the roles data source appends one entry per role, in order,
after the entries the record already holds. -/
theorem rolesDataSource.loop_elems (roles : List Role) (state : rolesResourceModel) :
    (roles.foldl
        (fun state role =>
          ({ state with
             Roles := state.Roles.append
               { ID := types.Int64Value role.ID, Name := types.StringValue role.Name } } :
            rolesResourceModel))
        state).Roles.elems
      = state.Roles.elems
        ++ roles.map (fun role =>
            ({ ID := .known role.ID, Name := .known role.Name } : liteRoleResourceModel)) := by
  induction roles generalizing state with
  | nil => simp
  | cons role rest ih =>
    rw [List.foldl_cons, ih]
    simp [Slice.append, Slice.elems, types.Int64Value, types.StringValue]

/-- What `Read` writes when the list call succeeds: the configured record with
one entry appended per role. -/
theorem rolesDataSource.Read_of_roles (d : rolesDataSource) (cfg : rolesResourceModel)
    (cd : diag.Diagnostics) (resp : datasource.ReadResponse rolesResourceModel)
    (roles : Slice Role)
    (hpre : diag.Diagnostics.HasError (resp.Diagnostics.Append cd) = false)
    (hg : d.GetRoles d.client = (roles, none)) :
    ∃ st : rolesResourceModel,
      d.Read { Config := { Get := (cfg, cd) } } resp
          = { State := { Raw := some st }, Diagnostics := resp.Diagnostics.Append cd }
        ∧ st.Roles.elems
          = cfg.Roles.elems
            ++ roles.elems.map (fun role =>
                ({ ID := .known role.ID, Name := .known role.Name } : liteRoleResourceModel)) := by
  refine ⟨_, ?_, rolesDataSource.loop_elems roles.elems cfg⟩
  unfold rolesDataSource.Read
  simp only [hpre, hg]
  rfl

/-- C14: when the roles-list call returns a sequence of roles without error,
and the configuration holds no `roles` entries (the attribute is computed, so
a configuration cannot set it), the sequence written by the roles data source
has as many entries as the call returned, in the same order, and its i-th
entry is the identifier and the name of the i-th role. -/
theorem roles_list_projection (d : rolesDataSource) (cfg : rolesResourceModel)
    (cd : diag.Diagnostics) (resp : datasource.ReadResponse rolesResourceModel)
    (roles : Slice Role)
    (hpre : diag.Diagnostics.HasError (resp.Diagnostics.Append cd) = false)
    (hg : d.GetRoles d.client = (roles, none))
    (hcfg : cfg.Roles.elems = []) :
    ∃ st : rolesResourceModel,
      (d.Read { Config := { Get := (cfg, cd) } } resp).State = { Raw := some st }
        ∧ st.Roles.elems
          = roles.elems.map (fun role =>
              ({ ID := .known role.ID, Name := .known role.Name } : liteRoleResourceModel))
        ∧ st.Roles.len = roles.len
        ∧ ∀ i : Nat, st.Roles.elems[i]?
            = (roles.elems[i]?).map (fun role =>
                ({ ID := .known role.ID, Name := .known role.Name } : liteRoleResourceModel)) := by
  obtain ⟨st, hst, hel⟩ := rolesDataSource.Read_of_roles d cfg cd resp roles hpre hg
  rw [hcfg, List.nil_append] at hel
  refine ⟨st, by rw [hst], hel, ?_, ?_⟩
  · simp [Slice.len, hel]
  · intro i
    rw [hel, List.getElem?_map]

/-- C14 at a list call that returns Admin with identifier 1 and Viewer with
identifier 2: the written sequence is exactly these two entries, in this
order. -/
theorem roles_list_projection_witness :
    ∃ st : rolesResourceModel,
      (examples.rolesSource.Read examples.rolesConfig
          { State := { Raw := none }, Diagnostics := [] }).State = { Raw := some st }
        ∧ st.Roles.elems
          = [{ ID := .known 1, Name := .known "Admin" },
             { ID := .known 2, Name := .known "Viewer" }] := by
  obtain ⟨st, h1, h2, _, _⟩ := roles_list_projection examples.rolesSource
    { Roles := Slice.nil } [] { State := { Raw := none }, Diagnostics := [] }
    examples.adminViewer rfl rfl rfl
  exact ⟨st, h1, h2⟩

end provider

namespace beeswax

/-- The empty string is encoded as an empty JSON string literal, two bytes. -/
theorem Marshal_empty_string :
    Marshal (.string "") = .ok "\"\"" ∧ ("\"\"" : String).length = 2 := by
  constructor
  · rfl
  · decide

/-- A request built for the empty string as data has the two-byte body. -/
theorem Client.newRequest_empty_string (bx : Client) (method path : String) (req : http.Request)
    (h : bx.newRequest method path (.string "") = .ok req) :
    req.Method = (if method = "" then "GET" else method) ∧ req.URL = bx.APIURL ++ path
      ∧ req.Body = "\"\"" ∧ req.Body.length = 2 := by
  have hf := Client.newRequest_fields bx method path (.string "") req h
  have hb : req.Body = "\"\"" := by
    have h2 := hf.2.2
    rw [Marshal_empty_string.1] at h2
    simp only [Except.ok.injEq] at h2
    exact h2.symm
  exact ⟨hf.1, hf.2.1, hb, by rw [hb]; decide⟩

/-- C12 (counterexample): the request that `GetUser(9)` hands to the transport
has the body `""`, two bytes long, so it is not true that every such request
has an empty body. -/
theorem Get_request_body_not_empty :
    (examples.server "200 OK" 200 "").newRequest "GET" ("/rest/v2/users/" ++ toString (9 : Int))
        (.string "")
      = .ok { Method := "GET", URL := "https://example.test/rest/v2/users/9",
              Header := [("Content-Type", "application/json")], Body := "\"\"" }
    ∧ ("\"\"" : String).length = 2
    ∧ ¬ (∀ (bx : Client) (userID : Int) (req : http.Request),
          bx.newRequest "GET" ("/rest/v2/users/" ++ toString userID) (.string "") = .ok req →
            req.Body = "") := by
  have h1 : (examples.server "200 OK" 200 "").newRequest "GET"
      ("/rest/v2/users/" ++ toString (9 : Int)) (.string "")
      = .ok { Method := "GET", URL := "https://example.test/rest/v2/users/9",
              Header := [("Content-Type", "application/json")], Body := "\"\"" } := rfl
  refine ⟨h1, by decide, ?_⟩
  intro h
  have h2 := h _ _ _ h1
  revert h2
  decide

/-- An error returned by `request` is an `errors.New` error or a wrapping
error. -/
theorem Client.request_error_form (bx : Client) (method path : String) (data : Data)
    (e : GoError) (h : (bx.request method path data).2 = some e) :
    (∃ msg, e = GoError.errorString msg) ∨ (∃ msg cause, e = GoError.wrapError msg cause) := by
  unfold Client.request at h
  cases hreq : bx.newRequest method path data with
  | error err =>
    rw [hreq] at h
    simp only [Option.some.injEq] at h
    unfold Client.newRequest at hreq
    cases hm : Marshal data with
    | error e1 =>
      rw [hm] at hreq
      simp only [Except.error.injEq] at hreq
      exact Or.inr ⟨_, _, by rw [← h, ← hreq]; rfl⟩
    | ok payload =>
      rw [hm] at hreq
      simp only at hreq
      cases hn : http.NewRequest bx.client method (bx.APIURL ++ path) payload with
      | error e2 =>
        rw [hn] at hreq
        simp only [Except.error.injEq] at hreq
        exact Or.inr ⟨_, _, by rw [← h, ← hreq]; rfl⟩
      | ok r => rw [hn] at hreq; cases hreq
  | ok req =>
    rw [hreq] at h
    simp only at h
    cases hdo : bx.client.Do req with
    | error e3 =>
      rw [hdo] at h
      simp only [Option.some.injEq] at h
      exact Or.inr ⟨_, _, by rw [← h]; rfl⟩
    | ok resp =>
      rw [hdo] at h
      simp only at h
      cases hb : resp.Body with
      | error e4 =>
        rw [hb] at h
        simp only [Option.some.injEq] at h
        exact Or.inr ⟨_, _, by rw [← h]; rfl⟩
      | ok body =>
        rw [hb] at h
        simp only at h
        split at h
        · simp only [Option.some.injEq] at h
          exact Or.inl ⟨_, by rw [← h]; rfl⟩
        · cases h

/-- An error of `Unmarshal` is a syntax error or a type error. -/
theorem UnmarshalUser_error_form (data : String) (user : User) (e : GoError)
    (h : (UnmarshalUser data user).2 = some e) :
    e = GoError.SyntaxError ∨ e.IsUnmarshalTypeError := by
  unfold UnmarshalUser at h
  cases hp : json.parse data with
  | none =>
    rw [hp] at h
    simp only [Option.some.injEq] at h
    exact Or.inl h.symm
  | some v =>
    rw [hp] at h
    exact Or.inr (User_decode_only _ v user none json.OnlyTypeErrors.none e h)

theorem UnmarshalRole_error_form (data : String) (role : Role) (e : GoError)
    (h : (UnmarshalRole data role).2 = some e) :
    e = GoError.SyntaxError ∨ e.IsUnmarshalTypeError := by
  unfold UnmarshalRole at h
  cases hp : json.parse data with
  | none =>
    rw [hp] at h
    simp only [Option.some.injEq] at h
    exact Or.inl h.symm
  | some v =>
    rw [hp] at h
    exact Or.inr (Role_decode_only _ v role none json.OnlyTypeErrors.none e h)

/-- A syntax error or type error differs from every error `request` returns. -/
theorem decode_error_ne_request_error (e : GoError)
    (he : e = GoError.SyntaxError ∨ e.IsUnmarshalTypeError)
    (bx : Client) (method path : String) (data : Data) (e' : GoError)
    (h : (bx.request method path data).2 = some e') : e ≠ e' := by
  intro heq
  subst heq
  rcases Client.request_error_form bx method path data e h with ⟨msg, hm⟩ | ⟨msg, cause, hm⟩
  · subst hm
    rcases he with he | he
    · cases he
    · exact he
  · subst hm
    rcases he with he | he
    · cases he
    · exact he

/-- C13: when a 2xx response has a body that does not unmarshal into the
entity, `GetUser`, `GetRole`, `CreateUser` and `CreateRole` return the error of
`json.Unmarshal`; it is a syntax error or a type error of `encoding/json`, and
it differs from every error the request primitive returns, the API error for
another status and the transport error among them. -/
theorem decode_errors_distinct (bx : Client) :
    (∀ (id : Int) (body : String) (e : GoError),
        bx.request "GET" ("/rest/v2/users/" ++ toString id) (.string "") = (some body, none) →
        (UnmarshalUser body User.zero).2 = some e →
          (bx.GetUser id).2 = some e
            ∧ (e = GoError.SyntaxError ∨ e.IsUnmarshalTypeError)
            ∧ (∀ msg, e ≠ GoError.errorString msg)
            ∧ (∀ msg cause, e ≠ GoError.wrapError msg cause)
            ∧ (∀ (bx' : Client) (method path : String) (data : Data) (e' : GoError),
                (bx'.request method path data).2 = some e' → e ≠ e'))
    ∧ (∀ (id : Int) (body : String) (e : GoError),
        bx.request "GET" ("/rest/v2/roles/" ++ toString id) (.string "") = (some body, none) →
        (UnmarshalRole body Role.zero).2 = some e →
          (bx.GetRole id).2 = some e
            ∧ (e = GoError.SyntaxError ∨ e.IsUnmarshalTypeError)
            ∧ (∀ msg, e ≠ GoError.errorString msg)
            ∧ (∀ msg cause, e ≠ GoError.wrapError msg cause)
            ∧ (∀ (bx' : Client) (method path : String) (data : Data) (e' : GoError),
                (bx'.request method path data).2 = some e' → e ≠ e'))
    ∧ (∀ (user : User) (body : String) (e : GoError),
        bx.request "POST" "/rest/v2/users" (.user user) = (some body, none) →
        (UnmarshalUser body User.zero).2 = some e →
          (bx.CreateUser user).2 = some e
            ∧ (e = GoError.SyntaxError ∨ e.IsUnmarshalTypeError)
            ∧ (∀ msg, e ≠ GoError.errorString msg)
            ∧ (∀ msg cause, e ≠ GoError.wrapError msg cause)
            ∧ (∀ (bx' : Client) (method path : String) (data : Data) (e' : GoError),
                (bx'.request method path data).2 = some e' → e ≠ e'))
    ∧ (∀ (role : Role) (body : String) (e : GoError),
        bx.request "POST" "/rest/v2/roles" (.role role) = (some body, none) →
        (UnmarshalRole body Role.zero).2 = some e →
          (bx.CreateRole role).2 = some e
            ∧ (e = GoError.SyntaxError ∨ e.IsUnmarshalTypeError)
            ∧ (∀ msg, e ≠ GoError.errorString msg)
            ∧ (∀ msg cause, e ≠ GoError.wrapError msg cause)
            ∧ (∀ (bx' : Client) (method path : String) (data : Data) (e' : GoError),
                (bx'.request method path data).2 = some e' → e ≠ e')) := by
  have form : ∀ e : GoError, (e = GoError.SyntaxError ∨ e.IsUnmarshalTypeError) →
      (e = GoError.SyntaxError ∨ e.IsUnmarshalTypeError)
        ∧ (∀ msg, e ≠ GoError.errorString msg)
        ∧ (∀ msg cause, e ≠ GoError.wrapError msg cause)
        ∧ (∀ (bx' : Client) (method path : String) (data : Data) (e' : GoError),
            (bx'.request method path data).2 = some e' → e ≠ e') := by
    intro e he
    refine ⟨he, ?_, ?_, fun bx' method path data e' h =>
      decode_error_ne_request_error e he bx' method path data e' h⟩
    · intro msg hm
      subst hm
      rcases he with he | he
      · cases he
      · exact he
    · intro msg cause hm
      subst hm
      rcases he with he | he
      · cases he
      · exact he
  refine ⟨?_, ?_, ?_, ?_⟩
  · intro id body e hreq hdec
    refine ⟨?_, form e (UnmarshalUser_error_form body _ e hdec)⟩
    rw [Client.GetUser_of_request_ok bx id (some body) hreq]
    exact hdec
  · intro id body e hreq hdec
    refine ⟨?_, form e (UnmarshalRole_error_form body _ e hdec)⟩
    rw [Client.GetRole_of_request_ok bx id (some body) hreq]
    exact hdec
  · intro user body e hreq hdec
    refine ⟨?_, form e (UnmarshalUser_error_form body _ e hdec)⟩
    rw [Client.CreateUser_of_response bx user body hreq]
    exact hdec
  · intro role body e hreq hdec
    refine ⟨?_, form e (UnmarshalRole_error_form body _ e hdec)⟩
    rw [Client.CreateRole_of_response bx role body hreq]
    exact hdec

/-- C13 at a 200 response whose body is an HTML page, and at one whose body
gives a string for a boolean field. -/
theorem decode_errors_distinct_witness :
    ((examples.server "200 OK" 200 "<html>").GetUser 9).2 = some GoError.SyntaxError
      ∧ ((examples.server "200 OK" 200 "\x7b\"id\":5,\"archived\":\"x\"\x7d").CreateRole
            examples.role7).2
          = some (GoError.UnmarshalTypeError "string" "bool" "Role" "archived") :=
  ⟨((decode_errors_distinct (examples.server "200 OK" 200 "<html>")).1
      9 "<html>" GoError.SyntaxError rfl (by decide)).1,
   ((decode_errors_distinct
      (examples.server "200 OK" 200 "\x7b\"id\":5,\"archived\":\"x\"\x7d")).2.2.2
      examples.role7 "\x7b\"id\":5,\"archived\":\"x\"\x7d"
      (GoError.UnmarshalTypeError "string" "bool" "Role" "archived") rfl (by decide)).1⟩

end beeswax

namespace provider

open beeswax

theorem addMissingDiagnostic_HasError (ds : diag.Diagnostics) (attr : String) :
    diag.Diagnostics.HasError (beeswaxProvider.Configure.addMissingDiagnostic ds attr) = true := by
  unfold beeswaxProvider.Configure.addMissingDiagnostic
  exact diag.AddAttributeError_HasError _ _ _ _

/-- The checks for empty values leave an error when one of the values is
empty, and change nothing when none is. -/
theorem checkMissing_HasError (host email password : String) (ds : diag.Diagnostics)
    (h : host = "" ∨ email = "" ∨ password = "") :
    diag.Diagnostics.HasError
      (beeswaxProvider.Configure.checkMissing host email password ds) = true := by
  unfold beeswaxProvider.Configure.checkMissing
  simp only
  by_cases hp : password = ""
  · rw [if_pos hp]
    exact addMissingDiagnostic_HasError _ _
  · rw [if_neg hp]
    by_cases he : email = ""
    · rw [if_pos he]
      exact addMissingDiagnostic_HasError _ _
    · rw [if_neg he]
      by_cases hh : host = ""
      · rw [if_pos hh]
        exact addMissingDiagnostic_HasError _ _
      · rcases h with h | h | h
        · exact absurd h hh
        · exact absurd h he
        · exact absurd h hp

theorem checkMissing_of_nonempty (host email password : String) (ds : diag.Diagnostics)
    (hh : host ≠ "") (he : email ≠ "") (hp : password ≠ "") :
    beeswaxProvider.Configure.checkMissing host email password ds = ds := by
  unfold beeswaxProvider.Configure.checkMissing
  simp only [if_neg hh, if_neg he, if_neg hp]

/-- When the checks for empty values leave no error, none of the values is
empty. -/
theorem nonempty_of_checkMissing (host email password : String) (ds : diag.Diagnostics)
    (h : diag.Diagnostics.HasError
      (beeswaxProvider.Configure.checkMissing host email password ds) = false) :
    host ≠ "" ∧ email ≠ "" ∧ password ≠ "" := by
  refine ⟨?_, ?_, ?_⟩
  · intro hh
    rw [checkMissing_HasError host email password ds (Or.inl hh)] at h
    cases h
  · intro he
    rw [checkMissing_HasError host email password ds (Or.inr (Or.inl he))] at h
    cases h
  · intro hp
    rw [checkMissing_HasError host email password ds (Or.inr (Or.inr hp))] at h
    cases h

/-- The outcomes of `Configure`: it stops with an error in the diagnostics
and the client fields as they were, without using the network, or it reaches
the login with three non-empty values. -/
theorem Configure_outcomes (net : http.Client) (env : String → Option String)
    (cfg : beeswaxProviderModel) (cd : diag.Diagnostics) (resp : ConfigureResponse) :
    (diag.Diagnostics.HasError
          (beeswaxProvider.Configure net env { Config := { Get := (cfg, cd) } } resp).Diagnostics
          = true
        ∧ (beeswaxProvider.Configure net env { Config := { Get := (cfg, cd) } } resp).DataSourceData
          = resp.DataSourceData
        ∧ (beeswaxProvider.Configure net env { Config := { Get := (cfg, cd) } } resp).ResourceData
          = resp.ResourceData
        ∧ ∀ net' : http.Client,
            beeswaxProvider.Configure net' env { Config := { Get := (cfg, cd) } } resp
              = beeswaxProvider.Configure net env { Config := { Get := (cfg, cd) } } resp)
    ∨ (beeswaxProvider.Configure.host env cfg ≠ ""
        ∧ beeswaxProvider.Configure.email env cfg ≠ ""
        ∧ beeswaxProvider.Configure.password env cfg ≠ ""
        ∧ beeswaxProvider.Configure net env { Config := { Get := (cfg, cd) } } resp
          = match (NewClient net (beeswaxProvider.Configure.host env cfg)
                (beeswaxProvider.Configure.email env cfg)
                (beeswaxProvider.Configure.password env cfg)).Login with
            | some err =>
              { resp with
                Diagnostics :=
                  (beeswaxProvider.Configure.checkUnknown cfg
                    (resp.Diagnostics.Append cd)).AddError
                    "Unable to Create Beeswax API Client"
                    ("An unexpected error occurred when creating the Beeswax API client. "
                      ++ "If the error is not clear, please contact the provider developers.\n\n"
                      ++ "Beeswax Client Error: " ++ err.Error) }
            | none =>
              { DataSourceData := some (NewClient net (beeswaxProvider.Configure.host env cfg)
                    (beeswaxProvider.Configure.email env cfg)
                    (beeswaxProvider.Configure.password env cfg)),
                ResourceData := some (NewClient net (beeswaxProvider.Configure.host env cfg)
                    (beeswaxProvider.Configure.email env cfg)
                    (beeswaxProvider.Configure.password env cfg)),
                Diagnostics :=
                  beeswaxProvider.Configure.checkUnknown cfg (resp.Diagnostics.Append cd) }) := by
  cases h0 : diag.Diagnostics.HasError (resp.Diagnostics.Append cd) with
  | true =>
    left
    have hr : ∀ n : http.Client,
        beeswaxProvider.Configure n env { Config := { Get := (cfg, cd) } } resp
          = { resp with Diagnostics := resp.Diagnostics.Append cd } := by
      intro n
      unfold beeswaxProvider.Configure
      simp only [h0]
      rfl
    rw [hr net]
    exact ⟨h0, rfl, rfl, fun n => hr n⟩
  | false =>
    cases h1 : diag.Diagnostics.HasError
        (beeswaxProvider.Configure.checkUnknown cfg (resp.Diagnostics.Append cd)) with
    | true =>
      left
      have hr : ∀ n : http.Client,
          beeswaxProvider.Configure n env { Config := { Get := (cfg, cd) } } resp
            = { resp with
                Diagnostics :=
                  beeswaxProvider.Configure.checkUnknown cfg (resp.Diagnostics.Append cd) } := by
        intro n
        unfold beeswaxProvider.Configure
        simp only [h0, h1]
        rfl
      rw [hr net]
      exact ⟨h1, rfl, rfl, fun n => hr n⟩
    | false =>
      cases h2 : diag.Diagnostics.HasError
          (beeswaxProvider.Configure.checkMissing (beeswaxProvider.Configure.host env cfg)
            (beeswaxProvider.Configure.email env cfg)
            (beeswaxProvider.Configure.password env cfg)
            (beeswaxProvider.Configure.checkUnknown cfg (resp.Diagnostics.Append cd))) with
      | true =>
        left
        have hr : ∀ n : http.Client,
            beeswaxProvider.Configure n env { Config := { Get := (cfg, cd) } } resp
              = { resp with
                  Diagnostics :=
                    beeswaxProvider.Configure.checkMissing
                      (beeswaxProvider.Configure.host env cfg)
                      (beeswaxProvider.Configure.email env cfg)
                      (beeswaxProvider.Configure.password env cfg)
                      (beeswaxProvider.Configure.checkUnknown cfg
                        (resp.Diagnostics.Append cd)) } := by
          intro n
          unfold beeswaxProvider.Configure
          simp only [h0, h1, h2]
          rfl
        rw [hr net]
        exact ⟨h2, rfl, rfl, fun n => hr n⟩
      | false =>
        right
        obtain ⟨hh, he, hp⟩ := nonempty_of_checkMissing _ _ _ _ h2
        refine ⟨hh, he, hp, ?_⟩
        unfold beeswaxProvider.Configure
        simp only [h0, h1, h2]
        rw [checkMissing_of_nonempty _ _ _ _ hh he hp]
        cases (NewClient net (beeswaxProvider.Configure.host env cfg)
            (beeswaxProvider.Configure.email env cfg)
            (beeswaxProvider.Configure.password env cfg)).Login with
        | none => rfl
        | some err => rfl

end provider

namespace provider

open beeswax

/-- C16: if the resolved host, email or password is empty, `Configure` ends
with an error in the diagnostics, leaves the client fields of the response as
they were and does not use the network, so no login takes place; if the login
fails, it ends with an error in the diagnostics and leaves the client fields
as they were; and whenever a client field has changed, the three values are
non-empty, the login returned no error, and both fields hold the new client. -/
theorem Configure_fails_fast (net : http.Client) (env : String → Option String)
    (cfg : beeswaxProviderModel) (cd : diag.Diagnostics) (resp : ConfigureResponse) :
    ((beeswaxProvider.Configure.host env cfg = "" ∨ beeswaxProvider.Configure.email env cfg = ""
          ∨ beeswaxProvider.Configure.password env cfg = "") →
        diag.Diagnostics.HasError
            (beeswaxProvider.Configure net env { Config := { Get := (cfg, cd) } } resp).Diagnostics
            = true
          ∧ (beeswaxProvider.Configure net env
                { Config := { Get := (cfg, cd) } } resp).DataSourceData = resp.DataSourceData
          ∧ (beeswaxProvider.Configure net env
                { Config := { Get := (cfg, cd) } } resp).ResourceData = resp.ResourceData
          ∧ ∀ net' : http.Client,
              beeswaxProvider.Configure net' env { Config := { Get := (cfg, cd) } } resp
                = beeswaxProvider.Configure net env { Config := { Get := (cfg, cd) } } resp)
    ∧ (∀ err : GoError,
        (NewClient net (beeswaxProvider.Configure.host env cfg)
            (beeswaxProvider.Configure.email env cfg)
            (beeswaxProvider.Configure.password env cfg)).Login = some err →
        diag.Diagnostics.HasError
            (beeswaxProvider.Configure net env { Config := { Get := (cfg, cd) } } resp).Diagnostics
            = true
          ∧ (beeswaxProvider.Configure net env
                { Config := { Get := (cfg, cd) } } resp).DataSourceData = resp.DataSourceData
          ∧ (beeswaxProvider.Configure net env
                { Config := { Get := (cfg, cd) } } resp).ResourceData = resp.ResourceData)
    ∧ (((beeswaxProvider.Configure net env
              { Config := { Get := (cfg, cd) } } resp).DataSourceData ≠ resp.DataSourceData
          ∨ (beeswaxProvider.Configure net env
              { Config := { Get := (cfg, cd) } } resp).ResourceData ≠ resp.ResourceData) →
        beeswaxProvider.Configure.host env cfg ≠ ""
          ∧ beeswaxProvider.Configure.email env cfg ≠ ""
          ∧ beeswaxProvider.Configure.password env cfg ≠ ""
          ∧ (NewClient net (beeswaxProvider.Configure.host env cfg)
              (beeswaxProvider.Configure.email env cfg)
              (beeswaxProvider.Configure.password env cfg)).Login = none
          ∧ (beeswaxProvider.Configure net env
                { Config := { Get := (cfg, cd) } } resp).DataSourceData
              = some (NewClient net (beeswaxProvider.Configure.host env cfg)
                  (beeswaxProvider.Configure.email env cfg)
                  (beeswaxProvider.Configure.password env cfg))
          ∧ (beeswaxProvider.Configure net env
                { Config := { Get := (cfg, cd) } } resp).ResourceData
              = some (NewClient net (beeswaxProvider.Configure.host env cfg)
                  (beeswaxProvider.Configure.email env cfg)
                  (beeswaxProvider.Configure.password env cfg))) := by
  rcases Configure_outcomes net env cfg cd resp with ⟨herr, hd, hr, hnet⟩ | ⟨hh, he, hp, heq⟩
  · refine ⟨fun _ => ⟨herr, hd, hr, hnet⟩, fun _ _ => ⟨herr, hd, hr⟩, ?_⟩
    intro hne
    rcases hne with hne | hne
    · exact absurd hd hne
    · exact absurd hr hne
  · refine ⟨?_, ?_, ?_⟩
    · intro hempty
      rcases hempty with h | h | h
      · exact absurd h hh
      · exact absurd h he
      · exact absurd h hp
    · intro err hlogin
      rw [heq, hlogin]
      exact ⟨diag.AddError_HasError _ _ _, rfl, rfl⟩
    · intro hne
      cases hlogin : (NewClient net (beeswaxProvider.Configure.host env cfg)
          (beeswaxProvider.Configure.email env cfg)
          (beeswaxProvider.Configure.password env cfg)).Login with
      | some err =>
        rw [heq, hlogin] at hne
        rcases hne with hne | hne
        · exact absurd rfl hne
        · exact absurd rfl hne
      | none =>
        rw [heq, hlogin]
        exact ⟨hh, he, hp, rfl, rfl, rfl⟩

/-- C16 at a configuration without email in an empty environment (no client,
an error, whatever the network), at a login answered with 401 (no client, an
error), and at a login answered with 200 (the client is handed out). -/
theorem Configure_fails_fast_witness :
    (beeswaxProvider.Configure (examples.network "200 OK" 200) (fun _ => none)
        examples.configWithoutEmail examples.freshConfigure).DataSourceData = none
      ∧ diag.Diagnostics.HasError
          (beeswaxProvider.Configure (examples.network "200 OK" 200) (fun _ => none)
            examples.configWithoutEmail examples.freshConfigure).Diagnostics = true
      ∧ (beeswaxProvider.Configure (examples.network "401 Unauthorized" 401) examples.envEmail
          examples.configWithoutEmail examples.freshConfigure).DataSourceData = none
      ∧ diag.Diagnostics.HasError
          (beeswaxProvider.Configure (examples.network "401 Unauthorized" 401) examples.envEmail
            examples.configWithoutEmail examples.freshConfigure).Diagnostics = true
      ∧ (beeswaxProvider.Configure (examples.network "200 OK" 200) examples.envEmail
          examples.configWithoutEmail examples.freshConfigure).DataSourceData
        = some (NewClient (examples.network "200 OK" 200) "https://example.test"
            "me@example.test" "secret") :=
  ⟨((Configure_fails_fast (examples.network "200 OK" 200) (fun _ => none)
        { Host := .known "https://example.test", Email := .null, Password := .known "secret" }
        [] examples.freshConfigure).1 (Or.inr (Or.inl rfl))).2.1,
   ((Configure_fails_fast (examples.network "200 OK" 200) (fun _ => none)
        { Host := .known "https://example.test", Email := .null, Password := .known "secret" }
        [] examples.freshConfigure).1 (Or.inr (Or.inl rfl))).1,
   ((Configure_fails_fast (examples.network "401 Unauthorized" 401) examples.envEmail
        { Host := .known "https://example.test", Email := .null, Password := .known "secret" }
        [] examples.freshConfigure).2.1 (errors.New "login failed") rfl).2.1,
   ((Configure_fails_fast (examples.network "401 Unauthorized" 401) examples.envEmail
        { Host := .known "https://example.test", Email := .null, Password := .known "secret" }
        [] examples.freshConfigure).2.1 (errors.New "login failed") rfl).1,
   rfl⟩

/-- How `Configure` resolves the login email: a configured email that is not
null is used as it is, and otherwise the value of `BEESWAX_EMAIL`. -/
theorem Configure_email_resolution (env : String → Option String)
    (cfg : beeswaxProviderModel) :
    (cfg.Email = .null →
        beeswaxProvider.Configure.email env cfg = os.Getenv env "BEESWAX_EMAIL")
      ∧ (∀ v : String, cfg.Email = .known v → beeswaxProvider.Configure.email env cfg = v) := by
  constructor
  · intro h
    simp [beeswaxProvider.Configure.email, h, basetypes.StringValue.IsNull]
  · intro v h
    simp [beeswaxProvider.Configure.email, h, basetypes.StringValue.IsNull,
      basetypes.StringValue.ValueString]

/-- C17 (the code at the failing input): with the email left null in the
configuration and `BEESWAX_USERNAME` set in the environment, `Configure`
resolves the email to the empty string, reports an error and hands out no
client; with the same value in `BEESWAX_EMAIL` it logs in with it. -/
theorem Configure_ignores_BEESWAX_USERNAME :
    os.Getenv examples.envUsername "BEESWAX_USERNAME" = "me@example.test"
      ∧ beeswaxProvider.Configure.email examples.envUsername
          examples.configWithoutEmail.Config.Get.1 = ""
      ∧ (beeswaxProvider.Configure (examples.network "200 OK" 200) examples.envUsername
          examples.configWithoutEmail examples.freshConfigure).DataSourceData = none
      ∧ (beeswaxProvider.Configure (examples.network "200 OK" 200) examples.envUsername
          examples.configWithoutEmail examples.freshConfigure).Diagnostics.map
            (fun d => (d.Severity, d.Summary, d.Path))
          = [(diag.Severity.Error, "Missing Beeswax API email", some "email")]
      ∧ beeswaxProvider.Configure.email examples.envEmail
          examples.configWithoutEmail.Config.Get.1 = "me@example.test"
      ∧ (beeswaxProvider.Configure (examples.network "200 OK" 200) examples.envEmail
          examples.configWithoutEmail examples.freshConfigure).DataSourceData
        = some (NewClient (examples.network "200 OK" 200) "https://example.test"
            "me@example.test" "secret") := by
  refine ⟨by decide, by decide, rfl, by decide, by decide, rfl⟩

end provider

/-! ## The request each gateway hands to the network, and what comes back -/

namespace beeswax

/-- When the data encodes and `http.NewRequest` refuses the method or URL,
`request` returns the wrapped refusal: nothing is sent. -/
theorem Client.request_of_creation_error (bx : Client) (method path : String) (data : Data)
    (payload : String) (err : GoError) (hm : Marshal data = .ok payload)
    (hn : bx.client.newRequestError method (bx.APIURL ++ path) = some err) :
    bx.request method path data = (none, some (fmt.Errorf "request creation failed" err)) := by
  simp [Client.request, Client.newRequest, hm, http.NewRequest, hn]

/-- When the transport fails on the request built from the method, the URL
under the base URL and the encoded payload, `request` returns the wrapped
transport error. -/
theorem Client.request_of_transport_error (bx : Client) (method path : String) (data : Data)
    (payload : String) (err : GoError) (hm : Marshal data = .ok payload)
    (hn : bx.client.newRequestError method (bx.APIURL ++ path) = none)
    (hdo : bx.client.Do
        { Method := if method = "" then "GET" else method, URL := bx.APIURL ++ path,
          Header := [("Content-Type", "application/json")], Body := payload } = .error err) :
    bx.request method path data = (none, some (fmt.Errorf "request failed" err)) := by
  simp only [Client.request, Client.newRequest_ok bx method path data payload hm hn, hdo]

/-- When the body of the answer to that request cannot be read, `request`
returns the wrapped read error. -/
theorem Client.request_of_unread_body (bx : Client) (method path : String) (data : Data)
    (payload : String) (resp : http.Response) (err : GoError) (hm : Marshal data = .ok payload)
    (hn : bx.client.newRequestError method (bx.APIURL ++ path) = none)
    (hdo : bx.client.Do
        { Method := if method = "" then "GET" else method, URL := bx.APIURL ++ path,
          Header := [("Content-Type", "application/json")], Body := payload } = .ok resp)
    (hbody : resp.Body = .error err) :
    bx.request method path data = (none, some (fmt.Errorf "can't read body response" err)) := by
  simp only [Client.request, Client.newRequest_ok bx method path data payload hm hn, hdo, hbody]

/-- When that request is answered and the body read, `request` returns the
body, with an error exactly when the status code is outside 200..299. -/
theorem Client.request_of_answer (bx : Client) (method path : String) (data : Data)
    (payload : String) (resp : http.Response) (body : String) (hm : Marshal data = .ok payload)
    (hn : bx.client.newRequestError method (bx.APIURL ++ path) = none)
    (hdo : bx.client.Do
        { Method := if method = "" then "GET" else method, URL := bx.APIURL ++ path,
          Header := [("Content-Type", "application/json")], Body := payload } = .ok resp)
    (hbody : resp.Body = .ok body) :
    bx.request method path data
      = if 200 ≤ resp.StatusCode ∧ resp.StatusCode < 300 then (some body, none)
        else (some body,
          some (errors.New ("response " ++ resp.Status ++ " instead. API response: " ++ body))) := by
  rw [Client.request_of_response bx method path data _ resp body
    (Client.newRequest_ok bx method path data payload hm hn) hdo hbody]
  by_cases h : 200 ≤ resp.StatusCode ∧ resp.StatusCode < 300
  · rw [if_pos h, if_neg]
    intro h'
    exact h' ⟨h.1, h.2⟩
  · rw [if_neg h, if_pos]
    intro h'
    exact h ⟨h'.1, h'.2⟩

/-- The four outcomes of a gateway that returns the error of `request`. -/
theorem Client.request_error_outcomes (bx : Client) (method path : String) (data : Data)
    (payload : String) (hm : Marshal data = .ok payload) :
    (∀ err, bx.client.newRequestError method (bx.APIURL ++ path) = some err →
        (bx.request method path data).2 = some (fmt.Errorf "request creation failed" err))
    ∧ (bx.client.newRequestError method (bx.APIURL ++ path) = none →
        (∀ err,
          bx.client.Do
              { Method := if method = "" then "GET" else method, URL := bx.APIURL ++ path,
                Header := [("Content-Type", "application/json")], Body := payload }
            = .error err →
          (bx.request method path data).2 = some (fmt.Errorf "request failed" err))
        ∧ (∀ resp err,
          bx.client.Do
              { Method := if method = "" then "GET" else method, URL := bx.APIURL ++ path,
                Header := [("Content-Type", "application/json")], Body := payload }
            = .ok resp →
          resp.Body = .error err →
          (bx.request method path data).2 = some (fmt.Errorf "can't read body response" err))
        ∧ (∀ resp body,
          bx.client.Do
              { Method := if method = "" then "GET" else method, URL := bx.APIURL ++ path,
                Header := [("Content-Type", "application/json")], Body := payload }
            = .ok resp →
          resp.Body = .ok body →
          (bx.request method path data).2
            = if 200 ≤ resp.StatusCode ∧ resp.StatusCode < 300 then none
              else some (errors.New
                ("response " ++ resp.Status ++ " instead. API response: " ++ body)))) := by
  refine ⟨?_, ?_⟩
  · intro err hn
    rw [Client.request_of_creation_error bx method path data payload err hm hn]
  · intro hn
    refine ⟨?_, ?_, ?_⟩
    · intro err hdo
      rw [Client.request_of_transport_error bx method path data payload err hm hn hdo]
    · intro resp err hdo hbody
      rw [Client.request_of_unread_body bx method path data payload resp err hm hn hdo hbody]
    · intro resp body hdo hbody
      rw [Client.request_of_answer bx method path data payload resp body hm hn hdo hbody]
      by_cases h : 200 ≤ resp.StatusCode ∧ resp.StatusCode < 300
      · rw [if_pos h, if_pos h]
      · rw [if_neg h, if_neg h]

/-- The outcomes of `GetUser` in terms of the answer to its request. -/
theorem Client.GetUser_outcomes (bx : Client) (userID : Int) :
    (∀ err, bx.client.newRequestError "GET"
          (bx.APIURL ++ ("/rest/v2/users/" ++ toString userID)) = some err →
        bx.GetUser userID = (User.zero, some (fmt.Errorf "request creation failed" err)))
    ∧ (bx.client.newRequestError "GET"
          (bx.APIURL ++ ("/rest/v2/users/" ++ toString userID)) = none →
        (∀ err,
          bx.client.Do
              { Method := "GET", URL := bx.APIURL ++ ("/rest/v2/users/" ++ toString userID),
                Header := [("Content-Type", "application/json")], Body := "\"\"" }
            = .error err →
          bx.GetUser userID = (User.zero, some (fmt.Errorf "request failed" err)))
        ∧ (∀ resp body,
          bx.client.Do
              { Method := "GET", URL := bx.APIURL ++ ("/rest/v2/users/" ++ toString userID),
                Header := [("Content-Type", "application/json")], Body := "\"\"" }
            = .ok resp →
          resp.Body = .ok body →
          bx.GetUser userID
            = if 200 ≤ resp.StatusCode ∧ resp.StatusCode < 300 then UnmarshalUser body User.zero
              else (User.zero, some (errors.New
                ("response " ++ resp.Status ++ " instead. API response: " ++ body))))) := by
  refine ⟨?_, ?_⟩
  · intro err hn
    unfold Client.GetUser
    rw [Client.request_of_creation_error bx "GET" _ (.string "") _ err Marshal_empty_string.1 hn]
  · intro hn
    refine ⟨?_, ?_⟩
    · intro err hdo
      unfold Client.GetUser
      rw [Client.request_of_transport_error bx "GET" _ (.string "") _ err
        Marshal_empty_string.1 hn hdo]
    · intro resp body hdo hbody
      unfold Client.GetUser
      rw [Client.request_of_answer bx "GET" _ (.string "") _ resp body
        Marshal_empty_string.1 hn hdo hbody]
      by_cases h : 200 ≤ resp.StatusCode ∧ resp.StatusCode < 300
      · rw [if_pos h, if_pos h]; rfl
      · rw [if_neg h, if_neg h]

/-- The outcomes of `GetRole` in terms of the answer to its request. -/
theorem Client.GetRole_outcomes (bx : Client) (roleID : Int) :
    (∀ err, bx.client.newRequestError "GET"
          (bx.APIURL ++ ("/rest/v2/roles/" ++ toString roleID)) = some err →
        bx.GetRole roleID = (Role.zero, some (fmt.Errorf "request creation failed" err)))
    ∧ (bx.client.newRequestError "GET"
          (bx.APIURL ++ ("/rest/v2/roles/" ++ toString roleID)) = none →
        (∀ err,
          bx.client.Do
              { Method := "GET", URL := bx.APIURL ++ ("/rest/v2/roles/" ++ toString roleID),
                Header := [("Content-Type", "application/json")], Body := "\"\"" }
            = .error err →
          bx.GetRole roleID = (Role.zero, some (fmt.Errorf "request failed" err)))
        ∧ (∀ resp body,
          bx.client.Do
              { Method := "GET", URL := bx.APIURL ++ ("/rest/v2/roles/" ++ toString roleID),
                Header := [("Content-Type", "application/json")], Body := "\"\"" }
            = .ok resp →
          resp.Body = .ok body →
          bx.GetRole roleID
            = if 200 ≤ resp.StatusCode ∧ resp.StatusCode < 300 then UnmarshalRole body Role.zero
              else (Role.zero, some (errors.New
                ("response " ++ resp.Status ++ " instead. API response: " ++ body))))) := by
  refine ⟨?_, ?_⟩
  · intro err hn
    unfold Client.GetRole
    rw [Client.request_of_creation_error bx "GET" _ (.string "") _ err Marshal_empty_string.1 hn]
  · intro hn
    refine ⟨?_, ?_⟩
    · intro err hdo
      unfold Client.GetRole
      rw [Client.request_of_transport_error bx "GET" _ (.string "") _ err
        Marshal_empty_string.1 hn hdo]
    · intro resp body hdo hbody
      unfold Client.GetRole
      rw [Client.request_of_answer bx "GET" _ (.string "") _ resp body
        Marshal_empty_string.1 hn hdo hbody]
      by_cases h : 200 ≤ resp.StatusCode ∧ resp.StatusCode < 300
      · rw [if_pos h, if_pos h]; rfl
      · rw [if_neg h, if_neg h]

/-- C4: `UpdateRole(r)` hands to the network a PUT on the base URL followed by
`/rest/v2/roles/` and the decimal form of `r.ID`, whose body is the JSON
encoding of `r`, with `id` member `r.ID`, so path and body name the same
identifier; what `UpdateRole` returns is decided by the answer to exactly that
request: nil on a 2xx answer, the API error on another status, the wrapped
transport or read error when no answer or no body comes back, and the
wrapped refusal when the request cannot be built. The same holds for
`UpdateUser(u)` under `/rest/v2/users/`. -/
theorem Update_addresses_own_identifier (bx : Client) (r : Role) (u : User) :
    ((bx.client.newRequestError "PUT" (bx.APIURL ++ ("/rest/v2/roles/" ++ toString r.ID)) = none →
        bx.newRequest "PUT" ("/rest/v2/roles/" ++ toString r.ID) (.role r)
          = .ok { Method := "PUT", URL := bx.APIURL ++ ("/rest/v2/roles/" ++ toString r.ID),
                  Header := [("Content-Type", "application/json")],
                  Body := json.render r.toJSON })
      ∧ r.toJSON.field "id" = some (json.ofInt r.ID)
      ∧ (∃ rest, json.render r.toJSON = "\x7b\"id\":" ++ toString r.ID ++ "," ++ rest)
      ∧ (∀ Do' : http.Request → Except GoError http.Response,
          (∀ req, bx.newRequest "PUT" ("/rest/v2/roles/" ++ toString r.ID) (.role r) = .ok req →
            req.Method = "PUT"
              ∧ req.URL = bx.APIURL ++ ("/rest/v2/roles/" ++ toString r.ID)
              ∧ req.Body = json.render r.toJSON
              → Do' req = bx.client.Do req) →
          Client.UpdateRole { bx with client := { bx.client with Do := Do' } } r
            = bx.UpdateRole r)
      ∧ (∀ err,
          bx.client.newRequestError "PUT" (bx.APIURL ++ ("/rest/v2/roles/" ++ toString r.ID))
            = some err →
          bx.UpdateRole r = some (fmt.Errorf "request creation failed" err))
      ∧ (bx.client.newRequestError "PUT" (bx.APIURL ++ ("/rest/v2/roles/" ++ toString r.ID)) = none →
          (∀ err,
            bx.client.Do
                { Method := "PUT", URL := bx.APIURL ++ ("/rest/v2/roles/" ++ toString r.ID),
                  Header := [("Content-Type", "application/json")],
                  Body := json.render r.toJSON }
              = .error err →
            bx.UpdateRole r = some (fmt.Errorf "request failed" err))
          ∧ (∀ resp err,
            bx.client.Do
                { Method := "PUT", URL := bx.APIURL ++ ("/rest/v2/roles/" ++ toString r.ID),
                  Header := [("Content-Type", "application/json")],
                  Body := json.render r.toJSON }
              = .ok resp →
            resp.Body = .error err →
            bx.UpdateRole r = some (fmt.Errorf "can't read body response" err))
          ∧ (∀ resp body,
            bx.client.Do
                { Method := "PUT", URL := bx.APIURL ++ ("/rest/v2/roles/" ++ toString r.ID),
                  Header := [("Content-Type", "application/json")],
                  Body := json.render r.toJSON }
              = .ok resp →
            resp.Body = .ok body →
            bx.UpdateRole r
              = if 200 ≤ resp.StatusCode ∧ resp.StatusCode < 300 then none
                else some (errors.New
                  ("response " ++ resp.Status ++ " instead. API response: " ++ body)))))
    ∧ ((bx.client.newRequestError "PUT" (bx.APIURL ++ ("/rest/v2/users/" ++ toString u.ID)) = none →
        bx.newRequest "PUT" ("/rest/v2/users/" ++ toString u.ID) (.user u)
          = .ok { Method := "PUT", URL := bx.APIURL ++ ("/rest/v2/users/" ++ toString u.ID),
                  Header := [("Content-Type", "application/json")],
                  Body := json.render u.toJSON })
      ∧ u.toJSON.field "id" = some (json.ofInt u.ID)
      ∧ (∃ rest, json.render u.toJSON = "\x7b\"id\":" ++ toString u.ID ++ "," ++ rest)
      ∧ (∀ Do' : http.Request → Except GoError http.Response,
          (∀ req, bx.newRequest "PUT" ("/rest/v2/users/" ++ toString u.ID) (.user u) = .ok req →
            req.Method = "PUT"
              ∧ req.URL = bx.APIURL ++ ("/rest/v2/users/" ++ toString u.ID)
              ∧ req.Body = json.render u.toJSON
              → Do' req = bx.client.Do req) →
          Client.UpdateUser { bx with client := { bx.client with Do := Do' } } u
            = bx.UpdateUser u)
      ∧ (∀ err,
          bx.client.newRequestError "PUT" (bx.APIURL ++ ("/rest/v2/users/" ++ toString u.ID))
            = some err →
          bx.UpdateUser u = some (fmt.Errorf "request creation failed" err))
      ∧ (bx.client.newRequestError "PUT" (bx.APIURL ++ ("/rest/v2/users/" ++ toString u.ID)) = none →
          (∀ err,
            bx.client.Do
                { Method := "PUT", URL := bx.APIURL ++ ("/rest/v2/users/" ++ toString u.ID),
                  Header := [("Content-Type", "application/json")],
                  Body := json.render u.toJSON }
              = .error err →
            bx.UpdateUser u = some (fmt.Errorf "request failed" err))
          ∧ (∀ resp err,
            bx.client.Do
                { Method := "PUT", URL := bx.APIURL ++ ("/rest/v2/users/" ++ toString u.ID),
                  Header := [("Content-Type", "application/json")],
                  Body := json.render u.toJSON }
              = .ok resp →
            resp.Body = .error err →
            bx.UpdateUser u = some (fmt.Errorf "can't read body response" err))
          ∧ (∀ resp body,
            bx.client.Do
                { Method := "PUT", URL := bx.APIURL ++ ("/rest/v2/users/" ++ toString u.ID),
                  Header := [("Content-Type", "application/json")],
                  Body := json.render u.toJSON }
              = .ok resp →
            resp.Body = .ok body →
            bx.UpdateUser u
              = if 200 ≤ resp.StatusCode ∧ resp.StatusCode < 300 then none
                else some (errors.New
                  ("response " ++ resp.Status ++ " instead. API response: " ++ body))))) := by
  have hr := Client.request_error_outcomes bx "PUT" ("/rest/v2/roles/" ++ toString r.ID)
    (.role r) (json.render r.toJSON) rfl
  have hu := Client.request_error_outcomes bx "PUT" ("/rest/v2/users/" ++ toString u.ID)
    (.user u) (json.render u.toJSON) rfl
  refine ⟨⟨?_, rfl, ⟨_, Role_render_toJSON r⟩, ?_, hr.1, hr.2⟩,
    ⟨?_, rfl, ⟨_, User_render_toJSON u⟩, ?_, hu.1, hu.2⟩⟩
  · intro hn
    exact Client.newRequest_ok bx "PUT" _ (.role r) _ rfl hn
  · intro Do' h
    unfold Client.UpdateRole
    rw [Client.request_congr]
    intro req hreq
    have hf := Client.newRequest_fields bx _ _ _ req hreq
    refine h req hreq ⟨hf.1, hf.2.1, ?_⟩
    have hb := hf.2.2
    simp only [Marshal, Except.ok.injEq] at hb
    exact hb.symm
  · intro hn
    exact Client.newRequest_ok bx "PUT" _ (.user u) _ rfl hn
  · intro Do' h
    unfold Client.UpdateUser
    rw [Client.request_congr]
    intro req hreq
    have hf := Client.newRequest_fields bx _ _ _ req hreq
    refine h req hreq ⟨hf.1, hf.2.1, ?_⟩
    have hb := hf.2.2
    simp only [Marshal, Except.ok.injEq] at hb
    exact hb.symm

/-- C4 at a role and a user with identifier 5, on a server that answers 200
only to a PUT on `/rest/v2/roles/5` (`/rest/v2/users/5`) whose body starts
with `"id":5`: both updates succeed; on a server that answers 200 only to a
PUT on `/rest/v2/roles/7`, and on a refused connection, the update of the
role fails. -/
theorem Update_addresses_own_identifier_witness :
    Client.UpdateRole
        (examples.serverOnly "PUT" "https://example.test/rest/v2/roles/5"
          (fun body => "\x7b\"id\":5,".toList.isPrefixOf body.toList))
        { examples.role7 with ID := 5 } = none
    ∧ Client.UpdateUser
        (examples.serverOnly "PUT" "https://example.test/rest/v2/users/5"
          (fun body => "\x7b\"id\":5,".toList.isPrefixOf body.toList))
        { examples.user9 with ID := 5 } = none
    ∧ Client.UpdateRole
        (examples.serverOnly "PUT" "https://example.test/rest/v2/roles/7" (fun _ => true))
        { examples.role7 with ID := 5 }
        = some (errors.New "response 404 Not Found instead. API response: ")
    ∧ Client.UpdateRole examples.refused { examples.role7 with ID := 5 }
        = some (fmt.Errorf "request failed" (.library "dial tcp: connection refused"))
    ∧ (Role.toJSON { examples.role7 with ID := 5 }).field "id" = some (.number "5")
    ∧ (User.toJSON { examples.user9 with ID := 5 }).field "id" = some (.number "5") :=
  ⟨((Update_addresses_own_identifier
        (examples.serverOnly "PUT" "https://example.test/rest/v2/roles/5"
          (fun body => "\x7b\"id\":5,".toList.isPrefixOf body.toList))
        { examples.role7 with ID := 5 } { examples.user9 with ID := 5 }).1.2.2.2.2.2 rfl).2.2
      { Status := "200 OK", StatusCode := 200, Body := .ok "" } "" rfl rfl,
   ((Update_addresses_own_identifier
        (examples.serverOnly "PUT" "https://example.test/rest/v2/users/5"
          (fun body => "\x7b\"id\":5,".toList.isPrefixOf body.toList))
        { examples.role7 with ID := 5 } { examples.user9 with ID := 5 }).2.2.2.2.2.2 rfl).2.2
      { Status := "200 OK", StatusCode := 200, Body := .ok "" } "" rfl rfl,
   ((Update_addresses_own_identifier
        (examples.serverOnly "PUT" "https://example.test/rest/v2/roles/7" (fun _ => true))
        { examples.role7 with ID := 5 } { examples.user9 with ID := 5 }).1.2.2.2.2.2 rfl).2.2
      { Status := "404 Not Found", StatusCode := 404, Body := .ok "" } "" rfl rfl,
   ((Update_addresses_own_identifier examples.refused
        { examples.role7 with ID := 5 } { examples.user9 with ID := 5 }).1.2.2.2.2.2 rfl).1
      (.library "dial tcp: connection refused") rfl,
   (Update_addresses_own_identifier examples.refused
      { examples.role7 with ID := 5 } { examples.user9 with ID := 5 }).1.2.1,
   (Update_addresses_own_identifier examples.refused
      { examples.role7 with ID := 5 } { examples.user9 with ID := 5 }).2.2.1⟩

end beeswax

namespace beeswax

/-- C12 (amended): the request that `GetUser`, `GetRole`, `DeleteUser` and
`DeleteRole` hand to the network is a GET or DELETE on the entity's path
whose body is the JSON encoding of the empty string, the two bytes `""`, not
zero bytes; what each call returns is decided by the answer to exactly that
request: on a 2xx answer the decoded body (GET) or nil (DELETE), on another
status the API error, and the wrapped transport error or refusal when no
answer comes back or the request cannot be built. -/
theorem Get_Delete_request_body (bx : Client) (id : Int) :
    (∀ req, bx.newRequest "GET" ("/rest/v2/users/" ++ toString id) (.string "") = .ok req →
        req.Method = "GET" ∧ req.URL = bx.APIURL ++ ("/rest/v2/users/" ++ toString id)
          ∧ req.Body = "\"\"" ∧ req.Body.length = 2)
    ∧ (∀ req, bx.newRequest "GET" ("/rest/v2/roles/" ++ toString id) (.string "") = .ok req →
        req.Method = "GET" ∧ req.URL = bx.APIURL ++ ("/rest/v2/roles/" ++ toString id)
          ∧ req.Body = "\"\"" ∧ req.Body.length = 2)
    ∧ (∀ req, bx.newRequest "DELETE" ("/rest/v2/users/" ++ toString id) (.string "") = .ok req →
        req.Method = "DELETE" ∧ req.URL = bx.APIURL ++ ("/rest/v2/users/" ++ toString id)
          ∧ req.Body = "\"\"" ∧ req.Body.length = 2)
    ∧ (∀ req, bx.newRequest "DELETE" ("/rest/v2/roles/" ++ toString id) (.string "") = .ok req →
        req.Method = "DELETE" ∧ req.URL = bx.APIURL ++ ("/rest/v2/roles/" ++ toString id)
          ∧ req.Body = "\"\"" ∧ req.Body.length = 2)
    ∧ (∀ Do' : http.Request → Except GoError http.Response,
        (∀ req, req.Body = "\"\"" → Do' req = bx.client.Do req) →
          Client.GetUser { bx with client := { bx.client with Do := Do' } } id = bx.GetUser id
            ∧ Client.GetRole { bx with client := { bx.client with Do := Do' } } id
                = bx.GetRole id
            ∧ Client.DeleteUser { bx with client := { bx.client with Do := Do' } } id
                = bx.DeleteUser id
            ∧ Client.DeleteRole { bx with client := { bx.client with Do := Do' } } id
                = bx.DeleteRole id)
    ∧ ("\"\"" : String).length = 2
    ∧ ((∀ err, bx.client.newRequestError "GET"
            (bx.APIURL ++ ("/rest/v2/users/" ++ toString id)) = some err →
          bx.GetUser id = (User.zero, some (fmt.Errorf "request creation failed" err)))
      ∧ (bx.client.newRequestError "GET"
            (bx.APIURL ++ ("/rest/v2/users/" ++ toString id)) = none →
          (∀ err,
            bx.client.Do
                { Method := "GET", URL := bx.APIURL ++ ("/rest/v2/users/" ++ toString id),
                  Header := [("Content-Type", "application/json")], Body := "\"\"" }
              = .error err →
            bx.GetUser id = (User.zero, some (fmt.Errorf "request failed" err)))
          ∧ (∀ resp body,
            bx.client.Do
                { Method := "GET", URL := bx.APIURL ++ ("/rest/v2/users/" ++ toString id),
                  Header := [("Content-Type", "application/json")], Body := "\"\"" }
              = .ok resp →
            resp.Body = .ok body →
            bx.GetUser id
              = if 200 ≤ resp.StatusCode ∧ resp.StatusCode < 300 then
                  UnmarshalUser body User.zero
                else (User.zero, some (errors.New
                  ("response " ++ resp.Status ++ " instead. API response: " ++ body))))))
    ∧ ((∀ err, bx.client.newRequestError "GET"
            (bx.APIURL ++ ("/rest/v2/roles/" ++ toString id)) = some err →
          bx.GetRole id = (Role.zero, some (fmt.Errorf "request creation failed" err)))
      ∧ (bx.client.newRequestError "GET"
            (bx.APIURL ++ ("/rest/v2/roles/" ++ toString id)) = none →
          (∀ err,
            bx.client.Do
                { Method := "GET", URL := bx.APIURL ++ ("/rest/v2/roles/" ++ toString id),
                  Header := [("Content-Type", "application/json")], Body := "\"\"" }
              = .error err →
            bx.GetRole id = (Role.zero, some (fmt.Errorf "request failed" err)))
          ∧ (∀ resp body,
            bx.client.Do
                { Method := "GET", URL := bx.APIURL ++ ("/rest/v2/roles/" ++ toString id),
                  Header := [("Content-Type", "application/json")], Body := "\"\"" }
              = .ok resp →
            resp.Body = .ok body →
            bx.GetRole id
              = if 200 ≤ resp.StatusCode ∧ resp.StatusCode < 300 then
                  UnmarshalRole body Role.zero
                else (Role.zero, some (errors.New
                  ("response " ++ resp.Status ++ " instead. API response: " ++ body))))))
    ∧ ((∀ err, bx.client.newRequestError "DELETE"
            (bx.APIURL ++ ("/rest/v2/users/" ++ toString id)) = some err →
          bx.DeleteUser id = some (fmt.Errorf "request creation failed" err))
      ∧ (bx.client.newRequestError "DELETE"
            (bx.APIURL ++ ("/rest/v2/users/" ++ toString id)) = none →
          (∀ err,
            bx.client.Do
                { Method := "DELETE", URL := bx.APIURL ++ ("/rest/v2/users/" ++ toString id),
                  Header := [("Content-Type", "application/json")], Body := "\"\"" }
              = .error err →
            bx.DeleteUser id = some (fmt.Errorf "request failed" err))
          ∧ (∀ resp err,
            bx.client.Do
                { Method := "DELETE", URL := bx.APIURL ++ ("/rest/v2/users/" ++ toString id),
                  Header := [("Content-Type", "application/json")], Body := "\"\"" }
              = .ok resp →
            resp.Body = .error err →
            bx.DeleteUser id = some (fmt.Errorf "can't read body response" err))
          ∧ (∀ resp body,
            bx.client.Do
                { Method := "DELETE", URL := bx.APIURL ++ ("/rest/v2/users/" ++ toString id),
                  Header := [("Content-Type", "application/json")], Body := "\"\"" }
              = .ok resp →
            resp.Body = .ok body →
            bx.DeleteUser id
              = if 200 ≤ resp.StatusCode ∧ resp.StatusCode < 300 then none
                else some (errors.New
                  ("response " ++ resp.Status ++ " instead. API response: " ++ body)))))
    ∧ ((∀ err, bx.client.newRequestError "DELETE"
            (bx.APIURL ++ ("/rest/v2/roles/" ++ toString id)) = some err →
          bx.DeleteRole id = some (fmt.Errorf "request creation failed" err))
      ∧ (bx.client.newRequestError "DELETE"
            (bx.APIURL ++ ("/rest/v2/roles/" ++ toString id)) = none →
          (∀ err,
            bx.client.Do
                { Method := "DELETE", URL := bx.APIURL ++ ("/rest/v2/roles/" ++ toString id),
                  Header := [("Content-Type", "application/json")], Body := "\"\"" }
              = .error err →
            bx.DeleteRole id = some (fmt.Errorf "request failed" err))
          ∧ (∀ resp err,
            bx.client.Do
                { Method := "DELETE", URL := bx.APIURL ++ ("/rest/v2/roles/" ++ toString id),
                  Header := [("Content-Type", "application/json")], Body := "\"\"" }
              = .ok resp →
            resp.Body = .error err →
            bx.DeleteRole id = some (fmt.Errorf "can't read body response" err))
          ∧ (∀ resp body,
            bx.client.Do
                { Method := "DELETE", URL := bx.APIURL ++ ("/rest/v2/roles/" ++ toString id),
                  Header := [("Content-Type", "application/json")], Body := "\"\"" }
              = .ok resp →
            resp.Body = .ok body →
            bx.DeleteRole id
              = if 200 ≤ resp.StatusCode ∧ resp.StatusCode < 300 then none
                else some (errors.New
                  ("response " ++ resp.Status ++ " instead. API response: " ++ body))))) := by
  refine ⟨?_, ?_, ?_, ?_, ?_, by decide, Client.GetUser_outcomes bx id,
    Client.GetRole_outcomes bx id,
    Client.request_error_outcomes bx "DELETE" ("/rest/v2/users/" ++ toString id)
      (.string "") "\"\"" Marshal_empty_string.1,
    Client.request_error_outcomes bx "DELETE" ("/rest/v2/roles/" ++ toString id)
      (.string "") "\"\"" Marshal_empty_string.1⟩
  · intro req h; exact Client.newRequest_empty_string bx _ _ req h
  · intro req h; exact Client.newRequest_empty_string bx _ _ req h
  · intro req h; exact Client.newRequest_empty_string bx _ _ req h
  · intro req h; exact Client.newRequest_empty_string bx _ _ req h
  · intro Do' hDo
    have key : ∀ method path : String,
        Client.request { bx with client := { bx.client with Do := Do' } } method path (.string "")
          = bx.request method path (.string "")  := by
      intro method path
      apply Client.request_congr
      intro req hreq
      exact hDo req (Client.newRequest_empty_string bx _ _ req hreq).2.2.1
    refine ⟨?_, ?_, ?_, ?_⟩
    · unfold Client.GetUser; rw [key]
    · unfold Client.GetRole; rw [key]
    · unfold Client.DeleteUser; rw [key]
    · unfold Client.DeleteRole; rw [key]

/-- C12 (amended) at identifier 9: on a server that answers 200 only to a
DELETE on `/rest/v2/roles/9` whose body is the two bytes `""`, `DeleteRole`
succeeds; on a server that answers 200 only to such a request with an empty
body, it fails with the 404 answer; on a server that answers 200 only to a GET
on `/rest/v2/users/9` with the two-byte body, `GetUser` gets the 200 answer
and decodes its body; on a refused connection `DeleteUser` and `GetRole`
return the transport error. -/
theorem Get_Delete_request_body_witness :
    Client.DeleteRole
        (examples.serverOnly "DELETE" "https://example.test/rest/v2/roles/9"
          (fun body => body == "\"\"")) 9 = none
    ∧ Client.DeleteRole
        (examples.serverOnly "DELETE" "https://example.test/rest/v2/roles/9"
          (fun body => body == "")) 9
        = some (errors.New "response 404 Not Found instead. API response: ")
    ∧ Client.GetUser
        (examples.serverOnly "GET" "https://example.test/rest/v2/users/9"
          (fun body => body == "\"\"")) 9
        = UnmarshalUser "" User.zero
    ∧ Client.DeleteUser examples.refused 9
        = some (fmt.Errorf "request failed" (.library "dial tcp: connection refused"))
    ∧ Client.GetRole examples.refused 9
        = (Role.zero,
            some (fmt.Errorf "request failed" (.library "dial tcp: connection refused")))
    ∧ (∀ req, (examples.server "200 OK" 200 "").newRequest "GET"
          ("/rest/v2/users/" ++ toString (9 : Int)) (.string "") = .ok req →
        req.Method = "GET" ∧ req.URL = "https://example.test" ++ ("/rest/v2/users/" ++ "9")
          ∧ req.Body = "\"\"" ∧ req.Body.length = 2) :=
  ⟨((Get_Delete_request_body
        (examples.serverOnly "DELETE" "https://example.test/rest/v2/roles/9"
          (fun body => body == "\"\"")) 9).2.2.2.2.2.2.2.2.2.2 rfl).2.2
      { Status := "200 OK", StatusCode := 200, Body := .ok "" } "" rfl rfl,
   ((Get_Delete_request_body
        (examples.serverOnly "DELETE" "https://example.test/rest/v2/roles/9"
          (fun body => body == "")) 9).2.2.2.2.2.2.2.2.2.2 rfl).2.2
      { Status := "404 Not Found", StatusCode := 404, Body := .ok "" } "" rfl rfl,
   ((Get_Delete_request_body
        (examples.serverOnly "GET" "https://example.test/rest/v2/users/9"
          (fun body => body == "\"\"")) 9).2.2.2.2.2.2.1.2 rfl).2
      { Status := "200 OK", StatusCode := 200, Body := .ok "" } "" rfl rfl,
   ((Get_Delete_request_body examples.refused 9).2.2.2.2.2.2.2.2.1.2 rfl).1
      (.library "dial tcp: connection refused") rfl,
   ((Get_Delete_request_body examples.refused 9).2.2.2.2.2.2.2.1.2 rfl).1
      (.library "dial tcp: connection refused") rfl,
   (Get_Delete_request_body (examples.server "200 OK" 200 "") 9).1⟩

end beeswax

namespace provider

open beeswax

/-- When the gateway reports no error, `Update` writes the plan with the
identifier of the state on file. -/
theorem role_Update_of_success (r : roleResource) (plan state : roleResourceModel)
    (pd sd : diag.Diagnostics) (resp : resource.UpdateResponse roleResourceModel) :
    diag.Diagnostics.HasError ((resp.Diagnostics.Append pd).Append sd) = false →
    r.client.UpdateRole (roleResource.Update.role plan state) = none →
    r.Update { Plan := { Get := (plan, pd) }, State := { Get := (state, sd) } } resp
      = { State := { Raw := some { plan with ID := state.ID } },
          Diagnostics := (resp.Diagnostics.Append pd).Append sd } := by
  intro hpre hgw
  unfold roleResource.Update
  simp only [hpre]
  simp only [hgw]
  rfl

theorem user_Update_of_success (r : userResource) (plan state : userResourceModel)
    (pd sd : diag.Diagnostics) (resp : resource.UpdateResponse userResourceModel) :
    diag.Diagnostics.HasError ((resp.Diagnostics.Append pd).Append sd) = false →
    r.client.UpdateUser (userResource.Update.user plan state) = none →
    r.Update { Plan := { Get := (plan, pd) }, State := { Get := (state, sd) } } resp
      = { State := { Raw := some { plan with ID := state.ID } },
          Diagnostics := (resp.Diagnostics.Append pd).Append sd } := by
  intro hpre hgw
  unfold userResource.Update
  simp only [hpre]
  simp only [hgw]
  rfl

/-- C3: on Update, for roles and for users, the entity handed to the gateway
is the conversion of the plan with its identifier replaced by the identifier
of the state on file, whatever identifier the plan carries. The gateway is
called with exactly this entity: when it reports an error for it, Update
leaves the state as it was and adds the error; when it reports none, Update
writes the plan with the identifier of the state. Over the network, the PUT
goes to the path that ends in the state's identifier with the encoding of
this entity as body, and the answer to it decides the outcome. -/
theorem Update_preserves_identifier (r : roleResource) (u : userResource)
    (plan state : roleResourceModel) (uplan ustate : userResourceModel) :
    (((roleResource.Update.role plan state).ID = state.ID.ValueInt64
      ∧ (roleResource.Update.role plan state).Name = (convertToRole plan).Name
      ∧ (roleResource.Update.role plan state).ParentRoleID = (convertToRole plan).ParentRoleID
      ∧ (roleResource.Update.role plan state).Archived = (convertToRole plan).Archived
      ∧ (roleResource.Update.role plan state).Notes = (convertToRole plan).Notes
      ∧ (roleResource.Update.role plan state).SharedAcrossAccounts = (convertToRole plan).SharedAcrossAccounts
      ∧ (roleResource.Update.role plan state).Permissions = (convertToRole plan).Permissions
      ∧ (roleResource.Update.role plan state).ReportIDs = (convertToRole plan).ReportIDs)
      ∧ (∀ (resp : resource.UpdateResponse roleResourceModel) (pd sd : diag.Diagnostics),
          diag.Diagnostics.HasError ((resp.Diagnostics.Append pd).Append sd) = false →
          (∀ err,
              r.client.UpdateRole { convertToRole plan with ID := state.ID.ValueInt64 } = some err →
              r.Update { Plan := { Get := (plan, pd) }, State := { Get := (state, sd) } } resp
                = { State := resp.State,
                    Diagnostics := (resp.Diagnostics.Append pd).Append sd
                      ++ [{ Severity := diag.Severity.Error,
                            Summary := "Error updating role",
                            Detail := "Could not update role, unexpected error: "
                              ++ err.Error }] })
          ∧ (r.client.UpdateRole { convertToRole plan with ID := state.ID.ValueInt64 } = none →
              r.Update { Plan := { Get := (plan, pd) }, State := { Get := (state, sd) } } resp
                = { State := { Raw := some { plan with ID := state.ID } },
                    Diagnostics := (resp.Diagnostics.Append pd).Append sd })
          ∧ (r.client.client.newRequestError "PUT"
                (r.client.APIURL ++ ("/rest/v2/roles/" ++ toString state.ID.ValueInt64)) = none →
              (∀ err,
                r.client.client.Do
                  { Method := "PUT",
                    URL := r.client.APIURL ++ ("/rest/v2/roles/" ++ toString state.ID.ValueInt64),
                    Header := [("Content-Type", "application/json")],
                    Body := json.render (Role.toJSON
                      { convertToRole plan with ID := state.ID.ValueInt64 }) }
                  = .error err →
                r.Update { Plan := { Get := (plan, pd) }, State := { Get := (state, sd) } } resp
                = { State := resp.State,
                    Diagnostics := (resp.Diagnostics.Append pd).Append sd
                      ++ [{ Severity := diag.Severity.Error,
                            Summary := "Error updating role",
                            Detail := "Could not update role, unexpected error: "
                              ++ (fmt.Errorf "request failed" err).Error }] })
              ∧ (∀ ans body,
                r.client.client.Do
                  { Method := "PUT",
                    URL := r.client.APIURL ++ ("/rest/v2/roles/" ++ toString state.ID.ValueInt64),
                    Header := [("Content-Type", "application/json")],
                    Body := json.render (Role.toJSON
                      { convertToRole plan with ID := state.ID.ValueInt64 }) }
                  = .ok ans →
                ans.Body = .ok body →
                r.Update { Plan := { Get := (plan, pd) }, State := { Get := (state, sd) } } resp
                = if 200 ≤ ans.StatusCode ∧ ans.StatusCode < 300 then
                  { State := { Raw := some { plan with ID := state.ID } },
                    Diagnostics := (resp.Diagnostics.Append pd).Append sd }
                  else
                  { State := resp.State,
                    Diagnostics := (resp.Diagnostics.Append pd).Append sd
                      ++ [{ Severity := diag.Severity.Error,
                            Summary := "Error updating role",
                            Detail := "Could not update role, unexpected error: "
                              ++ (errors.New ("response " ++ ans.Status
                                  ++ " instead. API response: " ++ body)).Error }] }))))
    ∧ (((userResource.Update.user uplan ustate).ID = ustate.ID.ValueInt64
      ∧ (userResource.Update.user uplan ustate).SuperUser = (convertToUser uplan).SuperUser
      ∧ (userResource.Update.user uplan ustate).Email = (convertToUser uplan).Email
      ∧ (userResource.Update.user uplan ustate).FirstName = (convertToUser uplan).FirstName
      ∧ (userResource.Update.user uplan ustate).LastName = (convertToUser uplan).LastName
      ∧ (userResource.Update.user uplan ustate).RoleID = (convertToUser uplan).RoleID
      ∧ (userResource.Update.user uplan ustate).AccountID = (convertToUser uplan).AccountID
      ∧ (userResource.Update.user uplan ustate).Active = (convertToUser uplan).Active
      ∧ (userResource.Update.user uplan ustate).AllAccountAccess = (convertToUser uplan).AllAccountAccess
      ∧ (userResource.Update.user uplan ustate).AccountGroupIDs = (convertToUser uplan).AccountGroupIDs)
      ∧ (∀ (resp : resource.UpdateResponse userResourceModel) (pd sd : diag.Diagnostics),
          diag.Diagnostics.HasError ((resp.Diagnostics.Append pd).Append sd) = false →
          (∀ err,
              u.client.UpdateUser { convertToUser uplan with ID := ustate.ID.ValueInt64 } = some err →
              u.Update { Plan := { Get := (uplan, pd) }, State := { Get := (ustate, sd) } } resp
                = { State := resp.State,
                    Diagnostics := (resp.Diagnostics.Append pd).Append sd
                      ++ [{ Severity := diag.Severity.Error,
                            Summary := "Error updating user",
                            Detail := "Could not update user, unexpected error: "
                              ++ err.Error }] })
          ∧ (u.client.UpdateUser { convertToUser uplan with ID := ustate.ID.ValueInt64 } = none →
              u.Update { Plan := { Get := (uplan, pd) }, State := { Get := (ustate, sd) } } resp
                = { State := { Raw := some { uplan with ID := ustate.ID } },
                    Diagnostics := (resp.Diagnostics.Append pd).Append sd })
          ∧ (u.client.client.newRequestError "PUT"
                (u.client.APIURL ++ ("/rest/v2/users/" ++ toString ustate.ID.ValueInt64)) = none →
              (∀ err,
                u.client.client.Do
                  { Method := "PUT",
                    URL := u.client.APIURL ++ ("/rest/v2/users/" ++ toString ustate.ID.ValueInt64),
                    Header := [("Content-Type", "application/json")],
                    Body := json.render (User.toJSON
                      { convertToUser uplan with ID := ustate.ID.ValueInt64 }) }
                  = .error err →
                u.Update { Plan := { Get := (uplan, pd) }, State := { Get := (ustate, sd) } } resp
                = { State := resp.State,
                    Diagnostics := (resp.Diagnostics.Append pd).Append sd
                      ++ [{ Severity := diag.Severity.Error,
                            Summary := "Error updating user",
                            Detail := "Could not update user, unexpected error: "
                              ++ (fmt.Errorf "request failed" err).Error }] })
              ∧ (∀ ans body,
                u.client.client.Do
                  { Method := "PUT",
                    URL := u.client.APIURL ++ ("/rest/v2/users/" ++ toString ustate.ID.ValueInt64),
                    Header := [("Content-Type", "application/json")],
                    Body := json.render (User.toJSON
                      { convertToUser uplan with ID := ustate.ID.ValueInt64 }) }
                  = .ok ans →
                ans.Body = .ok body →
                u.Update { Plan := { Get := (uplan, pd) }, State := { Get := (ustate, sd) } } resp
                = if 200 ≤ ans.StatusCode ∧ ans.StatusCode < 300 then
                  { State := { Raw := some { uplan with ID := ustate.ID } },
                    Diagnostics := (resp.Diagnostics.Append pd).Append sd }
                  else
                  { State := resp.State,
                    Diagnostics := (resp.Diagnostics.Append pd).Append sd
                      ++ [{ Severity := diag.Severity.Error,
                            Summary := "Error updating user",
                            Detail := "Could not update user, unexpected error: "
                              ++ (errors.New ("response " ++ ans.Status
                                  ++ " instead. API response: " ++ body)).Error }] }))))
    ∧ (∀ (r' : roleResource) (resp : resource.UpdateResponse roleResourceModel)
        (pd sd : diag.Diagnostics),
        r.client.UpdateRole (roleResource.Update.role plan state)
            = r'.client.UpdateRole (roleResource.Update.role plan state) →
          r.Update { Plan := { Get := (plan, pd) }, State := { Get := (state, sd) } } resp
            = r'.Update { Plan := { Get := (plan, pd) }, State := { Get := (state, sd) } } resp)
    ∧ (∀ (u' : userResource) (resp : resource.UpdateResponse userResourceModel)
        (pd sd : diag.Diagnostics),
        u.client.UpdateUser (userResource.Update.user uplan ustate)
            = u'.client.UpdateUser (userResource.Update.user uplan ustate) →
          u.Update { Plan := { Get := (uplan, pd) }, State := { Get := (ustate, sd) } } resp
            = u'.Update { Plan := { Get := (uplan, pd) }, State := { Get := (ustate, sd) } } resp) := by
  have hr := Client.request_error_outcomes r.client "PUT"
    ("/rest/v2/roles/" ++ toString state.ID.ValueInt64)
    (.role (roleResource.Update.role plan state))
    (json.render (Role.toJSON (roleResource.Update.role plan state))) rfl
  have hu := Client.request_error_outcomes u.client "PUT"
    ("/rest/v2/users/" ++ toString ustate.ID.ValueInt64)
    (.user (userResource.Update.user uplan ustate))
    (json.render (User.toJSON (userResource.Update.user uplan ustate))) rfl
  refine ⟨⟨⟨rfl, rfl, rfl, rfl, rfl, rfl, rfl, rfl⟩, ?_⟩,
    ⟨⟨rfl, rfl, rfl, rfl, rfl, rfl, rfl, rfl, rfl, rfl⟩, ?_⟩, ?_, ?_⟩
  · intro resp pd sd hpre
    refine ⟨?_, ?_, ?_⟩
    · intro err hgw
      exact role_Update_of_error r plan state pd sd resp err hpre hgw
    · intro hgw
      exact role_Update_of_success r plan state pd sd resp hpre hgw
    · intro hn
      refine ⟨?_, ?_⟩
      · intro err hdo
        exact role_Update_of_error r plan state pd sd resp _ hpre ((hr.2 hn).1 err hdo)
      · intro ans body hdo hbody
        have h := (hr.2 hn).2.2 ans body hdo hbody
        by_cases hc : 200 ≤ ans.StatusCode ∧ ans.StatusCode < 300
        · rw [if_pos hc] at h
          rw [if_pos hc]
          exact role_Update_of_success r plan state pd sd resp hpre h
        · rw [if_neg hc] at h
          rw [if_neg hc]
          exact role_Update_of_error r plan state pd sd resp _ hpre h
  · intro resp pd sd hpre
    refine ⟨?_, ?_, ?_⟩
    · intro err hgw
      exact user_Update_of_error u uplan ustate pd sd resp err hpre hgw
    · intro hgw
      exact user_Update_of_success u uplan ustate pd sd resp hpre hgw
    · intro hn
      refine ⟨?_, ?_⟩
      · intro err hdo
        exact user_Update_of_error u uplan ustate pd sd resp _ hpre ((hu.2 hn).1 err hdo)
      · intro ans body hdo hbody
        have h := (hu.2 hn).2.2 ans body hdo hbody
        by_cases hc : 200 ≤ ans.StatusCode ∧ ans.StatusCode < 300
        · rw [if_pos hc] at h
          rw [if_pos hc]
          exact user_Update_of_success u uplan ustate pd sd resp hpre h
        · rw [if_neg hc] at h
          rw [if_neg hc]
          exact user_Update_of_error u uplan ustate pd sd resp _ hpre h
  · intro r' resp pd sd h
    simp only [roleResource.Update, h]
  · intro u' resp pd sd h
    simp only [userResource.Update, h]

/-- C3 at a plan that renames the entity and whose identifier is unset (role)
or 0 (user), and a state on file with identifier 42. On a server that answers 200 only to a PUT on
`/rest/v2/roles/42` (`/rest/v2/users/42`) whose body starts with `"id":42`,
Update succeeds and writes the plan with identifier 42; on a server that
answers 200 only to a PUT on `/rest/v2/roles/0`, Update of the role fails
with the 404 answer and leaves the state on file. -/
theorem Update_preserves_identifier_witness :
    roleResource.Update
        { client := examples.serverOnly "PUT" "https://example.test/rest/v2/roles/42"
            (fun body => "\x7b\"id\":42,".toList.isPrefixOf body.toList) }
        { Plan := { Get := ({ examples.rolePlan with Name := .known "Operations" }, []) },
          State := { Get := (examples.roleState42, []) } }
        (examples.freshUpdate examples.roleState42)
      = { State := { Raw := some { examples.rolePlan with ID := .known 42, Name := .known "Operations" } },
          Diagnostics := [] }
    ∧ userResource.Update
        { client := examples.serverOnly "PUT" "https://example.test/rest/v2/users/42"
            (fun body => "\x7b\"id\":42,".toList.isPrefixOf body.toList) }
        { Plan := { Get := ({ examples.userPlan with FirstName := .known "Ann" }, []) },
          State := { Get := (examples.userState42, []) } }
        (examples.freshUpdate examples.userState42)
      = { State := { Raw := some { examples.userPlan with ID := .known 42, FirstName := .known "Ann" } },
          Diagnostics := [] }
    ∧ roleResource.Update
        { client := examples.serverOnly "PUT" "https://example.test/rest/v2/roles/0"
            (fun _ => true) }
        { Plan := { Get := ({ examples.rolePlan with Name := .known "Operations" }, []) },
          State := { Get := (examples.roleState42, []) } }
        (examples.freshUpdate examples.roleState42)
      = { State := { Raw := some examples.roleState42 },
          Diagnostics :=
            [{ Severity := diag.Severity.Error, Summary := "Error updating role",
               Detail := "Could not update role, unexpected error: "
                 ++ "response 404 Not Found instead. API response: " }] }
    ∧ (convertToRole { examples.rolePlan with Name := .known "Operations" }).ID = 0
    ∧ (convertToUser { examples.userPlan with FirstName := .known "Ann" }).ID = 0 :=
  ⟨((((Update_preserves_identifier
        { client := examples.serverOnly "PUT" "https://example.test/rest/v2/roles/42"
            (fun body => "\x7b\"id\":42,".toList.isPrefixOf body.toList) }
        { client := examples.refused }
        { examples.rolePlan with Name := .known "Operations" } examples.roleState42
        { examples.userPlan with FirstName := .known "Ann" } examples.userState42).1.2
      (examples.freshUpdate examples.roleState42) [] [] rfl).2.2 rfl).2
      { Status := "200 OK", StatusCode := 200, Body := .ok "" } "" rfl rfl),
   ((((Update_preserves_identifier
        { client := examples.refused }
        { client := examples.serverOnly "PUT" "https://example.test/rest/v2/users/42"
            (fun body => "\x7b\"id\":42,".toList.isPrefixOf body.toList) }
        { examples.rolePlan with Name := .known "Operations" } examples.roleState42
        { examples.userPlan with FirstName := .known "Ann" } examples.userState42).2.1.2
      (examples.freshUpdate examples.userState42) [] [] rfl).2.2 rfl).2
      { Status := "200 OK", StatusCode := 200, Body := .ok "" } "" rfl rfl),
   ((((Update_preserves_identifier
        { client := examples.serverOnly "PUT" "https://example.test/rest/v2/roles/0"
            (fun _ => true) }
        { client := examples.refused }
        { examples.rolePlan with Name := .known "Operations" } examples.roleState42
        { examples.userPlan with FirstName := .known "Ann" } examples.userState42).1.2
      (examples.freshUpdate examples.roleState42) [] [] rfl).2.2 rfl).2
      { Status := "404 Not Found", StatusCode := 404, Body := .ok "" } "" rfl rfl),
   rfl, rfl⟩

end provider
